import Mathlib

/-!
# InsectBoids: a shallow embedding of `FInsectBoidsSimulator`

The development embeds `Source/InsectBoids/Private/InsectBoidsSimulator.cpp` and
`Source/InsectBoids/Public/InsectBoidsSimulator.h`.

Conventions of the embedding:

* `float`/`FVector` scalars are elements of an ordered field `K` with a floor
  function (exact arithmetic); `ℚ` gives an executable instance.
* `int32` values are `Int`, or `Nat` where the source only ever produces loop
  counters starting at zero (the indices stored in the spatial hash grid). Where an
  `int32` can leave its range, `ToInt32` keeps the low 32 bits: the cell coordinates
  (a conversion, then the sum with a block offset) and the end index of a batch.
* `TArray` is `List`, `TMap` is an association list read through `TMap.Find`.
* Engine routines that the simulator relies on but does not define (`FMath::Sqrt`,
  `FMath::PerlinNoise1D`, `FMath::RandPointInBox`) are the fields of an `Engine`
  record passed to the functions that use them.
* `NumParticlesPerTask`, `NeighborGridSize` and `GridSize` have member initialisers
  and are never assigned: they are constants.
* A failed engine `check`/range check and a loop that has not finished within
  its fuel are the two faults of `Except Fault`.
* A quotient by a noise size of zero, an infinity or a NaN in the source, has no
  counterpart in a field: the statement on the written position assumes non-zero
  noise sizes.
-/

set_option linter.unusedSectionVars false

namespace InsectBoids

/-! ## Engine types -/

/-- The two ways an embedded call can fail to produce a state. -/
inductive Fault where
  | CheckFailed
  | OutOfFuel
  deriving DecidableEq, Repr

/-- Engine vector `FVector`. -/
structure FVector (K : Type) where
  X : K
  Y : K
  Z : K
  deriving DecidableEq, Repr

/-- Engine integer vector `FIntVector`. -/
structure FIntVector where
  X : Int
  Y : Int
  Z : Int
  deriving DecidableEq, Repr

/-- Engine routines used by the simulator whose code is not part of the repository. -/
structure Engine (K : Type) where
  /-- `FMath::Sqrt`. -/
  Sqrt : K → K
  /-- `FMath::PerlinNoise1D`. -/
  PerlinNoise1D : K → K
  /-- The result of the `n`-th call of `FMath::RandPointInBox`, given the corners of the box. -/
  RandPointInBox : Nat → FVector K → FVector K → FVector K

namespace FVector

variable {K : Type} [LinearOrderedField K]

/-- `FVector(F)`: all three components equal to `F`. -/
def splat (F : K) : FVector K := ⟨F, F, F⟩

/-- `FVector::Zero()`. -/
def Zero : FVector K := ⟨0, 0, 0⟩

/-- `operator+`. -/
def add (a b : FVector K) : FVector K := ⟨a.X + b.X, a.Y + b.Y, a.Z + b.Z⟩

/-- `operator-`. -/
def sub (a b : FVector K) : FVector K := ⟨a.X - b.X, a.Y - b.Y, a.Z - b.Z⟩

/-- `operator*(FVector, float)`. -/
def scale (a : FVector K) (f : K) : FVector K := ⟨a.X * f, a.Y * f, a.Z * f⟩

/-- `operator*(FVector, FVector)`, component-wise. -/
def mul (a b : FVector K) : FVector K := ⟨a.X * b.X, a.Y * b.Y, a.Z * b.Z⟩

/-- `operator/(FVector, float)`. -/
def divScalar (a : FVector K) (f : K) : FVector K := ⟨a.X / f, a.Y / f, a.Z / f⟩

/-- `operator/(FVector, FVector)`, component-wise. -/
def div (a b : FVector K) : FVector K := ⟨a.X / b.X, a.Y / b.Y, a.Z / b.Z⟩

/-- `FVector::SizeSquared`. -/
def SizeSquared (a : FVector K) : K := a.X * a.X + a.Y * a.Y + a.Z * a.Z

/-- `FVector::Length`. -/
def Length (E : Engine K) (a : FVector K) : K := E.Sqrt (SizeSquared a)

/-- `FVector::Dist`. -/
def Dist (E : Engine K) (a b : FVector K) : K :=
  E.Sqrt (SizeSquared (sub b a))

/-- Modelled from the spec: `FVector::GetSafeNormal` is engine code outside the
repository; the spec (section 4.4) asks of safe normalisation that the zero-length
vector is mapped to the zero vector, and every other vector is scaled by the
inverse of its length. -/
def GetSafeNormal (E : Engine K) (a : FVector K) : FVector K :=
  if SizeSquared a = 0 then Zero else scale a (1 / E.Sqrt (SizeSquared a))

/-- `FMath::Lerp(A, B, Alpha) = A + Alpha * (B - A)` on vectors. -/
def Lerp (A B : FVector K) (Alpha : K) : FVector K :=
  add A (scale (sub B A) Alpha)

end FVector

/-- The `int32` that receives the integer `z`: a narrowing conversion and `int32`
arithmetic keep the low 32 bits, read in two's complement. -/
def ToInt32 (z : Int) : Int := (z + 2147483648) % 4294967296 - 2147483648

namespace FIntVector

/-- `operator+`, on `int32` components. -/
def add (a b : FIntVector) : FIntVector :=
  ⟨ToInt32 (a.X + b.X), ToInt32 (a.Y + b.Y), ToInt32 (a.Z + b.Z)⟩

end FIntVector

/-! ## Engine containers -/

/-- `TArray::operator[]` with its range check. -/
def TArray.get {α : Type} (a : List α) (i : Nat) : Except Fault α :=
  match a[i]? with
  | some x => .ok x
  | none => .error .CheckFailed

/-- `TArray::AddUnique`: append unless already present. -/
def TArray.AddUnique (a : List Nat) (i : Nat) : List Nat :=
  if i ∈ a then a else a ++ [i]

/-- `TMap::Find`: the value stored under a key, if any. -/
def TMap.Find {κ β : Type} [DecidableEq κ] : List (κ × β) → κ → Option β
  | [], _ => none
  | (k, v) :: t, key => if k = key then some v else TMap.Find t key

/-- `TMap::FindOrAdd` followed by a mutation `f` of the value through the
returned reference; a missing key is first added with the default value. -/
def TMap.FindOrAddThen {κ β : Type} [DecidableEq κ] (dflt : β) (f : β → β) :
    List (κ × β) → κ → List (κ × β)
  | [], key => [(key, f dflt)]
  | (k, v) :: t, key =>
      if k = key then (k, f v) :: t else (k, v) :: TMap.FindOrAddThen dflt f t key

/-! ## `InsectBoidsSimulator.h` -/

/-- `FInsectBoidsConfig`. -/
structure FInsectBoidsConfig (K : Type) where
  NumParticles : Int
  ParticleRepelDistance : K
  AttractDistance : K
  VelocityMultiplier : K
  RepelStrength : K
  AttractionStrength : K
  JitterStrength : K
  JitterNoiseSize : K
  JitterSubstepSize : K
  GlobalNoiseForceSize : K
  GlobalNoiseForceStrength : FVector K

/-- `FInsectBoidsParticle`. -/
structure FInsectBoidsParticle (K : Type) where
  Position : FVector K
  Velocity : FVector K
  deriving DecidableEq, Repr

/-- The member initialisers of `FInsectBoidsParticle`: position zero, velocity `(1, 0, 0)`. -/
def FInsectBoidsParticle.Defaulted {K : Type} [LinearOrderedField K] :
    FInsectBoidsParticle K :=
  ⟨FVector.splat 0, ⟨1, 0, 0⟩⟩

/-- A unit of work in `SimulationTasks`: the lambdas launched by `Simulate`. -/
inductive FTask (K : Type) where
  | SetupNeighborGrid
  | SimulateParticles (ParticleStartIndex : Int) (DeltaTime : K)

/-- `static constexpr int32 NeighborGridSize = 32`. -/
def NeighborGridSize : Nat := 32

/-- `int32 NumParticlesPerTask = 32`. -/
def NumParticlesPerTask : Int := 32

/-- `FVector GridSize = FVector(128.f)`. -/
def GridSize {K : Type} [LinearOrderedField K] : FVector K := FVector.splat 128

/-- The state of `FInsectBoidsSimulator`. `Particles0` and `Particles1` are the two
entries of `Particles[2]`. -/
structure FInsectBoidsSimulator (K : Type) where
  SimulationTasks : List (FTask K)
  Config : FInsectBoidsConfig K
  Particles0 : List (FInsectBoidsParticle K)
  Particles1 : List (FInsectBoidsParticle K)
  CurrentContext : Fin 2
  SpatialHashGrid : List (FIntVector × List Nat)

/-! ## `InsectBoidsSimulator.cpp` -/

namespace FInsectBoidsSimulator

variable {K : Type} [LinearOrderedField K] [FloorRing K]

/-- `Particles[Index]`. -/
def ParticlesAt (s : FInsectBoidsSimulator K) (Index : Fin 2) : List (FInsectBoidsParticle K) :=
  if Index = 0 then s.Particles0 else s.Particles1

/-- `GetReadParticles`: `Particles[CurrentContext ^ 1]`. -/
def GetReadParticles (s : FInsectBoidsSimulator K) : List (FInsectBoidsParticle K) :=
  ParticlesAt s (s.CurrentContext ^^^ 1)

/-- `GetWriteParticles`: `Particles[CurrentContext]`. -/
def GetWriteParticles (s : FInsectBoidsSimulator K) : List (FInsectBoidsParticle K) :=
  ParticlesAt s s.CurrentContext

/-- Assignment through the reference `GetWriteParticles()[i]`. -/
def SetWriteParticle (s : FInsectBoidsSimulator K) (i : Nat) (p : FInsectBoidsParticle K) :
    FInsectBoidsSimulator K :=
  if s.CurrentContext = 0 then { s with Particles0 := s.Particles0.set i p }
  else { s with Particles1 := s.Particles1.set i p }

/-- The cell coordinate both `SetupNeighborGrid` and `IterateOverNeighbors` compute:
`FMath::FloorToInt` of each component of `Position / GridSize`, assigned to the `int32`
components of an `FIntVector`. -/
def GridIndex (Position : FVector K) : FIntVector :=
  let ParticleGridIndex := FVector.div Position GridSize
  ⟨ToInt32 ⌊ParticleGridIndex.X⌋, ToInt32 ⌊ParticleGridIndex.Y⌋, ToInt32 ⌊ParticleGridIndex.Z⌋⟩

/-- `FlipParticleContext`: asserts that no task is outstanding, then toggles the index
(`check(IsInGameThread())` concerns the calling thread, which the embedding does not
represent). -/
def FlipParticleContext (s : FInsectBoidsSimulator K) : Except Fault (FInsectBoidsSimulator K) :=
  if s.SimulationTasks.isEmpty then .ok { s with CurrentContext := s.CurrentContext ^^^ 1 }
  else .error .CheckFailed

/-- The body of the loop of `SetupNeighborGrid` for particle `i`, with bucket cap `Cap`. -/
def SetupNeighborGridStep (Cap : Nat)
    (Grid : List (FIntVector × List Nat)) (ip : Nat × FInsectBoidsParticle K) :
    List (FIntVector × List Nat) :=
  TMap.FindOrAddThen []
    (fun NeighborArray =>
      if NeighborArray.length < Cap then TArray.AddUnique NeighborArray ip.1 else NeighborArray)
    Grid (GridIndex ip.2.Position)

/-- `SetupNeighborGrid` with the bucket cap as a parameter: `SpatialHashGrid.Empty()`, then
the loop over `i < GetReadParticles().Num()`, which reads `GetReadParticles()[i]` and so
runs over the read buffer paired with its indices. -/
def SetupNeighborGridWith (Cap : Nat) (s : FInsectBoidsSimulator K) : FInsectBoidsSimulator K :=
  { s with SpatialHashGrid :=
      (GetReadParticles s).enum.foldl (SetupNeighborGridStep Cap) [] }

/-- `SetupNeighborGrid`: the cap is `NeighborGridSize`. -/
def SetupNeighborGrid (s : FInsectBoidsSimulator K) : FInsectBoidsSimulator K :=
  SetupNeighborGridWith NeighborGridSize s

/-- The innermost part of `IterateOverNeighbors`: one cell of the block. -/
def IterateOverCell {σ : Type} (s : FInsectBoidsSimulator K) (ParticleIndex : Nat)
    (Function : Nat → σ → Except Fault σ) (Cell : FIntVector) (acc : σ) : Except Fault σ :=
  match TMap.Find s.SpatialHashGrid Cell with
  | some NeighborArray =>
      NeighborArray.foldlM
        (fun a NeighborIndex => if NeighborIndex = ParticleIndex then .ok a else Function NeighborIndex a)
        acc
  | none => .ok acc

/-- `IterateOverNeighbors`: the state `σ` is what the visitor captures by reference. -/
def IterateOverNeighbors {σ : Type} (s : FInsectBoidsSimulator K) (ParticleIndex : Nat)
    (Function : Nat → σ → Except Fault σ) (acc : σ) : Except Fault σ := do
  let Particle ← TArray.get (GetReadParticles s) ParticleIndex
  let ParticleIntIndex := GridIndex Particle.Position
  List.foldlM (fun ax x =>
    List.foldlM (fun ay y =>
      List.foldlM (fun az z =>
        IterateOverCell s ParticleIndex Function (FIntVector.add ParticleIntIndex ⟨x, y, z⟩) az)
        ay ([-1, 0, 1] : List Int))
      ax ([-1, 0, 1] : List Int))
    acc ([-1, 0, 1] : List Int)

/-- `CalculateSteerAwayVector`: returns the updated `OutSteerVector`. -/
def CalculateSteerAwayVector (E : Engine K) (Config : FInsectBoidsConfig K)
    (CurrentParticle OtherParticle : FInsectBoidsParticle K) (OutSteerVector : FVector K) :
    FVector K :=
  if FVector.Dist E CurrentParticle.Position OtherParticle.Position ≤ Config.ParticleRepelDistance then
    let SteerAwayVector := FVector.sub CurrentParticle.Position OtherParticle.Position
    let SteerAwayVector := FVector.scale (FVector.GetSafeNormal E SteerAwayVector)
      ((Config.ParticleRepelDistance - FVector.Length E SteerAwayVector) / Config.ParticleRepelDistance)
    FVector.add OutSteerVector SteerAwayVector
  else OutSteerVector

/-- `CalculateCenterPosition`: returns the updated `(OutParticleCenter, OutParticlesSampled)`. -/
def CalculateCenterPosition (E : Engine K) (Config : FInsectBoidsConfig K)
    (CurrentParticle OtherParticle : FInsectBoidsParticle K) (Out : FVector K × Int) :
    FVector K × Int :=
  if FVector.Dist E CurrentParticle.Position OtherParticle.Position ≤ Config.AttractDistance then
    (FVector.add Out.1 OtherParticle.Position, Out.2 + 1)
  else Out

/-- The `for` loop of `ApplyParticleJitter`, entered at its condition with the current
`JitTime` and `SubstepDelta`; `fuel` bounds the number of iterations. -/
def ApplyParticleJitterLoop (E : Engine K) (Config : FInsectBoidsConfig K) (DeltaSeconds : K) :
    Nat → K → K → FInsectBoidsParticle K → Except Fault (FInsectBoidsParticle K)
  | 0, JitTime, _, CurrentParticle =>
      if JitTime < DeltaSeconds then .error .OutOfFuel else .ok CurrentParticle
  | fuel + 1, JitTime, SubstepDelta, CurrentParticle =>
      if JitTime < DeltaSeconds then
        let ParticlePosition := FVector.divScalar CurrentParticle.Position Config.JitterNoiseSize
        let Jitter : FVector K :=
          ⟨E.PerlinNoise1D ParticlePosition.X, E.PerlinNoise1D ParticlePosition.Y,
            E.PerlinNoise1D ParticlePosition.Z⟩
        let Jitter := FVector.scale Jitter
          ((Config.JitterStrength / Config.JitterSubstepSize) * SubstepDelta)
        let CurrentParticle :=
          { CurrentParticle with Position := FVector.add CurrentParticle.Position Jitter }
        let SubstepDelta := min Config.JitterSubstepSize (DeltaSeconds - JitTime)
        ApplyParticleJitterLoop E Config DeltaSeconds fuel (JitTime + SubstepDelta) SubstepDelta
          CurrentParticle
      else .ok CurrentParticle

/-- `ApplyParticleJitter`: the loop started with `JitTime = 0` and `SubstepDelta = 0`. -/
def ApplyParticleJitter (E : Engine K) (Config : FInsectBoidsConfig K) (fuel : Nat)
    (CurrentParticle : FInsectBoidsParticle K) (DeltaSeconds : K) :
    Except Fault (FInsectBoidsParticle K) :=
  ApplyParticleJitterLoop E Config DeltaSeconds fuel 0 0 CurrentParticle

/-- `ApplyParticleGlobalMovementVector`. -/
def ApplyParticleGlobalMovementVector (E : Engine K) (Config : FInsectBoidsConfig K)
    (CurrentParticle : FInsectBoidsParticle K) (DeltaSeconds : K) : FInsectBoidsParticle K :=
  let ParticlePosition := FVector.divScalar CurrentParticle.Position Config.GlobalNoiseForceSize
  let MovementNoise : FVector K :=
    ⟨E.PerlinNoise1D ParticlePosition.X, E.PerlinNoise1D ParticlePosition.Y,
      E.PerlinNoise1D ParticlePosition.Z⟩
  { CurrentParticle with
    Position := FVector.add CurrentParticle.Position
      (FVector.scale (FVector.mul MovementNoise Config.GlobalNoiseForceStrength) DeltaSeconds) }

/-- Lines 126-136 of `SimulateParticles`: the visitor run over the neighbours of particle
`i`, accumulating `(SteerAwayDirection, (ParticleCenter, NumParticlesCenter))`. -/
def AccumulateNeighbors (E : Engine K) (s : FInsectBoidsSimulator K) (i : Nat)
    (CurrentWriteParticle : FInsectBoidsParticle K) : Except Fault (FVector K × FVector K × Int) :=
  IterateOverNeighbors s i
    (fun Neighbor acc => do
      let OtherParticle ← TArray.get (GetReadParticles s) Neighbor
      pure (CalculateSteerAwayVector E s.Config CurrentWriteParticle OtherParticle acc.1,
        CalculateCenterPosition E s.Config CurrentWriteParticle OtherParticle acc.2))
    (FVector.Zero, (FVector.Zero, 0))

/-- Lines 138-143 of `SimulateParticles`. The declaration in the condition reads
`const float SteerAwayDirectionLength = SteerAwayDirection.Length() != 0.f`: the
variable receives the value of the comparison (`1` or `0`), not the length. -/
def SteerAwayStep (E : Engine K) (Config : FInsectBoidsConfig K)
    (CurrentWriteParticle : FInsectBoidsParticle K) (SteerAwayDirection : FVector K) :
    FInsectBoidsParticle K :=
  let SteerAwayDirectionLength : K := if FVector.Length E SteerAwayDirection ≠ 0 then 1 else 0
  if SteerAwayDirectionLength ≠ 0 then
    let SteerAwayDirection := FVector.divScalar SteerAwayDirection SteerAwayDirectionLength
    { CurrentWriteParticle with
      Velocity := FVector.Lerp CurrentWriteParticle.Velocity SteerAwayDirection Config.RepelStrength }
  else CurrentWriteParticle

/-- Lines 145-151 of `SimulateParticles`. -/
def SteerCenterStep (E : Engine K) (Config : FInsectBoidsConfig K)
    (CurrentWriteParticle : FInsectBoidsParticle K) (ParticleCenter : FVector K)
    (NumParticlesCenter : Int) : FInsectBoidsParticle K :=
  if NumParticlesCenter > 0 then
    let ParticleCenter := FVector.divScalar ParticleCenter (NumParticlesCenter : K)
    let ParticleCenterVector :=
      FVector.GetSafeNormal E (FVector.sub ParticleCenter CurrentWriteParticle.Position)
    { CurrentWriteParticle with
      Velocity :=
        FVector.Lerp CurrentWriteParticle.Velocity ParticleCenterVector Config.AttractionStrength }
  else CurrentWriteParticle

/-- Lines 153-154 of `SimulateParticles`. -/
def MoveStep (Config : FInsectBoidsConfig K) (CurrentWriteParticle : FInsectBoidsParticle K)
    (DeltaTime : K) : FInsectBoidsParticle K :=
  { CurrentWriteParticle with
    Position := FVector.add CurrentWriteParticle.Position
      (FVector.scale (FVector.scale CurrentWriteParticle.Velocity DeltaTime)
        Config.VelocityMultiplier) }

/-- The body of the loop of `SimulateParticles` for index `i`. The write slot is a
reference into the write buffer; the value it holds when the body ends is stored. -/
def SimulateParticle (E : Engine K) (fuel : Nat) (s : FInsectBoidsSimulator K) (i : Int)
    (DeltaTime : K) : Except Fault (FInsectBoidsSimulator K) :=
  if i < 0 then .error .CheckFailed
  else do
    let _ ← TArray.get (GetWriteParticles s) i.toNat
    let CurrentWriteParticle ← TArray.get (GetReadParticles s) i.toNat
    let acc ← AccumulateNeighbors E s i.toNat CurrentWriteParticle
    let CurrentWriteParticle := SteerAwayStep E s.Config CurrentWriteParticle acc.1
    let CurrentWriteParticle := SteerCenterStep E s.Config CurrentWriteParticle acc.2.1 acc.2.2
    let CurrentWriteParticle := MoveStep s.Config CurrentWriteParticle DeltaTime
    let CurrentWriteParticle ← ApplyParticleJitter E s.Config fuel CurrentWriteParticle DeltaTime
    let CurrentWriteParticle :=
      ApplyParticleGlobalMovementVector E s.Config CurrentWriteParticle DeltaTime
    pure (SetWriteParticle s i.toNat CurrentWriteParticle)

/-- The values the loop variable of `SimulateParticles` takes, in order:
`for (i = ParticleStartIndex; i < FMath::Min(ParticleEndIndex, Num); ++i)`. -/
def SimulateParticlesIndices (Num : Nat) (ParticleStartIndex ParticleEndIndex : Int) : List Int :=
  (List.range (min ParticleEndIndex (Num : Int) - ParticleStartIndex).toNat).map
    fun (k : Nat) => ParticleStartIndex + (k : Int)

/-- `SimulateParticles`: the loop bound `FMath::Min(ParticleEndIndex, GetReadParticles().Num())`
is fixed on entry, since the body does not change the length of the read buffer. -/
def SimulateParticles (E : Engine K) (fuel : Nat) (s : FInsectBoidsSimulator K)
    (ParticleStartIndex ParticleEndIndex : Int) (DeltaTime : K) :
    Except Fault (FInsectBoidsSimulator K) :=
  (SimulateParticlesIndices (GetReadParticles s).length ParticleStartIndex
      ParticleEndIndex).foldlM
    (fun st i => SimulateParticle E fuel st i DeltaTime) s

/-- Running one launched unit of work to completion. The end index of a batch,
`ParticleStartIndex + SharedThis->NumParticlesPerTask`, is an `int32` sum. -/
def RunTask (E : Engine K) (fuel : Nat) (s : FInsectBoidsSimulator K) :
    FTask K → Except Fault (FInsectBoidsSimulator K)
  | .SetupNeighborGrid => .ok (SetupNeighborGrid s)
  | .SimulateParticles ParticleStartIndex DeltaTime =>
      SimulateParticles E fuel s ParticleStartIndex
        (ToInt32 (ParticleStartIndex + NumParticlesPerTask)) DeltaTime

/-- `UE::Tasks::Wait(SimulationTasks)`: every outstanding unit has completed when the
call returns; the units are run in launch order, which respects the dependency of the
particle units on the grid unit. -/
def Wait (E : Engine K) (fuel : Nat) (s : FInsectBoidsSimulator K) :
    Except Fault (FInsectBoidsSimulator K) :=
  s.SimulationTasks.foldlM (RunTask E fuel) s

/-- The number of particle tasks `Simulate` launches for `NumParticles` particles:
`NumParticles / NumParticlesPerTask + (NumParticles % NumParticlesPerTask != 0)`. -/
def NumParticleTasks (NumParticles : Int) : Int :=
  Int.tdiv NumParticles NumParticlesPerTask +
    (if Int.tmod NumParticles NumParticlesPerTask ≠ 0 then 1 else 0)

/-- The values of `ParticleStartIndex` captured by the tasks `Simulate` launches:
`i * NumParticlesPerTask` for each `i` below the number of tasks. -/
def ParticleTaskStarts (NumParticles : Int) : List Int :=
  (List.range (NumParticleTasks NumParticles).toNat).map
    fun (i : Nat) => (i : Int) * NumParticlesPerTask

/-- `Simulate`. -/
def Simulate (E : Engine K) (fuel : Nat) (s : FInsectBoidsSimulator K) (DeltaTime : K)
    (UpdatedConfig : FInsectBoidsConfig K) : Except Fault (FInsectBoidsSimulator K) := do
  let s ← Wait E fuel s
  let s := { s with SimulationTasks := [] }
  let s ← FlipParticleContext s
  let s := { s with Config := UpdatedConfig }
  let s := { s with SimulationTasks := s.SimulationTasks ++ [FTask.SetupNeighborGrid] }
  let NumParticles : Int := ((GetReadParticles s).length : Int)
  pure { s with
    SimulationTasks := s.SimulationTasks ++
      (ParticleTaskStarts NumParticles).map
        (fun ParticleStartIndex => FTask.SimulateParticles ParticleStartIndex DeltaTime) }

/-- The constructor `FInsectBoidsSimulator(InConfig, ParticleCenter)`; `AddDefaulted`
checks that the count is not negative. -/
def new (E : Engine K) (InConfig : FInsectBoidsConfig K) (ParticleCenter : FVector K) :
    Except Fault (FInsectBoidsSimulator K) :=
  if InConfig.NumParticles < 0 then .error .CheckFailed
  else
    let s : FInsectBoidsSimulator K :=
      { SimulationTasks := []
        Config := InConfig
        Particles0 := List.replicate InConfig.NumParticles.toNat FInsectBoidsParticle.Defaulted
        Particles1 := List.replicate InConfig.NumParticles.toNat FInsectBoidsParticle.Defaulted
        CurrentContext := 0
        SpatialHashGrid := [] }
    .ok ((List.range (GetWriteParticles s).length).foldl
      (fun st i => SetWriteParticle st i
        ⟨E.RandPointInBox i (FVector.sub ParticleCenter (FVector.splat 32))
            (FVector.add ParticleCenter (FVector.splat 32)),
          FVector.splat 0⟩)
      s)

/-! ## Vocabulary of the statements -/

/-- The indices, in storage order, of the particles of `ps` whose cell coordinate is `c`. -/
def IndicesInCell (ps : List (FInsectBoidsParticle K)) (c : FIntVector) : List Nat :=
  (ps.enum.filter (fun ip => GridIndex ip.2.Position = c)).map Prod.fst

/-- The bucket `TMap.Find` returns for a cell; a missing key reads as the empty bucket. -/
def Bucket (Grid : List (FIntVector × List Nat)) (c : FIntVector) : List Nat :=
  (TMap.Find Grid c).getD []

/-- The grid built from a particle list by the loop of `SetupNeighborGrid`. -/
def GridOf (Cap : Nat) (ps : List (FInsectBoidsParticle K)) : List (FIntVector × List Nat) :=
  ps.enum.foldl (SetupNeighborGridStep Cap) []

/-- The 27 offsets of the nested loops of `IterateOverNeighbors`, in loop order. -/
def BlockOffsets : List FIntVector :=
  ([-1, 0, 1] : List Int).flatMap fun x =>
    ([-1, 0, 1] : List Int).flatMap fun y =>
      ([-1, 0, 1] : List Int).map fun z => ⟨x, y, z⟩

/-- The indices one cell contributes to a neighbour query: its bucket without the
querying index. -/
def CellVisits (Grid : List (FIntVector × List Nat)) (ParticleIndex : Nat) (c : FIntVector) :
    List Nat :=
  (Bucket Grid c).filter (fun n => n ≠ ParticleIndex)

/-- The indices a neighbour query around cell `c` passes to its visitor, in call order. -/
def VisitList (Grid : List (FIntVector × List Nat)) (ParticleIndex : Nat) (c : FIntVector) :
    List Nat :=
  BlockOffsets.flatMap fun o => CellVisits Grid ParticleIndex (FIntVector.add c o)

/-- Two cells differ by at most one on every axis. -/
def Adjacent (a b : FIntVector) : Prop :=
  |a.X - b.X| ≤ 1 ∧ |a.Y - b.Y| ≤ 1 ∧ |a.Z - b.Z| ≤ 1

instance (a b : FIntVector) : Decidable (Adjacent a b) := by
  unfold Adjacent; infer_instance

/-- The cell coordinate `floor(position / 128)` as an integer of unbounded size, before it
is stored in an `int32`. -/
def FloorIndex (Position : FVector K) : FIntVector :=
  ⟨⌊Position.X / 128⌋, ⌊Position.Y / 128⌋, ⌊Position.Z / 128⌋⟩

/-- The cell coordinates of `Position` are of absolute value below `2 ^ 31` on every axis,
so that they, and the differences of two of them, are kept by the `int32` of the grid. -/
def CellFits (Position : FVector K) : Prop :=
  |(FloorIndex Position).X| < 2147483648 ∧ |(FloorIndex Position).Y| < 2147483648 ∧
    |(FloorIndex Position).Z| < 2147483648

/-- The `int32` cell `a` is one of the 27 cells a neighbour query around the `int32` cell
`b` looks up: on every axis the `int32` difference is `-1`, `0` or `1`. -/
def Reaches (a b : FIntVector) : Prop :=
  |ToInt32 (a.X - b.X)| ≤ 1 ∧ |ToInt32 (a.Y - b.Y)| ≤ 1 ∧ |ToInt32 (a.Z - b.Z)| ≤ 1

instance (a b : FIntVector) : Decidable (Reaches a b) := by
  unfold Reaches; infer_instance

instance (Position : FVector K) : Decidable (CellFits Position) := by
  unfold CellFits; infer_instance

/-- The engine square root is exact: non-negative, and squaring to its argument on
non-negative arguments. -/
def SqrtExact (E : Engine K) : Prop :=
  ∀ x : K, 0 ≤ x → 0 ≤ E.Sqrt x ∧ E.Sqrt x * E.Sqrt x = x

/-- The states `s` and `t` differ at most in the contents (not the length) of the write
buffer and in the spatial hash grid. -/
def SameFrame (s t : FInsectBoidsSimulator K) : Prop :=
  t.Config = s.Config ∧ t.CurrentContext = s.CurrentContext ∧
    t.SimulationTasks = s.SimulationTasks ∧ GetReadParticles t = GetReadParticles s ∧
    (GetWriteParticles t).length = (GetWriteParticles s).length

/-- The state `Simulate` returns once `Wait` has produced `sw`: tasks emptied, context
flipped, configuration adopted, grid task and particle tasks launched. -/
def Launched (sw : FInsectBoidsSimulator K) (DeltaTime : K)
    (UpdatedConfig : FInsectBoidsConfig K) : FInsectBoidsSimulator K :=
  { sw with
    SimulationTasks := FTask.SetupNeighborGrid ::
      (ParticleTaskStarts ((GetWriteParticles sw).length : Int)).map
        (fun ParticleStartIndex => FTask.SimulateParticles ParticleStartIndex DeltaTime)
    Config := UpdatedConfig
    CurrentContext := sw.CurrentContext ^^^ 1 }

/-- The particles a neighbour query of particle `i` (with baseline `cur`) hands to the
visitor of `SimulateParticles`, in call order. -/
def VisitedParticles (s : FInsectBoidsSimulator K) (i : Nat) (cur : FInsectBoidsParticle K) :
    List (FInsectBoidsParticle K) :=
  (VisitList s.SpatialHashGrid i (GridIndex cur.Position)).filterMap
    fun n => (GetReadParticles s)[n]?

/-- The sum of the repulsion contributions of the particles of `L` on `cur`. -/
def SteerSum (E : Engine K) (Config : FInsectBoidsConfig K) (cur : FInsectBoidsParticle K)
    (L : List (FInsectBoidsParticle K)) : FVector K :=
  L.foldl (fun acc o => CalculateSteerAwayVector E Config cur o acc) FVector.Zero

/-- The particles of `L` within `AttractDistance` of `cur`. -/
def AttractNeighbors (E : Engine K) (Config : FInsectBoidsConfig K)
    (cur : FInsectBoidsParticle K) (L : List (FInsectBoidsParticle K)) :
    List (FInsectBoidsParticle K) :=
  L.filter fun o => FVector.Dist E cur.Position o.Position ≤ Config.AttractDistance

/-- The sum of the positions of the particles of `L`. -/
def SumPositions (L : List (FInsectBoidsParticle K)) : FVector K :=
  L.foldl (fun acc o => FVector.add acc o.Position) FVector.Zero

/-- The particle of index `i` after the two velocity blends of `SimulateParticles`
(lines 138-151), `cur` being its baseline copied from the read buffer. -/
def SteeredParticle (E : Engine K) (s : FInsectBoidsSimulator K) (i : Nat)
    (cur : FInsectBoidsParticle K) : FInsectBoidsParticle K :=
  SteerCenterStep E s.Config
    (SteerAwayStep E s.Config cur (SteerSum E s.Config cur (VisitedParticles s i cur)))
    (SumPositions (AttractNeighbors E s.Config cur (VisitedParticles s i cur)))
    ((AttractNeighbors E s.Config cur (VisitedParticles s i cur)).length : Int)

/-- A number of iterations that suffices for the loop of `ApplyParticleJitter` when the
sub-step size is positive. -/
def JitterFuel (DeltaSeconds JitterSubstepSize : K) : Nat :=
  ⌈DeltaSeconds / JitterSubstepSize⌉₊

/-- Every index stored in the spatial hash grid is an index of the read buffer, as is the
case once `SetupNeighborGrid` has run. -/
def GridValid (s : FInsectBoidsSimulator K) : Prop :=
  ∀ c, ∀ n ∈ Bucket s.SpatialHashGrid c, n < (GetReadParticles s).length

/-- The velocity of particle `i` after the repulsion step (lines 138-143), `cur` being its
baseline copied from the read buffer. -/
def RepelledVelocity (E : Engine K) (s : FInsectBoidsSimulator K) (i : Nat)
    (cur : FInsectBoidsParticle K) : FVector K :=
  (SteerAwayStep E s.Config cur (SteerSum E s.Config cur (VisitedParticles s i cur))).Velocity

/-- A sequence of `Simulate` calls, each with its `DeltaTime` and configuration. -/
def SimulateAll (E : Engine K) (fuel : Nat) (s : FInsectBoidsSimulator K)
    (calls : List (K × FInsectBoidsConfig K)) : Except Fault (FInsectBoidsSimulator K) :=
  calls.foldlM (fun st c => Simulate E fuel st c.1 c.2) s

/-- Construction followed by a sequence of `Simulate` calls. -/
def Run (E : Engine K) (fuel : Nat) (InConfig : FInsectBoidsConfig K) (ParticleCenter : FVector K)
    (calls : List (K × FInsectBoidsConfig K)) : Except Fault (FInsectBoidsSimulator K) :=
  new E InConfig ParticleCenter >>= fun s => SimulateAll E fuel s calls

/-- The jitter loop of a call can end: positive sub-step size or non-positive `DeltaTime`,
and the fuel covers `JitterFuel`. -/
def CallEnds (fuel : Nat) (DeltaTime : K) (Config : FInsectBoidsConfig K) : Prop :=
  (0 < Config.JitterSubstepSize ∨ DeltaTime ≤ 0) ∧
    JitterFuel DeltaTime Config.JitterSubstepSize ≤ fuel

/-- The outstanding tasks of `s` can run to completion: both buffers have the same
length, and the tasks are either none or those of a `Simulate` call whose jitter loops end. -/
def Ready (fuel : Nat) (s : FInsectBoidsSimulator K) : Prop :=
  (GetReadParticles s).length = (GetWriteParticles s).length ∧
    (s.SimulationTasks = [] ∨
      ∃ (DeltaTime : K) (starts : List Int), s.SimulationTasks = FTask.SetupNeighborGrid ::
          starts.map (fun st => FTask.SimulateParticles st DeltaTime) ∧
        (∀ st ∈ starts, (0 : Int) ≤ st) ∧ CallEnds fuel DeltaTime s.Config)

/-- The particles the constructor seeds into the write buffer. -/
def Seeded (E : Engine K) (ParticleCenter : FVector K) (n : Nat) : List (FInsectBoidsParticle K) :=
  (List.range n).map fun i =>
    ⟨E.RandPointInBox i (FVector.sub ParticleCenter (FVector.splat 32))
      (FVector.add ParticleCenter (FVector.splat 32)), FVector.splat 0⟩

/-- The state the constructor returns for a non-negative particle count. -/
def Constructed (E : Engine K) (InConfig : FInsectBoidsConfig K) (ParticleCenter : FVector K) :
    FInsectBoidsSimulator K :=
  { SimulationTasks := []
    Config := InConfig
    Particles0 := Seeded E ParticleCenter InConfig.NumParticles.toNat
    Particles1 := List.replicate InConfig.NumParticles.toNat FInsectBoidsParticle.Defaulted
    CurrentContext := 0
    SpatialHashGrid := [] }

/-- The point `p` lies in the axis-aligned box with corners `Min` and `Max`. -/
def InBox (Min Max p : FVector K) : Prop :=
  (Min.X ≤ p.X ∧ p.X ≤ Max.X) ∧ (Min.Y ≤ p.Y ∧ p.Y ≤ Max.Y) ∧ (Min.Z ≤ p.Z ∧ p.Z ≤ Max.Z)

/-- The engine's `FMath::RandPointInBox` returns a point of the box it is given, whenever
the box is not empty. -/
def RandInBox (E : Engine K) : Prop :=
  ∀ (n : Nat) (Min Max : FVector K), Min.X ≤ Max.X → Min.Y ≤ Max.Y → Min.Z ≤ Max.Z →
    InBox Min Max (E.RandPointInBox n Min Max)

/-- The point `p` lies in the axis-aligned cube of half-extent 32 around `Center`. -/
def InSeedCube (Center p : FVector K) : Prop :=
  InBox (FVector.sub Center (FVector.splat 32)) (FVector.add Center (FVector.splat 32)) p

/-- The positions `p` and `q` differ by at most the cell size 128 on every axis. -/
def WithinCellSize (p q : FVector K) : Prop :=
  |p.X - q.X| ≤ 128 ∧ |p.Y - q.Y| ≤ 128 ∧ |p.Z - q.Z| ≤ 128

/-- The value the body of the loop of `SimulateParticles` leaves in the write slot of index
`i`: the body of `SimulateParticle` without the final store. -/
def UpdatedParticle (E : Engine K) (fuel : Nat) (s : FInsectBoidsSimulator K) (i : Int)
    (DeltaTime : K) : Except Fault (FInsectBoidsParticle K) :=
  if i < 0 then .error .CheckFailed
  else if (GetWriteParticles s).length ≤ i.toNat then .error .CheckFailed
  else do
    let CurrentWriteParticle ← TArray.get (GetReadParticles s) i.toNat
    let acc ← AccumulateNeighbors E s i.toNat CurrentWriteParticle
    let CurrentWriteParticle := SteerAwayStep E s.Config CurrentWriteParticle acc.1
    let CurrentWriteParticle := SteerCenterStep E s.Config CurrentWriteParticle acc.2.1 acc.2.2
    let CurrentWriteParticle := MoveStep s.Config CurrentWriteParticle DeltaTime
    let CurrentWriteParticle ← ApplyParticleJitter E s.Config fuel CurrentWriteParticle DeltaTime
    pure (ApplyParticleGlobalMovementVector E s.Config CurrentWriteParticle DeltaTime)

/-- A sequence of particle updates, each given by its index and its `DeltaTime`, run one
after the other. -/
def Steps (E : Engine K) (fuel : Nat) (L : List (Int × K)) (s : FInsectBoidsSimulator K) :
    Except Fault (FInsectBoidsSimulator K) :=
  L.foldlM (fun u x => SimulateParticle E fuel u x.1 x.2) s

/-- No index occurs in `L` with two different values of `DeltaTime`. -/
def SingleDelta (L : List (Int × K)) : Prop :=
  ∀ x ∈ L, ∀ y ∈ L, x.1 = y.1 → x.2 = y.2

/-- The state `t` is `s` with, for every update `x` of `L`, the write slot of `x` holding
the value `UpdatedParticle` computes for `x` from `s`, and nothing else changed. -/
def Described (E : Engine K) (fuel : Nat) (s : FInsectBoidsSimulator K) (L : List (Int × K))
    (t : FInsectBoidsSimulator K) : Prop :=
  SameFrame s t ∧ t.SpatialHashGrid = s.SpatialHashGrid ∧
    (∀ x ∈ L, ∃ p, UpdatedParticle E fuel s x.1 x.2 = .ok p ∧
      (GetWriteParticles t)[x.1.toNat]? = some p) ∧
    ∀ n, (∀ x ∈ L, x.1.toNat ≠ n) → (GetWriteParticles t)[n]? = (GetWriteParticles s)[n]?

/-- The updates of one call `SimulateParticles(Start, End, DeltaTime)` on a read buffer of
`Num` particles: its loop indices, each with the `DeltaTime` of the call. -/
def BatchSteps (Num : Nat) (ParticleStartIndex ParticleEndIndex : Int) (DeltaTime : K) :
    List (Int × K) :=
  (SimulateParticlesIndices Num ParticleStartIndex ParticleEndIndex).map fun k => (k, DeltaTime)

/-- The outstanding tasks of `s` are those a `Simulate` call leaves (or none) and the two
buffers have the same length. -/
def TasksWellFormed (s : FInsectBoidsSimulator K) : Prop :=
  (GetReadParticles s).length = (GetWriteParticles s).length ∧
    (s.SimulationTasks = [] ∨
      ∃ (DeltaTime : K) (starts : List Int), s.SimulationTasks = FTask.SetupNeighborGrid ::
          starts.map (fun st => FTask.SimulateParticles st DeltaTime) ∧
        ∀ st ∈ starts, (0 : Int) ≤ st)

/-- The call returned or ran out of fuel: no range check and no assertion failed. -/
def NoCheckFailed {α : Type} (P : α → Prop) (x : Except Fault α) : Prop :=
  (∃ a, x = .ok a ∧ P a) ∨ x = .error .OutOfFuel

end FInsectBoidsSimulator

/-! ## Example inputs -/

namespace Examples

/-- The largest `r ≤ k` with `r * r ≤ n`, by downward search. -/
def natSqrtAux : Nat → Nat → Nat
  | 0, _ => 0
  | k + 1, n => if (k + 1) * (k + 1) ≤ n then k + 1 else natSqrtAux k n

/-- A square root on `ℚ` that is exact on squares of rationals. -/
def ratSqrt (q : ℚ) : ℚ :=
  (natSqrtAux q.num.toNat q.num.toNat : ℚ) / (natSqrtAux q.den q.den : ℚ)

/-- An engine with the given square root, a noise field with the constant value
`Noise`, and a random box point that is always the centre of the box. -/
def EngineWith {K : Type} [LinearOrderedField K] (Sqrt : K → K) (Noise : K) : Engine K :=
  ⟨Sqrt, fun _ => Noise, fun _ Min Max => FVector.scale (FVector.add Min Max) (1 / 2)⟩

/-- An executable engine over `ℚ`, with `ratSqrt` as square root. -/
def RatEngine (Noise : ℚ) : Engine ℚ := EngineWith ratSqrt Noise

/-- The default values of `FInsectBoidsConfig`, with `NumParticles` left open. -/
def DefaultConfig {K : Type} [LinearOrderedField K] (NumParticles : Int) :
    FInsectBoidsConfig K :=
  { NumParticles := NumParticles
    ParticleRepelDistance := 64
    AttractDistance := 256
    VelocityMultiplier := 64
    RepelStrength := 144 / 1000
    AttractionStrength := 5 / 100
    JitterStrength := 5
    JitterNoiseSize := 132423 / 1000000
    JitterSubstepSize := 1 / 300
    GlobalNoiseForceSize := 2048
    GlobalNoiseForceStrength := ⟨64, 64, 4⟩ }

/-- A particle at rest at the given position. -/
def AtRest {K : Type} [LinearOrderedField K] (x y z : K) : FInsectBoidsParticle K :=
  ⟨⟨x, y, z⟩, ⟨0, 0, 0⟩⟩

/-- A simulator whose read buffer is `Read` (here `Particles[1]`), with an empty grid. -/
def WithRead {K : Type} [LinearOrderedField K] (Config : FInsectBoidsConfig K)
    (Read : List (FInsectBoidsParticle K)) : FInsectBoidsSimulator K :=
  { SimulationTasks := []
    Config := Config
    Particles0 := List.replicate Read.length FInsectBoidsParticle.Defaulted
    Particles1 := Read
    CurrentContext := 0
    SpatialHashGrid := [] }

/-- Three particles in one cell. -/
def CrowdedExample : FInsectBoidsSimulator ℚ :=
  WithRead (DefaultConfig 3) [AtRest 1 1 1, AtRest 2 2 2, AtRest 3 3 3]

/-- The configuration of the two-particle scenario of the spec: default values with
zero jitter strength and zero global noise strength. -/
def ScenarioConfig {K : Type} [LinearOrderedField K] : FInsectBoidsConfig K :=
  { DefaultConfig 2 with JitterStrength := 0, GlobalNoiseForceStrength := ⟨0, 0, 0⟩ }

/-- The two-particle scenario of the spec: particles at rest at `(0,0,0)` and `(10,0,0)`. -/
def ScenarioExample {K : Type} [LinearOrderedField K] : FInsectBoidsSimulator K :=
  WithRead ScenarioConfig [AtRest 0 0 0, AtRest 10 0 0]

/-- The two-particle scenario with a negative (hence non-zero) jitter sub-step size. -/
def NegativeSubstepExample : FInsectBoidsSimulator ℚ :=
  WithRead { (ScenarioConfig : FInsectBoidsConfig ℚ) with JitterSubstepSize := -1 }
    [AtRest 0 0 0, AtRest 10 0 0]

/-- Two particles at rest at `(0,0,0)` and `(256,0,0)`, default configuration. -/
def FarPairExample : FInsectBoidsSimulator ℚ :=
  WithRead (DefaultConfig 2) [AtRest 0 0 0, AtRest 256 0 0]

/-- An executable engine over `ℚ` whose random box point of index `i` lies `i` units
along the x axis from the centre of the box. -/
def LineEngine : Engine ℚ :=
  ⟨ratSqrt, fun _ => 0, fun i Min Max =>
    FVector.add (FVector.scale (FVector.add Min Max) (1 / 2)) ⟨(i : ℚ), 0, 0⟩⟩

/-- Three particles, repulsion strength 1 and attraction strength 0, both within the
declared range `[0, 1]`; no jitter and no global noise. -/
def StrongRepelConfig : FInsectBoidsConfig ℚ :=
  { (ScenarioConfig : FInsectBoidsConfig ℚ) with
    NumParticles := 3, RepelStrength := 1, AttractionStrength := 0 }

/-- Three particles on the x axis with the default strengths (0.144 and 0.05), the first
moving at unit speed away from the other two, which are at rest. -/
def MovingExample : FInsectBoidsSimulator ℚ :=
  WithRead { (ScenarioConfig : FInsectBoidsConfig ℚ) with NumParticles := 3 }
    [⟨⟨0, 0, 0⟩, ⟨-1, 0, 0⟩⟩, AtRest 1 0 0, AtRest 2 0 0]

end Examples

/-! ## Lemmas on the containers -/

theorem TMap.Find_FindOrAddThen {κ β : Type} [DecidableEq κ] (dflt : β) (f : β → β)
    (m : List (κ × β)) (key k : κ) :
    TMap.Find (TMap.FindOrAddThen dflt f m key) k =
      if key = k then some (f ((TMap.Find m key).getD dflt)) else TMap.Find m k := by
  induction m with
  | nil => simp [TMap.FindOrAddThen, TMap.Find]
  | cons hd tl ih =>
    obtain ⟨k', v⟩ := hd
    by_cases h : k' = key
    · subst h
      by_cases h2 : k' = k <;> simp [TMap.FindOrAddThen, TMap.Find, h2]
    · by_cases h2 : k' = k
      · subst h2
        have h3 : ¬ key = k' := fun e => h e.symm
        simp [TMap.FindOrAddThen, TMap.Find, h, h3]
      · simp [TMap.FindOrAddThen, TMap.Find, h, h2, ih]

namespace FInsectBoidsSimulator

variable {K : Type} [LinearOrderedField K] [FloorRing K]

/-! ## Lemmas on the spatial hash grid and the neighbour query -/

theorem IndicesInCell_append_singleton (ps : List (FInsectBoidsParticle K))
    (p : FInsectBoidsParticle K) (c : FIntVector) :
    IndicesInCell (ps ++ [p]) c =
      IndicesInCell ps c ++ (if GridIndex p.Position = c then [ps.length] else []) := by
  unfold IndicesInCell
  rw [List.enum_append]
  by_cases h : GridIndex p.Position = c <;> simp [List.enumFrom, List.filter_append, h]

theorem IndicesInCell_lt (ps : List (FInsectBoidsParticle K)) (c : FIntVector) (j : Nat)
    (h : j ∈ IndicesInCell ps c) : j < ps.length := by
  unfold IndicesInCell at h
  simp only [List.mem_map, List.mem_filter] at h
  obtain ⟨⟨a, b⟩, ⟨hm, _⟩, rfl⟩ := h
  have := List.mem_enum_iff_getElem?.mp hm
  exact (List.getElem?_eq_some.mp this).1

theorem GridOf_append_singleton (Cap : Nat) (ps : List (FInsectBoidsParticle K))
    (p : FInsectBoidsParticle K) :
    GridOf Cap (ps ++ [p]) = SetupNeighborGridStep Cap (GridOf Cap ps) (ps.length, p) := by
  unfold GridOf
  rw [List.enum_append, List.foldl_append]
  simp [List.enumFrom]

theorem Find_GridOf (Cap : Nat) (ps : List (FInsectBoidsParticle K)) (c : FIntVector) :
    TMap.Find (GridOf Cap ps) c =
      if IndicesInCell ps c = [] then none else some ((IndicesInCell ps c).take Cap) := by
  induction ps using List.reverseRecOn with
  | nil => simp [GridOf, IndicesInCell, TMap.Find]
  | append_singleton ps p ih =>
    rw [GridOf_append_singleton, IndicesInCell_append_singleton]
    unfold SetupNeighborGridStep
    rw [TMap.Find_FindOrAddThen]
    by_cases h : GridIndex p.Position = c
    · subst h
      simp only [if_true]
      have hnot : ps.length ∉ IndicesInCell ps (GridIndex p.Position) := fun hm =>
        lt_irrefl _ (IndicesInCell_lt ps _ _ hm)
      have hne : IndicesInCell ps (GridIndex p.Position) ++ [ps.length] ≠ [] := by simp
      rw [if_neg hne, ih]
      congr 1
      by_cases he : IndicesInCell ps (GridIndex p.Position) = []
      · rw [he]
        by_cases hc : 0 < Cap
        · simp [TArray.AddUnique, hc, List.take_of_length_le (show [ps.length].length ≤ Cap from hc)]
        · have : Cap = 0 := by omega
          simp [this]
      · rw [if_neg he]
        simp only [Option.getD_some, List.length_take]
        by_cases hlt : (IndicesInCell ps (GridIndex p.Position)).length < Cap
        · have hmin : min Cap (IndicesInCell ps (GridIndex p.Position)).length < Cap := by
            simp [hlt]
          rw [if_pos hmin, List.take_of_length_le (le_of_lt hlt)]
          unfold TArray.AddUnique
          rw [if_neg hnot, List.take_of_length_le]
          simp; omega
        · have hmin : ¬ min Cap (IndicesInCell ps (GridIndex p.Position)).length < Cap := by
            simp; omega
          rw [if_neg hmin, List.take_append_of_le_length (by omega)]
    · simp only [h, if_false, List.append_nil]
      exact ih

theorem foldlM_skip {σ : Type} (ParticleIndex : Nat) (Function : Nat → σ → Except Fault σ)
    (l : List Nat) (acc : σ) :
    l.foldlM (fun a n => if n = ParticleIndex then .ok a else Function n a) acc =
      (l.filter (fun n => n ≠ ParticleIndex)).foldlM (fun a n => Function n a) acc := by
  induction l generalizing acc with
  | nil => rfl
  | cons n t ih =>
    by_cases h : n = ParticleIndex
    · simp only [List.foldlM_cons, h, if_true, ne_eq, not_true_eq_false, decide_False,
        Bool.false_eq_true, not_false_eq_true, List.filter_cons_of_neg]
      exact ih acc
    · simp only [List.foldlM_cons, h, if_false, ne_eq, not_false_eq_true, decide_True,
        List.filter_cons_of_pos]
      cases Function n acc with
      | error e => rfl
      | ok a => exact ih a

theorem IterateOverCell_eq {σ : Type} (s : FInsectBoidsSimulator K) (ParticleIndex : Nat)
    (Function : Nat → σ → Except Fault σ) (c : FIntVector) (acc : σ) :
    IterateOverCell s ParticleIndex Function c acc =
      (CellVisits s.SpatialHashGrid ParticleIndex c).foldlM (fun a n => Function n a) acc := by
  unfold IterateOverCell CellVisits Bucket
  cases h : TMap.Find s.SpatialHashGrid c with
  | none => rfl
  | some b => simpa using foldlM_skip ParticleIndex Function b acc

theorem IterateOverNeighbors_eq {σ : Type} (s : FInsectBoidsSimulator K) (ParticleIndex : Nat)
    (Function : Nat → σ → Except Fault σ) (acc : σ) :
    IterateOverNeighbors s ParticleIndex Function acc =
      (TArray.get (GetReadParticles s) ParticleIndex).bind fun Particle =>
        (VisitList s.SpatialHashGrid ParticleIndex (GridIndex Particle.Position)).foldlM
          (fun a n => Function n a) acc := by
  unfold IterateOverNeighbors
  show Except.bind _ _ = _
  congr 1
  funext Particle
  simp only [VisitList, BlockOffsets, IterateOverCell_eq, List.flatMap_cons, List.flatMap_nil,
    List.map_cons, List.map_nil, List.append_nil, List.cons_append, List.nil_append,
    List.foldlM_cons, List.foldlM_nil, List.foldlM_append, bind_assoc, pure_bind, bind_pure]

theorem foldlM_trace (l acc : List Nat) :
    l.foldlM (fun a n => (Except.ok (a ++ [n]) : Except Fault (List Nat))) acc = .ok (acc ++ l) := by
  induction l generalizing acc with
  | nil => simp [pure, Except.pure]
  | cons n t ih =>
    rw [List.foldlM_cons]
    show Except.bind (Except.ok _) _ = _
    simp only [Except.bind]
    rw [ih]; simp

theorem IndicesInCell_sorted (ps : List (FInsectBoidsParticle K)) (c : FIntVector) :
    (IndicesInCell ps c).Sorted (· < ·) := by
  unfold IndicesInCell
  have h : ((ps.enum.filter (fun ip => GridIndex ip.2.Position = c)).map Prod.fst).Sublist
      (ps.enum.map Prod.fst) := (List.filter_sublist _).map _
  rw [List.enum_map_fst] at h
  exact (List.pairwise_lt_range _).sublist h

theorem mem_IndicesInCell (ps : List (FInsectBoidsParticle K)) (c : FIntVector) (j : Nat) :
    j ∈ IndicesInCell ps c ↔ ∃ p, ps[j]? = some p ∧ GridIndex p.Position = c := by
  unfold IndicesInCell
  simp only [List.mem_map, List.mem_filter, decide_eq_true_eq]
  constructor
  · rintro ⟨⟨a, b⟩, ⟨hm, hc⟩, rfl⟩
    exact ⟨b, List.mem_enum_iff_getElem?.mp hm, hc⟩
  · rintro ⟨p, hp, hc⟩
    exact ⟨(j, p), ⟨List.mem_enum_iff_getElem?.mpr hp, hc⟩, rfl⟩

theorem IndicesInCell_nodup (ps : List (FInsectBoidsParticle K)) (c : FIntVector) :
    (IndicesInCell ps c).Nodup :=
  (IndicesInCell_sorted ps c).nodup

theorem Bucket_GridOf (Cap : Nat) (ps : List (FInsectBoidsParticle K)) (c : FIntVector) :
    Bucket (GridOf Cap ps) c = (IndicesInCell ps c).take Cap := by
  unfold Bucket
  rw [Find_GridOf]
  by_cases h : IndicesInCell ps c = [] <;> simp [h]

theorem BlockOffsets_count (d : FIntVector) :
    BlockOffsets.count d = if Adjacent d ⟨0, 0, 0⟩ then 1 else 0 := by
  have hnd : BlockOffsets.Nodup := by decide
  have hmem : d ∈ BlockOffsets ↔ Adjacent d ⟨0, 0, 0⟩ := by
    obtain ⟨x, y, z⟩ := d
    simp only [BlockOffsets, Adjacent, List.mem_flatMap, List.mem_map, List.mem_cons,
      List.mem_singleton, List.not_mem_nil, or_false, FIntVector.mk.injEq, sub_zero, abs_le]
    constructor
    · rintro ⟨a, ha, b, hb, c, hc, rfl, rfl, rfl⟩
      omega
    · rintro ⟨⟨h1, h2⟩, ⟨h3, h4⟩, ⟨h5, h6⟩⟩
      exact ⟨x, by omega, y, by omega, z, by omega, rfl, rfl, rfl⟩
  by_cases h : Adjacent d ⟨0, 0, 0⟩
  · rw [if_pos h]; exact List.count_eq_one_of_mem hnd (hmem.mpr h)
  · rw [if_neg h]; exact List.count_eq_zero_of_not_mem (fun hm => h (hmem.mp hm))

@[simp] theorem GetReadParticles_SetupNeighborGridWith (Cap : Nat) (s : FInsectBoidsSimulator K) :
    GetReadParticles (SetupNeighborGridWith Cap s) = GetReadParticles s := rfl

theorem SpatialHashGrid_SetupNeighborGridWith (Cap : Nat) (s : FInsectBoidsSimulator K) :
    (SetupNeighborGridWith Cap s).SpatialHashGrid = GridOf Cap (GetReadParticles s) := rfl

theorem ToInt32_of_fits (z : Int) (h1 : -2147483648 ≤ z) (h2 : z < 2147483648) :
    ToInt32 z = z := by
  unfold ToInt32
  omega

theorem ToInt32_range (z : Int) : -2147483648 ≤ ToInt32 z ∧ ToInt32 z < 2147483648 := by
  unfold ToInt32
  omega

theorem ToInt32_sub_ToInt32 (a b : Int) : ToInt32 (ToInt32 a - ToInt32 b) = ToInt32 (a - b) := by
  unfold ToInt32
  omega

theorem ToInt32_add_eq_iff (g c o : Int) (hg : -2147483648 ≤ g ∧ g < 2147483648)
    (ho : -1 ≤ o ∧ o ≤ 1) : g = ToInt32 (c + o) ↔ o = ToInt32 (g - c) := by
  unfold ToInt32 at *
  omega

theorem GridIndex_eq (p : FVector K) :
    GridIndex p =
      ⟨ToInt32 (FloorIndex p).X, ToInt32 (FloorIndex p).Y, ToInt32 (FloorIndex p).Z⟩ := rfl

theorem GridIndex_range (p : FVector K) :
    (-2147483648 ≤ (GridIndex p).X ∧ (GridIndex p).X < 2147483648) ∧
    (-2147483648 ≤ (GridIndex p).Y ∧ (GridIndex p).Y < 2147483648) ∧
    (-2147483648 ≤ (GridIndex p).Z ∧ (GridIndex p).Z < 2147483648) :=
  ⟨ToInt32_range _, ToInt32_range _, ToInt32_range _⟩

theorem mem_BlockOffsets_iff (o : FIntVector) :
    o ∈ BlockOffsets ↔ (-1 ≤ o.X ∧ o.X ≤ 1) ∧ (-1 ≤ o.Y ∧ o.Y ≤ 1) ∧ (-1 ≤ o.Z ∧ o.Z ≤ 1) := by
  obtain ⟨x, y, z⟩ := o
  simp only [BlockOffsets, List.mem_flatMap, List.mem_map, List.mem_cons,
    List.mem_singleton, List.not_mem_nil, or_false, FIntVector.mk.injEq]
  constructor
  · rintro ⟨a, ha, b, hb, c, hc, rfl, rfl, rfl⟩
    omega
  · rintro ⟨⟨h1, h2⟩, ⟨h3, h4⟩, ⟨h5, h6⟩⟩
    exact ⟨x, by omega, y, by omega, z, by omega, rfl, rfl, rfl⟩

theorem GridIndex_eq_add_iff (p : FVector K) (c o : FIntVector) (ho : o ∈ BlockOffsets) :
    GridIndex p = FIntVector.add c o ↔
      o = ⟨ToInt32 ((GridIndex p).X - c.X), ToInt32 ((GridIndex p).Y - c.Y),
        ToInt32 ((GridIndex p).Z - c.Z)⟩ := by
  obtain ⟨hx, hy, hz⟩ := GridIndex_range p
  obtain ⟨ox, oy, oz⟩ := o
  obtain ⟨h1, h2, h3⟩ := (mem_BlockOffsets_iff _).mp ho
  cases hg : GridIndex p with
  | mk gx gy gz =>
    rw [hg] at hx hy hz
    simp only [FIntVector.add, FIntVector.mk.injEq]
    rw [ToInt32_add_eq_iff gx c.X ox hx h1, ToInt32_add_eq_iff gy c.Y oy hy h2,
      ToInt32_add_eq_iff gz c.Z oz hz h3]

theorem floor_div_adjacent (x y : K) (h : |x - y| ≤ 128) :
    |(⌊x / 128⌋ : Int) - ⌊y / 128⌋| ≤ 1 := by
  obtain ⟨h1, h2⟩ := abs_le.mp h
  rw [abs_le]
  constructor
  · have : y / 128 ≤ x / 128 + 1 := by
      rw [div_add_one (by norm_num : (128 : K) ≠ 0)]
      exact div_le_div_of_nonneg_right (by linarith) (by norm_num)
    have h3 := Int.floor_le_floor this
    rw [Int.floor_add_one] at h3
    omega
  · have : x / 128 ≤ y / 128 + 1 := by
      rw [div_add_one (by norm_num : (128 : K) ≠ 0)]
      exact div_le_div_of_nonneg_right (by linarith) (by norm_num)
    have h3 := Int.floor_le_floor this
    rw [Int.floor_add_one] at h3
    omega

theorem Adjacent_of_WithinCellSize (p q : FVector K) (h : WithinCellSize p q) :
    Adjacent (FloorIndex p) (FloorIndex q) := by
  obtain ⟨hx, hy, hz⟩ := h
  simp only [Adjacent, FloorIndex]
  exact ⟨floor_div_adjacent _ _ hx, floor_div_adjacent _ _ hy, floor_div_adjacent _ _ hz⟩

theorem ToInt32_abs_le_one (a b : Int) (h : |a - b| ≤ 1) :
    |ToInt32 (ToInt32 a - ToInt32 b)| ≤ 1 := by
  rw [ToInt32_sub_ToInt32]
  rw [abs_le] at h ⊢
  unfold ToInt32
  omega

theorem Reaches_of_Adjacent (p q : FVector K) (h : Adjacent (FloorIndex p) (FloorIndex q)) :
    Reaches (GridIndex p) (GridIndex q) := by
  obtain ⟨hx, hy, hz⟩ := h
  simp only [Reaches, GridIndex_eq]
  exact ⟨ToInt32_abs_le_one _ _ hx, ToInt32_abs_le_one _ _ hy, ToInt32_abs_le_one _ _ hz⟩

theorem GridIndex_of_CellFits (p : FVector K) (hp : CellFits p) : GridIndex p = FloorIndex p := by
  obtain ⟨px, py, pz⟩ := hp
  rw [abs_lt] at px py pz
  rw [GridIndex_eq, ToInt32_of_fits _ (by omega) px.2, ToInt32_of_fits _ (by omega) py.2,
    ToInt32_of_fits _ (by omega) pz.2]

theorem IterateOverNeighbors_trace (s : FInsectBoidsSimulator K) (i : Nat)
    (p : FInsectBoidsParticle K) (hp : (GetReadParticles s)[i]? = some p) :
    IterateOverNeighbors s i (fun n a => (Except.ok (a ++ [n]) : Except Fault (List Nat))) [] =
      .ok (VisitList s.SpatialHashGrid i (GridIndex p.Position)) := by
  rw [IterateOverNeighbors_eq]
  simp only [TArray.get, hp, Except.bind]
  rw [foldlM_trace]; simp

theorem IterateOverNeighbors_trace_mem (s : FInsectBoidsSimulator K) (i : Nat) (L : List Nat)
    (h : IterateOverNeighbors s i
      (fun n a => (Except.ok (a ++ [n]) : Except Fault (List Nat))) [] = .ok L) :
    ∃ p, (GetReadParticles s)[i]? = some p ∧
      L = VisitList s.SpatialHashGrid i (GridIndex p.Position) := by
  cases hp : (GetReadParticles s)[i]? with
  | none =>
    rw [IterateOverNeighbors_eq] at h
    simp [TArray.get, hp, Except.bind] at h
  | some p =>
    rw [IterateOverNeighbors_trace s i p hp] at h
    exact ⟨p, rfl, (Except.ok.inj h).symm⟩

theorem mem_VisitList (Grid : List (FIntVector × List Nat)) (i j : Nat) (c : FIntVector)
    (h : j ∈ VisitList Grid i c) : ∃ c2, j ∈ Bucket Grid c2 := by
  simp only [VisitList, CellVisits, List.mem_flatMap, List.mem_filter] at h
  obtain ⟨o, _, hm, _⟩ := h
  exact ⟨_, hm⟩

/-- C2: whatever the read buffer and the previous grid, after `SetupNeighborGrid` (with
any bucket cap, `NeighborGridSize` in the source) the bucket of a cell `c` is the list of
the first `min Cap k` indices, in ascending storage order, of the `k` particles whose cell
is `c`; so it has no duplicate, never exceeds the cap, and a particle beyond the cap of
its cell is passed to the visitor of no neighbour query. -/
theorem SetupNeighborGrid_buckets (Cap : Nat) (s : FInsectBoidsSimulator K) (c : FIntVector) :
    (∀ j, j ∈ IndicesInCell (GetReadParticles s) c ↔
        ∃ p, (GetReadParticles s)[j]? = some p ∧ GridIndex p.Position = c) ∧
    (IndicesInCell (GetReadParticles s) c).Sorted (· < ·) ∧
    Bucket (SetupNeighborGridWith Cap s).SpatialHashGrid c =
      (IndicesInCell (GetReadParticles s) c).take
        (min Cap (IndicesInCell (GetReadParticles s) c).length) ∧
    (Bucket (SetupNeighborGridWith Cap s).SpatialHashGrid c).Nodup ∧
    (Bucket (SetupNeighborGridWith Cap s).SpatialHashGrid c).length ≤ Cap ∧
    ∀ q L j, IterateOverNeighbors (SetupNeighborGridWith Cap s) q
        (fun n a => (Except.ok (a ++ [n]) : Except Fault (List Nat))) [] = .ok L →
      j ∈ IndicesInCell (GetReadParticles s) c →
      j ∉ (IndicesInCell (GetReadParticles s) c).take Cap → j ∉ L := by
  have hb := Bucket_GridOf Cap (GetReadParticles s) c
  rw [← SpatialHashGrid_SetupNeighborGridWith] at hb
  refine ⟨mem_IndicesInCell _ c, IndicesInCell_sorted _ c, ?_, ?_, ?_, ?_⟩
  · rw [hb, List.take_eq_take, min_comm]
    simp
  · rw [hb]; exact (IndicesInCell_nodup _ c).sublist (List.take_sublist _ _)
  · rw [hb]; simp
  · intro q L j hL hj hnot hjL
    obtain ⟨p, _, rfl⟩ := IterateOverNeighbors_trace_mem _ q L hL
    obtain ⟨c2, hc2⟩ := mem_VisitList _ _ _ _ hjL
    rw [SpatialHashGrid_SetupNeighborGridWith, Bucket_GridOf] at hc2
    have hj2 := List.mem_of_mem_take hc2
    obtain ⟨p1, hp1, hc1⟩ := (mem_IndicesInCell _ _ _).mp hj
    obtain ⟨p2, hp2, hc2'⟩ := (mem_IndicesInCell _ _ _).mp hj2
    rw [hp1] at hp2
    cases hp2
    rw [← hc2', hc1] at hc2
    exact hnot hc2

/-! ## Claims C1 and C2 on example inputs -/

theorem IndicesInCell_length_le (ps : List (FInsectBoidsParticle K)) (c : FIntVector) :
    (IndicesInCell ps c).length ≤ ps.length := by
  unfold IndicesInCell
  rw [List.length_map]
  exact le_trans (List.length_filter_le _ _) (by simp)

/-- Witness of C2 with cap 2 and three particles in one cell: the bucket is `[0, 1]` and
index 2 is visited by no query. -/
theorem SetupNeighborGrid_buckets_witness :
    Bucket (SetupNeighborGridWith 2 Examples.CrowdedExample).SpatialHashGrid ⟨0, 0, 0⟩ = [0, 1] ∧
    ∀ q L, IterateOverNeighbors (SetupNeighborGridWith 2 Examples.CrowdedExample) q
        (fun n a => (Except.ok (a ++ [n]) : Except Fault (List Nat))) [] = .ok L → 2 ∉ L := by
  obtain ⟨_, _, hb, _, _, hq⟩ := SetupNeighborGrid_buckets 2 Examples.CrowdedExample ⟨0, 0, 0⟩
  have hI : IndicesInCell (GetReadParticles Examples.CrowdedExample) ⟨0, 0, 0⟩ = [0, 1, 2] := by
    decide!
  rw [hI] at hb hq
  exact ⟨hb, fun q L hL => hq q L 2 hL (by decide) (by decide)⟩

/-! ## The repulsion blend and the jitter loop on the scenario inputs (C3, C4) -/

theorem SteerAwayStep_eq (E : Engine K) (Config : FInsectBoidsConfig K)
    (p : FInsectBoidsParticle K) (S : FVector K) :
    SteerAwayStep E Config p S =
      if FVector.Length E S ≠ 0 then
        { p with Velocity := FVector.Lerp p.Velocity S Config.RepelStrength }
      else p := by
  unfold SteerAwayStep
  by_cases h : FVector.Length E S = 0
  · simp [h]
  · simp [h, FVector.divScalar]

/-- C3 (code evaluated at the scenario of the spec): the velocities `SimulateParticles` writes
for the particles at `(0,0,0)` and `(10,0,0)` are `∓2617/40000` on the x axis, the blend of
the un-normalised repulsion sum `(∓27/32, 0, 0)`, whereas the formula of the claim,
`lerp(lerp(0, (-1,0,0), 0.144), (1,0,0), 0.05)`, is `(-217/2500, 0, 0)`. -/
theorem SimulateParticles_scenario_not_normalised :
    ((SimulateParticles (Examples.RatEngine 0) 300 (SetupNeighborGrid Examples.ScenarioExample)
        0 32 1).toOption.map fun s => (GetWriteParticles s).map fun p => p.Velocity) =
      some [⟨-2617 / 40000, 0, 0⟩, ⟨2617 / 40000, 0, 0⟩] ∧
    (SteerAwayStep (Examples.RatEngine 0) Examples.ScenarioConfig (Examples.AtRest 0 0 0)
        ⟨-27 / 32, 0, 0⟩).Velocity = ⟨-243 / 2000, 0, 0⟩ ∧
    FVector.Lerp (⟨0, 0, 0⟩ : FVector ℚ) ⟨-1, 0, 0⟩ (144 / 1000) = ⟨-144 / 1000, 0, 0⟩ ∧
    FVector.Lerp (FVector.Lerp (⟨0, 0, 0⟩ : FVector ℚ) ⟨-1, 0, 0⟩ (144 / 1000)) ⟨1, 0, 0⟩ (5 / 100) =
      ⟨-217 / 2500, 0, 0⟩ := by
  decide!

/-- C4 (code evaluated at two inputs, constant noise 1, jitter strength 5, sub-step 1/300):
for `DeltaSeconds = 1/600` the call leaves the position unchanged, where the claim gives a
displacement of `5 * 300 * (1/600) = 5/2` per axis; for `DeltaSeconds = 1/100` the
displacement is `10` per axis, the sub-steps used being `0, 1/300, 1/300`, where the claim
gives `15`. -/
theorem ApplyParticleJitter_misses_last_substep :
    (ApplyParticleJitter (Examples.RatEngine 1) (Examples.DefaultConfig 1) 10
        (Examples.AtRest 0 0 0) (1 / 600)).toOption = some (Examples.AtRest 0 0 0) ∧
    (ApplyParticleJitter (Examples.RatEngine 1) (Examples.DefaultConfig 1) 10
        (Examples.AtRest 0 0 0) (1 / 100)).toOption = some (Examples.AtRest 10 10 10) := by
  decide!

/-! ## Vector algebra and the repulsion contribution (C8) -/

theorem SizeSquared_nonneg (a : FVector K) : 0 ≤ FVector.SizeSquared a := by
  unfold FVector.SizeSquared
  exact add_nonneg (add_nonneg (mul_self_nonneg _) (mul_self_nonneg _)) (mul_self_nonneg _)

theorem SizeSquared_sub_comm (a b : FVector K) :
    FVector.SizeSquared (FVector.sub a b) = FVector.SizeSquared (FVector.sub b a) := by
  simp only [FVector.SizeSquared, FVector.sub]
  ring

theorem Length_sub_eq_Dist (E : Engine K) (a b : FVector K) :
    FVector.Length E (FVector.sub a b) = FVector.Dist E a b := by
  unfold FVector.Length FVector.Dist
  rw [SizeSquared_sub_comm]

theorem Dist_comm (E : Engine K) (a b : FVector K) : FVector.Dist E a b = FVector.Dist E b a := by
  unfold FVector.Dist
  rw [SizeSquared_sub_comm]

theorem Sqrt_eq_of_sq (E : Engine K) (hE : SqrtExact E) (x y : K) (hy : 0 ≤ y) (h : y * y = x) :
    E.Sqrt x = y := by
  have hx : 0 ≤ x := by rw [← h]; exact mul_self_nonneg y
  obtain ⟨h0, h1⟩ := hE x hx
  have h2 : E.Sqrt x * E.Sqrt x = y * y := by rw [h1, h]
  exact (mul_self_inj h0 hy).mp h2

theorem Sqrt_eq_zero_iff (E : Engine K) (hE : SqrtExact E) (x : K) (hx : 0 ≤ x) :
    E.Sqrt x = 0 ↔ x = 0 := by
  obtain ⟨_, h1⟩ := hE x hx
  constructor
  · intro h; rw [← h1, h, mul_zero]
  · intro h; exact Sqrt_eq_of_sq E hE x 0 le_rfl (by rw [h, mul_zero])

theorem add_Zero (a : FVector K) : FVector.add a FVector.Zero = a := by
  simp [FVector.add, FVector.Zero]

theorem scale_Zero (f : K) : FVector.scale (FVector.Zero : FVector K) f = FVector.Zero := by
  simp [FVector.scale, FVector.Zero]

theorem scale_zero (a : FVector K) : FVector.scale a 0 = FVector.Zero := by
  simp [FVector.scale, FVector.Zero]

theorem CalculateSteerAwayVector_acc (E : Engine K) (Config : FInsectBoidsConfig K)
    (cur oth : FInsectBoidsParticle K) (Out : FVector K) :
    CalculateSteerAwayVector E Config cur oth Out =
      FVector.add Out (CalculateSteerAwayVector E Config cur oth FVector.Zero) := by
  unfold CalculateSteerAwayVector
  split
  · simp [FVector.add, FVector.Zero]
  · rw [add_Zero]

theorem CalculateSteerAwayVector_Zero (E : Engine K) (Config : FInsectBoidsConfig K)
    (cur oth : FInsectBoidsParticle K) :
    CalculateSteerAwayVector E Config cur oth FVector.Zero =
      if FVector.Dist E cur.Position oth.Position ≤ Config.ParticleRepelDistance then
        FVector.scale (FVector.GetSafeNormal E (FVector.sub cur.Position oth.Position))
          ((Config.ParticleRepelDistance - FVector.Dist E cur.Position oth.Position) /
            Config.ParticleRepelDistance)
      else FVector.Zero := by
  unfold CalculateSteerAwayVector
  simp only [Length_sub_eq_Dist]
  split
  · simp [FVector.add, FVector.Zero]
  · rfl

theorem GetSafeNormal_of_Dist_pos (E : Engine K) (hE : SqrtExact E) (a b : FVector K)
    (hd : 0 < FVector.Dist E a b) :
    FVector.GetSafeNormal E (FVector.sub a b) =
      FVector.divScalar (FVector.sub a b) (FVector.Dist E a b) := by
  have hq : FVector.SizeSquared (FVector.sub a b) ≠ 0 := by
    intro h0
    have : FVector.Dist E a b = 0 := by
      rw [← Length_sub_eq_Dist]
      exact (Sqrt_eq_zero_iff E hE _ (SizeSquared_nonneg _)).mpr h0
    exact absurd this (ne_of_gt hd)
  unfold FVector.GetSafeNormal
  rw [if_neg hq]
  have hL : E.Sqrt (FVector.SizeSquared (FVector.sub a b)) = FVector.Dist E a b :=
    Length_sub_eq_Dist E a b
  rw [hL]
  simp [FVector.scale, FVector.divScalar, div_eq_mul_inv]

theorem GetSafeNormal_of_Dist_zero (E : Engine K) (hE : SqrtExact E) (a b : FVector K)
    (hd : FVector.Dist E a b = 0) :
    FVector.GetSafeNormal E (FVector.sub a b) = FVector.Zero := by
  have hq : FVector.SizeSquared (FVector.sub a b) = 0 := by
    rw [← Length_sub_eq_Dist] at hd
    exact (Sqrt_eq_zero_iff E hE _ (SizeSquared_nonneg _)).mp hd
  unfold FVector.GetSafeNormal
  rw [if_pos hq]

theorem Dist_nonneg (E : Engine K) (hE : SqrtExact E) (a b : FVector K) :
    0 ≤ FVector.Dist E a b :=
  (hE _ (SizeSquared_nonneg _)).1

theorem Dist_mul_self (E : Engine K) (hE : SqrtExact E) (a b : FVector K) :
    FVector.Dist E a b * FVector.Dist E a b = FVector.SizeSquared (FVector.sub a b) := by
  rw [← Length_sub_eq_Dist]
  exact (hE _ (SizeSquared_nonneg _)).2

theorem SizeSquared_scale (a : FVector K) (f : K) :
    FVector.SizeSquared (FVector.scale a f) = f * f * FVector.SizeSquared a := by
  simp only [FVector.SizeSquared, FVector.scale]
  ring

theorem Length_Zero (E : Engine K) (hE : SqrtExact E) :
    FVector.Length E (FVector.Zero : FVector K) = 0 := by
  unfold FVector.Length
  exact (Sqrt_eq_zero_iff E hE _ (SizeSquared_nonneg _)).mpr (by simp [FVector.SizeSquared, FVector.Zero])

/-- C8: with an exact square root and `ParticleRepelDistance = R > 0`, the call adds to the
accumulator a contribution that does not depend on the accumulator; for `0 < d ≤ R` it is
`((R - d) / R) * (p - q) / d`, for `d > R` or `d = 0` it is zero, at `d = R` it is zero, at
`d = R - eps` with `0 < eps < R` it is non-zero of length `eps / R` and a positive multiple
of `p - q`, and exchanging the two particles negates it. -/
theorem CalculateSteerAwayVector_contribution (E : Engine K) (hE : SqrtExact E)
    (Config : FInsectBoidsConfig K) (hR : 0 < Config.ParticleRepelDistance)
    (cur oth : FInsectBoidsParticle K) (Out : FVector K) :
    CalculateSteerAwayVector E Config cur oth Out =
      FVector.add Out (CalculateSteerAwayVector E Config cur oth FVector.Zero) ∧
    (0 < FVector.Dist E cur.Position oth.Position ∧
        FVector.Dist E cur.Position oth.Position ≤ Config.ParticleRepelDistance →
      CalculateSteerAwayVector E Config cur oth FVector.Zero =
        FVector.scale
          (FVector.divScalar (FVector.sub cur.Position oth.Position)
            (FVector.Dist E cur.Position oth.Position))
          ((Config.ParticleRepelDistance - FVector.Dist E cur.Position oth.Position) /
            Config.ParticleRepelDistance)) ∧
    (Config.ParticleRepelDistance < FVector.Dist E cur.Position oth.Position ∨
        FVector.Dist E cur.Position oth.Position = 0 →
      CalculateSteerAwayVector E Config cur oth FVector.Zero = FVector.Zero) ∧
    (FVector.Dist E cur.Position oth.Position = Config.ParticleRepelDistance →
      CalculateSteerAwayVector E Config cur oth FVector.Zero = FVector.Zero) ∧
    (∀ eps : K, 0 < eps → eps < Config.ParticleRepelDistance →
      FVector.Dist E cur.Position oth.Position = Config.ParticleRepelDistance - eps →
      CalculateSteerAwayVector E Config cur oth FVector.Zero ≠ FVector.Zero ∧
      FVector.Length E (CalculateSteerAwayVector E Config cur oth FVector.Zero) =
        eps / Config.ParticleRepelDistance ∧
      ∃ k : K, 0 < k ∧ CalculateSteerAwayVector E Config cur oth FVector.Zero =
        FVector.scale (FVector.sub cur.Position oth.Position) k) ∧
    CalculateSteerAwayVector E Config oth cur FVector.Zero =
      FVector.scale (CalculateSteerAwayVector E Config cur oth FVector.Zero) (-1) := by
  have hd0 := Dist_nonneg E hE cur.Position oth.Position
  have hRne : Config.ParticleRepelDistance ≠ 0 := ne_of_gt hR
  have hpos : 0 < FVector.Dist E cur.Position oth.Position →
      FVector.Dist E cur.Position oth.Position ≤ Config.ParticleRepelDistance →
      CalculateSteerAwayVector E Config cur oth FVector.Zero =
        FVector.scale
          (FVector.divScalar (FVector.sub cur.Position oth.Position)
            (FVector.Dist E cur.Position oth.Position))
          ((Config.ParticleRepelDistance - FVector.Dist E cur.Position oth.Position) /
            Config.ParticleRepelDistance) := by
    intro h1 h2
    rw [CalculateSteerAwayVector_Zero, if_pos h2, GetSafeNormal_of_Dist_pos E hE _ _ h1]
  have hzero : Config.ParticleRepelDistance < FVector.Dist E cur.Position oth.Position ∨
      FVector.Dist E cur.Position oth.Position = 0 →
      CalculateSteerAwayVector E Config cur oth FVector.Zero = FVector.Zero := by
    intro h
    rw [CalculateSteerAwayVector_Zero]
    rcases h with h | h
    · rw [if_neg (not_le.mpr h)]
    · rw [if_pos (by rw [h]; exact le_of_lt hR), GetSafeNormal_of_Dist_zero E hE _ _ h, scale_Zero]
  refine ⟨CalculateSteerAwayVector_acc E Config cur oth Out, fun h => hpos h.1 h.2, hzero, ?_, ?_, ?_⟩
  · intro h
    rw [hpos (by rw [h]; exact hR) (le_of_eq h), h, sub_self, zero_div, scale_zero]
  · intro eps he1 he2 hd
    have hdpos : 0 < FVector.Dist E cur.Position oth.Position := by rw [hd]; linarith
    have hdne : FVector.Dist E cur.Position oth.Position ≠ 0 := ne_of_gt hdpos
    have hc := hpos hdpos (by rw [hd]; linarith)
    have hk : Config.ParticleRepelDistance - FVector.Dist E cur.Position oth.Position = eps := by
      rw [hd]; ring
    rw [hk] at hc
    have her : 0 < eps / Config.ParticleRepelDistance := div_pos he1 hR
    have hlen : FVector.Length E (CalculateSteerAwayVector E Config cur oth FVector.Zero) =
        eps / Config.ParticleRepelDistance := by
      unfold FVector.Length
      apply Sqrt_eq_of_sq E hE _ _ (le_of_lt her)
      rw [hc, SizeSquared_scale]
      have h3 : FVector.SizeSquared (FVector.divScalar (FVector.sub cur.Position oth.Position)
          (FVector.Dist E cur.Position oth.Position)) = 1 := by
        have h4 := Dist_mul_self E hE cur.Position oth.Position
        simp only [FVector.SizeSquared, FVector.divScalar] at h4 ⊢
        field_simp
        linarith
      rw [h3, mul_one]
    refine ⟨?_, hlen, ?_⟩
    · intro h0
      rw [h0, Length_Zero E hE] at hlen
      exact absurd hlen.symm (ne_of_gt her)
    · refine ⟨(1 / FVector.Dist E cur.Position oth.Position) *
        (eps / Config.ParticleRepelDistance), mul_pos (one_div_pos.mpr hdpos) her, ?_⟩
      rw [hc]
      simp only [FVector.scale, FVector.divScalar, FVector.mk.injEq]
      refine ⟨?_, ?_, ?_⟩ <;> ring
  · rw [CalculateSteerAwayVector_Zero, CalculateSteerAwayVector_Zero,
      Dist_comm E oth.Position cur.Position]
    by_cases hle : FVector.Dist E cur.Position oth.Position ≤ Config.ParticleRepelDistance
    · rw [if_pos hle, if_pos hle]
      rcases eq_or_lt_of_le hd0 with h0 | h0
      · rw [GetSafeNormal_of_Dist_zero E hE _ _ h0.symm,
          GetSafeNormal_of_Dist_zero E hE _ _ (by rw [Dist_comm]; exact h0.symm)]
        simp [scale_Zero]
      · rw [GetSafeNormal_of_Dist_pos E hE _ _ h0,
          GetSafeNormal_of_Dist_pos E hE _ _ (by rw [Dist_comm]; exact h0),
          Dist_comm E oth.Position cur.Position]
        simp only [FVector.scale, FVector.divScalar, FVector.sub, FVector.mk.injEq]
        refine ⟨?_, ?_, ?_⟩ <;> ring
    · rw [if_neg hle, if_neg hle, scale_Zero]

theorem SqrtExact_real (Noise : ℝ) : SqrtExact (Examples.EngineWith Real.sqrt Noise) :=
  fun x hx => ⟨Real.sqrt_nonneg x, Real.mul_self_sqrt hx⟩

/-- Witness of C8 over `ℝ` with `Real.sqrt`: particles at `(0,0,0)` and `(10,0,0)` with the
default repel distance 64; the contribution of each on the other is the negation of the
other contribution. -/
theorem CalculateSteerAwayVector_contribution_witness :
    SqrtExact (Examples.EngineWith Real.sqrt 0) ∧
    (0 : ℝ) < (Examples.DefaultConfig 2 : FInsectBoidsConfig ℝ).ParticleRepelDistance ∧
    CalculateSteerAwayVector (Examples.EngineWith Real.sqrt 0) (Examples.DefaultConfig 2)
        (Examples.AtRest 10 0 0) (Examples.AtRest 0 0 0) FVector.Zero =
      FVector.scale
        (CalculateSteerAwayVector (Examples.EngineWith Real.sqrt 0) (Examples.DefaultConfig 2)
          (Examples.AtRest 0 0 0) (Examples.AtRest 10 0 0) FVector.Zero) (-1) :=
  ⟨SqrtExact_real 0, by norm_num [Examples.DefaultConfig],
    (CalculateSteerAwayVector_contribution (Examples.EngineWith Real.sqrt 0) (SqrtExact_real 0)
      (Examples.DefaultConfig 2) (by norm_num [Examples.DefaultConfig])
      (Examples.AtRest 0 0 0) (Examples.AtRest 10 0 0) FVector.Zero).2.2.2.2.2⟩

/-! ## Batches of particle indices -/

theorem NumParticleTasks_eq (N : Nat) :
    NumParticleTasks (N : Int) = Int.ofNat ((N + 31) / 32) := by
  unfold NumParticleTasks NumParticlesPerTask
  rw [Int.tdiv_eq_ediv (by omega) (by norm_num), Int.tmod_eq_emod (by omega) (by norm_num)]
  simp only [Int.ofNat_eq_coe]
  split <;> omega

theorem ParticleTaskStarts_eq (N : Nat) :
    ParticleTaskStarts (N : Int) =
      (List.range ((N + 31) / 32)).map fun i => Int.ofNat (i * 32) := by
  unfold ParticleTaskStarts
  rw [NumParticleTasks_eq]
  simp only [Int.toNat_ofNat, NumParticlesPerTask]
  apply List.map_congr_left
  intro i _
  simp

theorem mem_SimulateParticlesIndices (Num : Nat) (Start End k : Int) :
    k ∈ SimulateParticlesIndices Num Start End ↔ Start ≤ k ∧ k < End ∧ k < Num := by
  unfold SimulateParticlesIndices
  simp only [List.mem_map, List.mem_range]
  rcases le_total End (Num : Int) with h | h
  · rw [min_eq_left h]
    constructor
    · rintro ⟨a, ha, rfl⟩
      omega
    · rintro ⟨h1, h2, h3⟩
      exact ⟨(k - Start).toNat, by omega, by omega⟩
  · rw [min_eq_right h]
    constructor
    · rintro ⟨a, ha, rfl⟩
      omega
    · rintro ⟨h1, h2, h3⟩
      exact ⟨(k - Start).toNat, by omega, by omega⟩

theorem SimulateParticlesIndices_batch (N i : Nat) :
    SimulateParticlesIndices N (Int.ofNat (i * 32)) (Int.ofNat (i * 32) + NumParticlesPerTask) =
      (List.range' (i * 32) (min (i * 32 + 32) N - i * 32)).map Int.ofNat := by
  unfold SimulateParticlesIndices NumParticlesPerTask
  have h : (min (Int.ofNat (i * 32) + 32) (N : Int) - Int.ofNat (i * 32)).toNat =
      min (i * 32 + 32) N - i * 32 := by
    simp only [Int.ofNat_eq_coe]
    rcases le_total (i * 32 + 32) N with h | h
    · rw [min_eq_left h, min_eq_left (by omega)]; omega
    · rw [min_eq_right h, min_eq_right (by omega)]; omega
  rw [h, List.range'_eq_map_range]
  simp [Function.comp_def]

theorem batches_partition (N : Nat) :
    (ParticleTaskStarts (N : Int)).length = (N + 31) / 32 ∧
    (∀ i, i < (N + 31) / 32 →
      (ParticleTaskStarts (N : Int))[i]? = some (Int.ofNat (i * 32)) ∧
      SimulateParticlesIndices N (Int.ofNat (i * 32)) (Int.ofNat (i * 32) + NumParticlesPerTask) =
        (List.range' (i * 32) (min (i * 32 + 32) N - i * 32)).map Int.ofNat ∧
      SimulateParticlesIndices N (Int.ofNat (i * 32)) (Int.ofNat (i * 32) + NumParticlesPerTask) ≠ []) ∧
    (∀ i j, i < (N + 31) / 32 → j < (N + 31) / 32 → i ≠ j → ∀ k,
      k ∈ SimulateParticlesIndices N (Int.ofNat (i * 32)) (Int.ofNat (i * 32) + NumParticlesPerTask) →
      k ∉ SimulateParticlesIndices N (Int.ofNat (j * 32)) (Int.ofNat (j * 32) + NumParticlesPerTask)) ∧
    (∀ k : Int, (0 ≤ k ∧ k < N) ↔ ∃ i, i < (N + 31) / 32 ∧
      k ∈ SimulateParticlesIndices N (Int.ofNat (i * 32)) (Int.ofNat (i * 32) + NumParticlesPerTask)) ∧
    (∀ i, i < (N + 31) / 32 →
      (SimulateParticlesIndices N (Int.ofNat (i * 32))
        (Int.ofNat (i * 32) + NumParticlesPerTask)).Nodup) := by
  refine ⟨by rw [ParticleTaskStarts_eq]; simp, ?_, ?_, ?_, ?_⟩
  · intro i hi
    refine ⟨by rw [ParticleTaskStarts_eq]; simp [hi], SimulateParticlesIndices_batch N i, ?_⟩
    intro h
    have hm : Int.ofNat (i * 32) ∈ SimulateParticlesIndices N (Int.ofNat (i * 32))
        (Int.ofNat (i * 32) + NumParticlesPerTask) := by
      rw [mem_SimulateParticlesIndices]
      simp only [NumParticlesPerTask, Int.ofNat_eq_coe]
      omega
    rw [h] at hm
    exact absurd hm (List.not_mem_nil _)
  · intro i j _ _ hij k hi hj
    rw [mem_SimulateParticlesIndices] at hi hj
    simp only [NumParticlesPerTask, Int.ofNat_eq_coe] at hi hj
    omega
  · intro k
    simp only [mem_SimulateParticlesIndices, NumParticlesPerTask, Int.ofNat_eq_coe]
    constructor
    · rintro ⟨h0, h1⟩
      exact ⟨k.toNat / 32, by omega, by omega, by omega, h1⟩
    · rintro ⟨i, _, h1, _, h3⟩
      omega
  · intro i _
    rw [SimulateParticlesIndices_batch]
    exact (List.nodup_range' _ _).map (fun a b h => Int.ofNat.inj h)

/-! ## What a particle update may change -/

theorem Except_bind_eq_ok {ε α β : Type} (x : Except ε α) (f : α → Except ε β) (b : β) :
    (x >>= f) = .ok b ↔ ∃ a, x = .ok a ∧ f a = .ok b := by
  cases x with
  | error e => simp [bind, Except.bind]
  | ok a => simp [bind, Except.bind]

theorem TArray_get_eq_ok {α : Type} (a : List α) (i : Nat) (x : α) :
    TArray.get a i = .ok x ↔ a[i]? = some x := by
  unfold TArray.get
  cases h : a[i]? <;> simp

theorem foldlM_ok_invariant {α σ : Type} (P : σ → Prop) (f : σ → α → Except Fault σ)
    (hf : ∀ s a s', P s → f s a = .ok s' → P s') (l : List α) (s s' : σ) (hs : P s)
    (h : l.foldlM f s = .ok s') : P s' := by
  induction l generalizing s with
  | nil =>
    simp only [List.foldlM_nil, pure, Except.pure] at h
    cases h; exact hs
  | cons a t ih =>
    rw [List.foldlM_cons, Except_bind_eq_ok] at h
    obtain ⟨s1, h1, h2⟩ := h
    exact ih s1 (hf s a s1 hs h1) h2

theorem SimulateParticle_ok (E : Engine K) (fuel : Nat) (s s' : FInsectBoidsSimulator K)
    (i : Int) (DeltaTime : K) (h : SimulateParticle E fuel s i DeltaTime = .ok s') :
    0 ≤ i ∧ i.toNat < (GetWriteParticles s).length ∧ i.toNat < (GetReadParticles s).length ∧
      ∃ p, s' = SetWriteParticle s i.toNat p := by
  unfold SimulateParticle at h
  split at h
  · cases h
  · rename_i hi
    simp only [Except_bind_eq_ok, pure, Except.pure, TArray_get_eq_ok] at h
    obtain ⟨w, hw, r, hr, acc, _, p, _, hs⟩ := h
    refine ⟨not_lt.mp hi, ?_, ?_, _, (Except.ok.inj hs).symm⟩
    · exact (List.getElem?_eq_some.mp hw).1
    · exact (List.getElem?_eq_some.mp hr).1

theorem Fin2_cases (c : Fin 2) : c = 0 ∨ c = 1 := by
  fin_cases c <;> simp

theorem Fin2_xor_xor (c : Fin 2) : (c ^^^ 1) ^^^ 1 = c := by
  fin_cases c <;> rfl

theorem SameFrame_refl (s : FInsectBoidsSimulator K) : SameFrame s s :=
  ⟨rfl, rfl, rfl, rfl, rfl⟩

theorem SameFrame_trans {s t u : FInsectBoidsSimulator K} (h1 : SameFrame s t)
    (h2 : SameFrame t u) : SameFrame s u := by
  obtain ⟨a1, a2, a3, a4, a5⟩ := h1
  obtain ⟨b1, b2, b3, b4, b5⟩ := h2
  exact ⟨b1.trans a1, b2.trans a2, b3.trans a3, b4.trans a4, b5.trans a5⟩

theorem GetWriteParticles_SetWriteParticle (s : FInsectBoidsSimulator K) (i : Nat)
    (p : FInsectBoidsParticle K) :
    GetWriteParticles (SetWriteParticle s i p) = (GetWriteParticles s).set i p := by
  unfold SetWriteParticle GetWriteParticles ParticlesAt
  rcases Fin2_cases s.CurrentContext with h | h <;> simp [h]

theorem GetReadParticles_SetWriteParticle (s : FInsectBoidsSimulator K) (i : Nat)
    (p : FInsectBoidsParticle K) :
    GetReadParticles (SetWriteParticle s i p) = GetReadParticles s := by
  unfold SetWriteParticle GetReadParticles ParticlesAt
  rcases Fin2_cases s.CurrentContext with h | h
  · have h1 : ((0 : Fin 2) ^^^ 1) ≠ 0 := by decide
    simp [h, h1]
  · have h1 : ((1 : Fin 2) ^^^ 1) = 0 := by decide
    simp [h, h1]

theorem SpatialHashGrid_SetWriteParticle (s : FInsectBoidsSimulator K) (i : Nat)
    (p : FInsectBoidsParticle K) :
    (SetWriteParticle s i p).SpatialHashGrid = s.SpatialHashGrid := by
  unfold SetWriteParticle
  split <;> rfl

theorem SameFrame_SetWriteParticle (s : FInsectBoidsSimulator K) (i : Nat)
    (p : FInsectBoidsParticle K) : SameFrame s (SetWriteParticle s i p) := by
  refine ⟨?_, ?_, ?_, GetReadParticles_SetWriteParticle s i p, ?_⟩
  · unfold SetWriteParticle; split <;> rfl
  · unfold SetWriteParticle; split <;> rfl
  · unfold SetWriteParticle; split <;> rfl
  · rw [GetWriteParticles_SetWriteParticle, List.length_set]

theorem SameFrame_SimulateParticle (E : Engine K) (fuel : Nat) (s s' : FInsectBoidsSimulator K)
    (i : Int) (DeltaTime : K) (h : SimulateParticle E fuel s i DeltaTime = .ok s') :
    SameFrame s s' ∧ s'.SpatialHashGrid = s.SpatialHashGrid := by
  obtain ⟨_, _, _, p, rfl⟩ := SimulateParticle_ok E fuel s s' i DeltaTime h
  exact ⟨SameFrame_SetWriteParticle s _ p, SpatialHashGrid_SetWriteParticle s _ p⟩

theorem SameFrame_SimulateParticles (E : Engine K) (fuel : Nat)
    (s s' : FInsectBoidsSimulator K) (Start End : Int) (DeltaTime : K)
    (h : SimulateParticles E fuel s Start End DeltaTime = .ok s') :
    SameFrame s s' ∧ s'.SpatialHashGrid = s.SpatialHashGrid := by
  unfold SimulateParticles at h
  refine foldlM_ok_invariant (fun t => SameFrame s t ∧ t.SpatialHashGrid = s.SpatialHashGrid)
    _ ?_ _ s s' ⟨SameFrame_refl s, rfl⟩ h
  intro t i t' ht hstep
  obtain ⟨h1, h2⟩ := SameFrame_SimulateParticle E fuel t t' i DeltaTime hstep
  exact ⟨SameFrame_trans ht.1 h1, h2.trans ht.2⟩

theorem SameFrame_SetupNeighborGridWith (Cap : Nat) (s : FInsectBoidsSimulator K) :
    SameFrame s (SetupNeighborGridWith Cap s) :=
  ⟨rfl, rfl, rfl, rfl, rfl⟩

theorem SameFrame_RunTask (E : Engine K) (fuel : Nat) (s s' : FInsectBoidsSimulator K)
    (t : FTask K) (h : RunTask E fuel s t = .ok s') : SameFrame s s' := by
  cases t with
  | SetupNeighborGrid =>
    simp only [RunTask] at h
    cases h
    exact SameFrame_SetupNeighborGridWith _ s
  | SimulateParticles Start DeltaTime =>
    exact (SameFrame_SimulateParticles E fuel s s' _ _ _ h).1

theorem SameFrame_Wait (E : Engine K) (fuel : Nat) (s s' : FInsectBoidsSimulator K)
    (h : Wait E fuel s = .ok s') : SameFrame s s' := by
  unfold Wait at h
  refine foldlM_ok_invariant (fun t => SameFrame s t) _ ?_ _ s s' (SameFrame_refl s) h
  intro t a t' ht hstep
  exact SameFrame_trans ht (SameFrame_RunTask E fuel t t' a hstep)

/-! ## `Simulate` in terms of `Wait` -/

theorem GetReadParticles_flip (sw : FInsectBoidsSimulator K) (DeltaTime : K)
    (UpdatedConfig : FInsectBoidsConfig K) :
    GetReadParticles (Launched sw DeltaTime UpdatedConfig) = GetWriteParticles sw := by
  unfold Launched GetReadParticles GetWriteParticles ParticlesAt
  simp only [Fin2_xor_xor]

theorem GetWriteParticles_flip (sw : FInsectBoidsSimulator K) (DeltaTime : K)
    (UpdatedConfig : FInsectBoidsConfig K) :
    GetWriteParticles (Launched sw DeltaTime UpdatedConfig) = GetReadParticles sw := rfl

theorem Simulate_of_Wait (E : Engine K) (fuel : Nat) (s sw : FInsectBoidsSimulator K)
    (DeltaTime : K) (UpdatedConfig : FInsectBoidsConfig K) (h : Wait E fuel s = .ok sw) :
    Simulate E fuel s DeltaTime UpdatedConfig = .ok (Launched sw DeltaTime UpdatedConfig) := by
  unfold Simulate
  rw [h]
  have hr : GetReadParticles ({ sw with
      SimulationTasks := [FTask.SetupNeighborGrid]
      Config := UpdatedConfig
      CurrentContext := sw.CurrentContext ^^^ 1 } : FInsectBoidsSimulator K) =
      GetWriteParticles sw := by
    unfold GetReadParticles GetWriteParticles ParticlesAt
    simp only [Fin2_xor_xor]
  simp only [bind, Except.bind, FlipParticleContext, List.isEmpty_nil, if_true, pure, Except.pure,
    List.nil_append, List.singleton_append]
  unfold Launched
  rw [hr]

theorem Simulate_ok (E : Engine K) (fuel : Nat) (s s' : FInsectBoidsSimulator K)
    (DeltaTime : K) (UpdatedConfig : FInsectBoidsConfig K)
    (h : Simulate E fuel s DeltaTime UpdatedConfig = .ok s') :
    ∃ sw, Wait E fuel s = .ok sw ∧ s' = Launched sw DeltaTime UpdatedConfig := by
  cases hw : Wait E fuel s with
  | error e =>
    unfold Simulate at h
    rw [hw] at h
    simp [bind, Except.bind] at h
  | ok sw =>
    rw [Simulate_of_Wait E fuel s sw DeltaTime UpdatedConfig hw] at h
    exact ⟨sw, rfl, (Except.ok.inj h).symm⟩

/-! ## The neighbour accumulation and the jitter loop -/

theorem foldlM_visitor (E : Engine K) (Config : FInsectBoidsConfig K)
    (ps : List (FInsectBoidsParticle K)) (cur : FInsectBoidsParticle K) (L : List Nat)
    (hL : ∀ n ∈ L, n < ps.length) (acc : FVector K × FVector K × Int) :
    L.foldlM (fun a n => do
        let OtherParticle ← TArray.get ps n
        pure (CalculateSteerAwayVector E Config cur OtherParticle a.1,
          CalculateCenterPosition E Config cur OtherParticle a.2)) acc =
      (Except.ok ((L.filterMap fun n => ps[n]?).foldl
        (fun a o => (CalculateSteerAwayVector E Config cur o a.1,
          CalculateCenterPosition E Config cur o a.2)) acc) : Except Fault _) := by
  induction L generalizing acc with
  | nil => rfl
  | cons n t ih =>
    have hn : n < ps.length := hL n (List.mem_cons_self _ _)
    have hget : ps[n]? = some ps[n] := List.getElem?_eq_getElem hn
    rw [List.foldlM_cons, List.filterMap_cons]
    simp only [TArray.get, hget, bind, Except.bind, pure, Except.pure, List.foldl_cons]
    exact ih (fun m hm => hL m (List.mem_cons_of_mem _ hm)) _

theorem foldl_pair (E : Engine K) (Config : FInsectBoidsConfig K)
    (cur : FInsectBoidsParticle K) (M : List (FInsectBoidsParticle K))
    (a : FVector K) (b : FVector K × Int) :
    M.foldl (fun acc o => (CalculateSteerAwayVector E Config cur o acc.1,
        CalculateCenterPosition E Config cur o acc.2)) (a, b) =
      (M.foldl (fun acc o => CalculateSteerAwayVector E Config cur o acc) a,
        M.foldl (fun acc o => CalculateCenterPosition E Config cur o acc) b) := by
  induction M generalizing a b with
  | nil => rfl
  | cons o t ih => simp only [List.foldl_cons]; exact ih _ _

theorem foldl_CalculateCenterPosition (E : Engine K) (Config : FInsectBoidsConfig K)
    (cur : FInsectBoidsParticle K) (M : List (FInsectBoidsParticle K)) (c : FVector K) (n : Int) :
    M.foldl (fun acc o => CalculateCenterPosition E Config cur o acc) (c, n) =
      ((AttractNeighbors E Config cur M).foldl (fun acc o => FVector.add acc o.Position) c,
        n + ((AttractNeighbors E Config cur M).length : Int)) := by
  induction M generalizing c n with
  | nil => simp [AttractNeighbors]
  | cons o t ih =>
    rw [List.foldl_cons]
    unfold CalculateCenterPosition AttractNeighbors
    by_cases h : FVector.Dist E cur.Position o.Position ≤ Config.AttractDistance
    · rw [if_pos h, List.filter_cons_of_pos (by simpa using h)]
      have := ih (FVector.add c o.Position) (n + 1)
      unfold CalculateCenterPosition AttractNeighbors at this
      rw [this]
      simp only [List.foldl_cons, List.length_cons, Nat.cast_add, Nat.cast_one, Prod.mk.injEq,
        true_and]
      ring
    · rw [if_neg h, List.filter_cons_of_neg (by simpa using h)]
      have := ih c n
      unfold CalculateCenterPosition AttractNeighbors at this
      exact this

theorem VisitList_GridOf_lt (Cap : Nat) (ps : List (FInsectBoidsParticle K)) (i : Nat)
    (c : FIntVector) (n : Nat) (h : n ∈ VisitList (GridOf Cap ps) i c) : n < ps.length := by
  obtain ⟨c2, hc2⟩ := mem_VisitList _ _ _ _ h
  rw [Bucket_GridOf] at hc2
  exact IndicesInCell_lt ps c2 n (List.mem_of_mem_take hc2)

theorem AccumulateNeighbors_eq (E : Engine K) (s : FInsectBoidsSimulator K) (i : Nat)
    (cur : FInsectBoidsParticle K) (hcur : (GetReadParticles s)[i]? = some cur)
    (hvalid : ∀ n ∈ VisitList s.SpatialHashGrid i (GridIndex cur.Position),
      n < (GetReadParticles s).length) :
    AccumulateNeighbors E s i cur =
      .ok (SteerSum E s.Config cur (VisitedParticles s i cur),
        SumPositions (AttractNeighbors E s.Config cur (VisitedParticles s i cur)),
        ((AttractNeighbors E s.Config cur (VisitedParticles s i cur)).length : Int)) := by
  unfold AccumulateNeighbors
  rw [IterateOverNeighbors_eq]
  simp only [TArray.get, hcur, Except.bind]
  have := foldlM_visitor E s.Config (GetReadParticles s) cur _ hvalid
    (FVector.Zero, (FVector.Zero, 0))
  simp only [TArray.get] at this
  rw [this, foldl_pair, foldl_CalculateCenterPosition]
  simp only [zero_add]
  rfl

theorem ApplyParticleJitterLoop_ok (E : Engine K) (Config : FInsectBoidsConfig K)
    (DeltaSeconds : K) (hS : 0 < Config.JitterSubstepSize) (fuel : Nat) :
    ∀ (JitTime SubstepDelta : K) (p : FInsectBoidsParticle K),
      DeltaSeconds - JitTime ≤ fuel * Config.JitterSubstepSize →
      ∃ p', ApplyParticleJitterLoop E Config DeltaSeconds fuel JitTime SubstepDelta p = .ok p' ∧
        p'.Velocity = p.Velocity ∧ (Config.JitterStrength = 0 → p' = p) := by
  induction fuel with
  | zero =>
    intro JitTime SubstepDelta p h
    have hnot : ¬ JitTime < DeltaSeconds := by
      simp only [Nat.cast_zero, zero_mul] at h
      linarith
    exact ⟨p, by simp [ApplyParticleJitterLoop, hnot], rfl, fun _ => rfl⟩
  | succ fuel ih =>
    intro JitTime SubstepDelta p h
    by_cases hlt : JitTime < DeltaSeconds
    · unfold ApplyParticleJitterLoop
      rw [if_pos hlt]
      have hstep : DeltaSeconds - (JitTime + min Config.JitterSubstepSize (DeltaSeconds - JitTime)) ≤
          fuel * Config.JitterSubstepSize := by
        push_cast at h
        rcases le_total Config.JitterSubstepSize (DeltaSeconds - JitTime) with hm | hm
        · rw [min_eq_left hm]; linarith
        · rw [min_eq_right hm]
          have : 0 ≤ (fuel : K) * Config.JitterSubstepSize :=
            mul_nonneg (Nat.cast_nonneg _) (le_of_lt hS)
          linarith
      obtain ⟨p', hp', hv, hz⟩ := ih _ (min Config.JitterSubstepSize (DeltaSeconds - JitTime)) _ hstep
      refine ⟨p', hp', hv, ?_⟩
      intro h0
      rw [hz h0]
      cases p with
      | mk pos vel =>
        simp [h0, FVector.scale, FVector.add]
    · exact ⟨p, by unfold ApplyParticleJitterLoop; simp [hlt], rfl, fun _ => rfl⟩

theorem ApplyParticleJitter_ok (E : Engine K) (Config : FInsectBoidsConfig K)
    (DeltaSeconds : K) (hT : 0 < Config.JitterSubstepSize ∨ DeltaSeconds ≤ 0) (fuel : Nat)
    (hfuel : JitterFuel DeltaSeconds Config.JitterSubstepSize ≤ fuel)
    (p : FInsectBoidsParticle K) :
    ∃ p', ApplyParticleJitter E Config fuel p DeltaSeconds = .ok p' ∧
      p'.Velocity = p.Velocity ∧ (Config.JitterStrength = 0 → p' = p) := by
  unfold ApplyParticleJitter
  by_cases hd : DeltaSeconds ≤ 0
  · have hnot : ¬ (0 : K) < DeltaSeconds := not_lt.mpr hd
    refine ⟨p, ?_, rfl, fun _ => rfl⟩
    cases fuel <;> simp [ApplyParticleJitterLoop, hnot]
  · have hS : 0 < Config.JitterSubstepSize := hT.resolve_right hd
    apply ApplyParticleJitterLoop_ok E Config DeltaSeconds hS
    rw [sub_zero]
    have h1 : DeltaSeconds / Config.JitterSubstepSize ≤
        (JitterFuel DeltaSeconds Config.JitterSubstepSize : K) := Nat.le_ceil _
    have h2 : (JitterFuel DeltaSeconds Config.JitterSubstepSize : K) ≤ (fuel : K) :=
      Nat.cast_le.mpr hfuel
    calc DeltaSeconds = DeltaSeconds / Config.JitterSubstepSize * Config.JitterSubstepSize := by
          field_simp
      _ ≤ fuel * Config.JitterSubstepSize :=
          mul_le_mul_of_nonneg_right (le_trans h1 h2) (le_of_lt hS)

theorem ApplyParticleJitterLoop_Velocity (E : Engine K) (Config : FInsectBoidsConfig K)
    (DeltaSeconds : K) (fuel : Nat) :
    ∀ (JitTime SubstepDelta : K) (p p' : FInsectBoidsParticle K),
      ApplyParticleJitterLoop E Config DeltaSeconds fuel JitTime SubstepDelta p = .ok p' →
      p'.Velocity = p.Velocity := by
  induction fuel with
  | zero =>
    intro JitTime SubstepDelta p p' h
    unfold ApplyParticleJitterLoop at h
    split at h
    · cases h
    · cases h; rfl
  | succ fuel ih =>
    intro JitTime SubstepDelta p p' h
    unfold ApplyParticleJitterLoop at h
    split at h
    · exact (ih _ _ _ _ h).trans rfl
    · cases h; rfl

theorem GridValid_SetupNeighborGridWith (Cap : Nat) (s : FInsectBoidsSimulator K) :
    GridValid (SetupNeighborGridWith Cap s) := by
  intro c n hn
  rw [SpatialHashGrid_SetupNeighborGridWith, Bucket_GridOf] at hn
  exact IndicesInCell_lt _ c n (List.mem_of_mem_take hn)

theorem GridValid_VisitList (s : FInsectBoidsSimulator K) (hgrid : GridValid s) (i : Nat)
    (c : FIntVector) : ∀ n ∈ VisitList s.SpatialHashGrid i c, n < (GetReadParticles s).length := by
  intro n hn
  obtain ⟨c2, hc2⟩ := mem_VisitList _ _ _ _ hn
  exact hgrid c2 n hc2

theorem SimulateParticle_eq (E : Engine K) (fuel : Nat) (s : FInsectBoidsSimulator K)
    (hgrid : GridValid s) (i : Nat) (cur : FInsectBoidsParticle K)
    (hcur : (GetReadParticles s)[i]? = some cur) (hw : i < (GetWriteParticles s).length)
    (DeltaTime : K) :
    SimulateParticle E fuel s (i : Int) DeltaTime =
      (ApplyParticleJitter E s.Config fuel (MoveStep s.Config (SteeredParticle E s i cur) DeltaTime)
        DeltaTime).map fun pj =>
          SetWriteParticle s i (ApplyParticleGlobalMovementVector E s.Config pj DeltaTime) := by
  unfold SimulateParticle
  have hnn : ¬ ((i : Int) < 0) := by omega
  rw [if_neg hnn]
  have hgw : (GetWriteParticles s)[i]? = some (GetWriteParticles s)[i] :=
    List.getElem?_eq_getElem hw
  simp only [Int.toNat_ofNat, TArray.get, hgw, hcur, bind, Except.bind,
    AccumulateNeighbors_eq E s i cur hcur (GridValid_VisitList s hgrid i _)]
  unfold SteeredParticle
  cases ApplyParticleJitter E s.Config fuel _ DeltaTime <;> rfl

theorem SteerAwayStep_Position (E : Engine K) (Config : FInsectBoidsConfig K)
    (p : FInsectBoidsParticle K) (S : FVector K) :
    (SteerAwayStep E Config p S).Position = p.Position := by
  rw [SteerAwayStep_eq]
  split <;> rfl

theorem SteerCenterStep_Position (E : Engine K) (Config : FInsectBoidsConfig K)
    (p : FInsectBoidsParticle K) (C : FVector K) (n : Int) :
    (SteerCenterStep E Config p C n).Position = p.Position := by
  unfold SteerCenterStep
  split <;> rfl

theorem SteeredParticle_Position (E : Engine K) (s : FInsectBoidsSimulator K) (i : Nat)
    (cur : FInsectBoidsParticle K) : (SteeredParticle E s i cur).Position = cur.Position := by
  unfold SteeredParticle
  rw [SteerCenterStep_Position, SteerAwayStep_Position]

theorem GetWriteParticles_SetWriteParticle_get (s : FInsectBoidsSimulator K) (i : Nat)
    (p : FInsectBoidsParticle K) (hw : i < (GetWriteParticles s).length) :
    (GetWriteParticles (SetWriteParticle s i p))[i]? = some p := by
  rw [GetWriteParticles_SetWriteParticle]
  simp [List.getElem?_set, hw]

/-! ## Cohesion and integration (C9, C10) -/

/-- C9: in a state whose grid stores indices of the read buffer, the velocity
`SimulateParticles` writes for particle `i` is, when some visited neighbour lies within
`AttractDistance` of the baseline position, the blend with factor `AttractionStrength` of the
velocity left by the repulsion step and the safe-normalised direction from the baseline
position to the mean position of exactly the visited neighbours within `AttractDistance`;
with no such neighbour it is the velocity left by the repulsion step. The update returns
whenever the fuel covers `JitterFuel` and the jitter loop can end. -/
theorem SimulateParticle_cohesion (E : Engine K) (fuel : Nat) (s : FInsectBoidsSimulator K)
    (hgrid : GridValid s) (i : Nat) (cur : FInsectBoidsParticle K)
    (hcur : (GetReadParticles s)[i]? = some cur) (hw : i < (GetWriteParticles s).length)
    (DeltaTime : K) :
    (AttractNeighbors E s.Config cur (VisitedParticles s i cur) ≠ [] →
      (SteeredParticle E s i cur).Velocity =
        FVector.Lerp (RepelledVelocity E s i cur)
          (FVector.GetSafeNormal E
            (FVector.sub
              (FVector.divScalar
                (SumPositions (AttractNeighbors E s.Config cur (VisitedParticles s i cur)))
                ((AttractNeighbors E s.Config cur (VisitedParticles s i cur)).length : K))
              cur.Position))
          s.Config.AttractionStrength) ∧
    (AttractNeighbors E s.Config cur (VisitedParticles s i cur) = [] →
      (SteeredParticle E s i cur).Velocity = RepelledVelocity E s i cur) ∧
    (∀ s', SimulateParticle E fuel s (i : Int) DeltaTime = .ok s' →
      ∃ p', (GetWriteParticles s')[i]? = some p' ∧
        p'.Velocity = (SteeredParticle E s i cur).Velocity) ∧
    ((0 < s.Config.JitterSubstepSize ∨ DeltaTime ≤ 0) →
      JitterFuel DeltaTime s.Config.JitterSubstepSize ≤ fuel →
      ∃ s', SimulateParticle E fuel s (i : Int) DeltaTime = .ok s') := by
  refine ⟨?_, ?_, ?_, ?_⟩
  · intro hne
    have hlen : (0 : Int) <
        ((AttractNeighbors E s.Config cur (VisitedParticles s i cur)).length : Int) := by
      have := List.length_pos.mpr hne
      omega
    unfold SteeredParticle SteerCenterStep RepelledVelocity
    rw [if_pos hlen, SteerAwayStep_Position]
    simp
  · intro he
    unfold SteeredParticle SteerCenterStep RepelledVelocity
    rw [he]
    simp
  · intro s' hs'
    rw [SimulateParticle_eq E fuel s hgrid i cur hcur hw] at hs'
    unfold ApplyParticleJitter at hs'
    cases hj : ApplyParticleJitterLoop E s.Config DeltaTime fuel 0 0
        (MoveStep s.Config (SteeredParticle E s i cur) DeltaTime) with
    | error e => rw [hj] at hs'; cases hs'
    | ok pj =>
      rw [hj] at hs'
      have hv := ApplyParticleJitterLoop_Velocity E s.Config DeltaTime fuel _ _ _ _ hj
      cases hs'
      exact ⟨_, GetWriteParticles_SetWriteParticle_get s i _ hw, hv⟩
  · intro hT hfuel
    obtain ⟨pj, hpj, _, _⟩ := ApplyParticleJitter_ok E s.Config DeltaTime hT fuel hfuel
      (MoveStep s.Config (SteeredParticle E s i cur) DeltaTime)
    rw [SimulateParticle_eq E fuel s hgrid i cur hcur hw, hpj]
    exact ⟨_, rfl⟩

/-- Witness of C9 on the two-particle scenario: particle 0 has particle 1 as its only
visited neighbour, at distance 10, and its update returns. -/
theorem SimulateParticle_cohesion_witness :
    (SteeredParticle (Examples.RatEngine 0) (SetupNeighborGrid Examples.ScenarioExample) 0
        (Examples.AtRest 0 0 0)).Velocity =
      FVector.Lerp
        (RepelledVelocity (Examples.RatEngine 0) (SetupNeighborGrid Examples.ScenarioExample) 0
          (Examples.AtRest 0 0 0))
        (FVector.GetSafeNormal (Examples.RatEngine 0)
          (FVector.sub (FVector.divScalar (⟨10, 0, 0⟩ : FVector ℚ) 1) ⟨0, 0, 0⟩))
        (5 / 100) ∧
    ∃ s', SimulateParticle (Examples.RatEngine 0) 300 (SetupNeighborGrid Examples.ScenarioExample)
      0 1 = .ok s' := by
  have h := SimulateParticle_cohesion (Examples.RatEngine 0) 300
    (SetupNeighborGrid Examples.ScenarioExample) (GridValid_SetupNeighborGridWith _ _) 0
    (Examples.AtRest 0 0 0) rfl (by decide) 1
  refine ⟨?_, h.2.2.2 (Or.inl (by decide!)) (by decide!)⟩
  have h1 := h.1 (by decide!)
  rw [h1]
  decide!

/-- C10 (amended): in exact arithmetic, with zero jitter strength, zero global noise
strength, non-zero noise sizes and a positive jitter sub-step size (or a non-positive
`DeltaTime`), in a state whose grid stores indices of the read buffer, the update of
particle `i` returns as soon as the fuel covers `JitterFuel`, and writes the baseline
position plus `v_new * DeltaTime * VelocityMultiplier`, where `v_new` is the velocity after
the two blends of the same update. -/
theorem SimulateParticle_position (E : Engine K) (fuel : Nat) (s : FInsectBoidsSimulator K)
    (hgrid : GridValid s) (i : Nat) (cur : FInsectBoidsParticle K)
    (hcur : (GetReadParticles s)[i]? = some cur) (hw : i < (GetWriteParticles s).length)
    (DeltaTime : K) (hJ : s.Config.JitterStrength = 0)
    (hG : s.Config.GlobalNoiseForceStrength = ⟨0, 0, 0⟩)
    (_hJN : s.Config.JitterNoiseSize ≠ 0) (_hGN : s.Config.GlobalNoiseForceSize ≠ 0)
    (hT : 0 < s.Config.JitterSubstepSize ∨ DeltaTime ≤ 0)
    (hfuel : JitterFuel DeltaTime s.Config.JitterSubstepSize ≤ fuel) :
    SimulateParticle E fuel s (i : Int) DeltaTime =
      .ok (SetWriteParticle s i
        ⟨FVector.add cur.Position
          (FVector.scale (FVector.scale (SteeredParticle E s i cur).Velocity DeltaTime)
            s.Config.VelocityMultiplier),
          (SteeredParticle E s i cur).Velocity⟩) := by
  obtain ⟨pj, hpj, _, hz⟩ := ApplyParticleJitter_ok E s.Config DeltaTime hT fuel hfuel
    (MoveStep s.Config (SteeredParticle E s i cur) DeltaTime)
  rw [SimulateParticle_eq E fuel s hgrid i cur hcur hw, hpj, hz hJ]
  simp only [Except.map, ApplyParticleGlobalMovementVector, MoveStep, hG,
    SteeredParticle_Position]
  congr 2
  simp [FVector.mul, FVector.scale, FVector.add]

theorem ApplyParticleJitterLoop_diverges (E : Engine K) (Config : FInsectBoidsConfig K)
    (DeltaSeconds : K) (hS : Config.JitterSubstepSize ≤ 0) (fuel : Nat) :
    ∀ (JitTime SubstepDelta : K) (p : FInsectBoidsParticle K), JitTime < DeltaSeconds →
      ApplyParticleJitterLoop E Config DeltaSeconds fuel JitTime SubstepDelta p =
        .error .OutOfFuel := by
  induction fuel with
  | zero =>
    intro JitTime SubstepDelta p h
    simp [ApplyParticleJitterLoop, h]
  | succ fuel ih =>
    intro JitTime SubstepDelta p h
    unfold ApplyParticleJitterLoop
    rw [if_pos h]
    apply ih
    have : min Config.JitterSubstepSize (DeltaSeconds - JitTime) ≤ 0 :=
      le_trans (min_le_left _ _) hS
    linarith

/-- Witness of the amended C10 on the two-particle scenario, `DeltaTime = 1`. -/
theorem SimulateParticle_position_witness :
    SimulateParticle (Examples.RatEngine 0) 300 (SetupNeighborGrid Examples.ScenarioExample) 0 1 =
      .ok (SetWriteParticle (SetupNeighborGrid Examples.ScenarioExample) 0
        ⟨⟨-2617 / 625, 0, 0⟩, ⟨-2617 / 40000, 0, 0⟩⟩) := by
  have h := SimulateParticle_position (Examples.RatEngine 0) 300
    (SetupNeighborGrid Examples.ScenarioExample) (GridValid_SetupNeighborGridWith _ _) 0
    (Examples.AtRest 0 0 0) rfl (by decide) 1 rfl rfl (by decide!) (by decide!)
    (Or.inl (by decide!)) (by decide!)
  have hv : (SteeredParticle (Examples.RatEngine 0) (SetupNeighborGrid Examples.ScenarioExample) 0
      (Examples.AtRest 0 0 0)).Velocity = ⟨-2617 / 40000, 0, 0⟩ := by decide!
  rw [hv] at h
  rw [show ((0 : Int)) = ((0 : Nat) : Int) from rfl, h]
  congr 2
  decide!

/-- Counterexample to C10 as stated: jitter strength and global noise strength are zero,
the jitter sub-step size `-1` and the noise sizes are non-zero, and `DeltaTime = 1`; the
jitter loop of the first particle never ends, so for no amount of fuel does
`SimulateParticles` return, and no position is produced for the second particle. -/
theorem SimulateParticles_negative_substep :
    Examples.NegativeSubstepExample.Config.JitterStrength = 0 ∧
    Examples.NegativeSubstepExample.Config.GlobalNoiseForceStrength = ⟨0, 0, 0⟩ ∧
    Examples.NegativeSubstepExample.Config.JitterSubstepSize ≠ 0 ∧
    Examples.NegativeSubstepExample.Config.JitterNoiseSize ≠ 0 ∧
    Examples.NegativeSubstepExample.Config.GlobalNoiseForceSize ≠ 0 ∧
    ¬ ∃ fuel s', SimulateParticles (Examples.RatEngine 0) fuel
      (SetupNeighborGrid Examples.NegativeSubstepExample) 0 32 1 = .ok s' := by
  refine ⟨rfl, rfl, by decide!, by decide!, by decide!, ?_⟩
  rintro ⟨fuel, s', h⟩
  unfold SimulateParticles at h
  have hidx : SimulateParticlesIndices
      (GetReadParticles (SetupNeighborGrid Examples.NegativeSubstepExample)).length 0 32 =
      [((0 : Nat) : Int), ((1 : Nat) : Int)] := by decide
  rw [hidx, List.foldlM_cons,
    SimulateParticle_eq (Examples.RatEngine 0) fuel
      (SetupNeighborGrid Examples.NegativeSubstepExample) (GridValid_SetupNeighborGridWith _ _) 0
      (Examples.AtRest 0 0 0) rfl (by decide)] at h
  unfold ApplyParticleJitter at h
  rw [ApplyParticleJitterLoop_diverges _ _ _ (by decide!) fuel 0 0 _ (by decide!)] at h
  cases h

/-! ## Outstanding work runs to completion -/

theorem foldlM_ok_of_invariant {α σ : Type} (P : σ → Prop) (f : σ → α → Except Fault σ)
    (l : List α) (hf : ∀ s a, a ∈ l → P s → ∃ s', f s a = .ok s' ∧ P s') (s : σ) (hs : P s) :
    ∃ s', l.foldlM f s = .ok s' ∧ P s' := by
  induction l generalizing s with
  | nil => exact ⟨s, rfl, hs⟩
  | cons a t ih =>
    obtain ⟨s1, h1, hp1⟩ := hf s a (List.mem_cons_self _ _) hs
    obtain ⟨s2, h2, hp2⟩ := ih (fun s a ha hp => hf s a (List.mem_cons_of_mem _ ha) hp) s1 hp1
    refine ⟨s2, ?_, hp2⟩
    rw [List.foldlM_cons, h1]
    exact h2

theorem SimulateParticles_ok (E : Engine K) (fuel : Nat) (s1 t : FInsectBoidsSimulator K)
    (hgrid : GridValid s1) (hlen : (GetReadParticles s1).length = (GetWriteParticles s1).length)
    (DeltaTime : K) (hends : CallEnds fuel DeltaTime s1.Config)
    (ht : SameFrame s1 t ∧ t.SpatialHashGrid = s1.SpatialHashGrid)
    (Start End : Int) (hStart : 0 ≤ Start) :
    ∃ t', SimulateParticles E fuel t Start End DeltaTime = .ok t' ∧
      (SameFrame s1 t' ∧ t'.SpatialHashGrid = s1.SpatialHashGrid) := by
  unfold SimulateParticles
  apply foldlM_ok_of_invariant
    (fun u => SameFrame s1 u ∧ u.SpatialHashGrid = s1.SpatialHashGrid) _ _ _ t ht
  intro u k hk hu
  obtain ⟨⟨hc, _, _, hr, hwl⟩, hg⟩ := hu
  rw [mem_SimulateParticlesIndices, ht.1.2.2.2.1] at hk
  obtain ⟨hk0, _, hkN⟩ := hk
  have hk0' : 0 ≤ k := le_trans hStart hk0
  have hkn : k.toNat < (GetReadParticles s1).length := by omega
  have hgu : GridValid u := by
    intro c n hn
    rw [hg] at hn
    rw [hr]
    exact hgrid c n hn
  have hcur : (GetReadParticles u)[k.toNat]? = some (GetReadParticles s1)[k.toNat] := by
    rw [hr]; exact List.getElem?_eq_getElem hkn
  have hw : k.toNat < (GetWriteParticles u).length := by rw [hwl, ← hlen]; exact hkn
  have hends' : CallEnds fuel DeltaTime u.Config := by rw [hc]; exact hends
  obtain ⟨pj, hpj, _, _⟩ := ApplyParticleJitter_ok E u.Config DeltaTime hends'.1 fuel hends'.2
    (MoveStep u.Config (SteeredParticle E u k.toNat (GetReadParticles s1)[k.toNat]) DeltaTime)
  have hkk : ((k.toNat : Nat) : Int) = k := Int.toNat_of_nonneg hk0'
  have heq := SimulateParticle_eq E fuel u hgu k.toNat _ hcur hw DeltaTime
  rw [hkk, hpj] at heq
  refine ⟨_, heq, ?_, ?_⟩
  · exact SameFrame_trans ⟨hc, ‹_›, ‹_›, hr, hwl⟩ (SameFrame_SetWriteParticle u _ _)
  · rw [SpatialHashGrid_SetWriteParticle]; exact hg

theorem Wait_ok (E : Engine K) (fuel : Nat) (s : FInsectBoidsSimulator K) (hs : Ready fuel s) :
    ∃ sw, Wait E fuel s = .ok sw := by
  obtain ⟨hlen, htasks⟩ := hs
  rcases htasks with h | ⟨DeltaTime, starts, h, hstarts, hends⟩
  · exact ⟨s, by unfold Wait; rw [h]; rfl⟩
  · unfold Wait
    rw [h, List.foldlM_cons]
    show ∃ sw, List.foldlM (RunTask E fuel) (SetupNeighborGrid s) _ = .ok sw
    have hinv := foldlM_ok_of_invariant
      (fun u => SameFrame (SetupNeighborGrid s) u ∧
        u.SpatialHashGrid = (SetupNeighborGrid s).SpatialHashGrid)
      (RunTask E fuel) (starts.map (fun st => FTask.SimulateParticles st DeltaTime)) ?_
      (SetupNeighborGrid s) ⟨SameFrame_refl _, rfl⟩
    · obtain ⟨sw, hsw, _⟩ := hinv
      exact ⟨sw, hsw⟩
    · intro u a ha hu
      simp only [List.mem_map] at ha
      obtain ⟨st, hst, rfl⟩ := ha
      exact SimulateParticles_ok E fuel (SetupNeighborGrid s) u
        (GridValid_SetupNeighborGridWith _ s) hlen DeltaTime hends hu st _ (hstarts st hst)

theorem ParticleTaskStarts_nonneg (N : Nat) : ∀ st ∈ ParticleTaskStarts (N : Int), (0 : Int) ≤ st := by
  intro st hst
  rw [ParticleTaskStarts_eq] at hst
  simp only [List.mem_map, List.mem_range] at hst
  obtain ⟨i, _, rfl⟩ := hst
  exact Int.ofNat_nonneg _

theorem Ready_Launched (fuel : Nat) (s sw : FInsectBoidsSimulator K) (hsw : SameFrame s sw)
    (hlen : (GetReadParticles s).length = (GetWriteParticles s).length)
    (DeltaTime : K) (UpdatedConfig : FInsectBoidsConfig K)
    (hends : CallEnds fuel DeltaTime UpdatedConfig) :
    Ready fuel (Launched sw DeltaTime UpdatedConfig) := by
  obtain ⟨_, _, _, hr, hwl⟩ := hsw
  refine ⟨?_, Or.inr ⟨DeltaTime, _, rfl, ParticleTaskStarts_nonneg _, hends⟩⟩
  rw [GetReadParticles_flip, GetWriteParticles_flip, hr, hwl, hlen]

theorem SimulateAll_ok (E : Engine K) (fuel : Nat) (calls : List (K × FInsectBoidsConfig K))
    (hcalls : ∀ c ∈ calls, CallEnds fuel c.1 c.2) (s : FInsectBoidsSimulator K)
    (hs : Ready fuel s) : ∃ s', SimulateAll E fuel s calls = .ok s' ∧ Ready fuel s' := by
  unfold SimulateAll
  apply foldlM_ok_of_invariant (Ready fuel) _ calls _ s hs
  intro t c hc ht
  obtain ⟨sw, hsw⟩ := Wait_ok E fuel t ht
  exact ⟨_, Simulate_of_Wait E fuel t sw c.1 c.2 hsw,
    Ready_Launched fuel t sw (SameFrame_Wait E fuel t sw hsw) ht.1 c.1 c.2 (hcalls c hc)⟩

/-! ## Construction, and the length of the buffers (C7) -/

theorem foldl_set_range {α : Type} (f : Nat → α) (n : Nat) (l : List α) (hl : n ≤ l.length) :
    (List.range n).foldl (fun acc i => acc.set i (f i)) l =
      (List.range n).map f ++ l.drop n := by
  induction n with
  | zero => simp
  | succ n ih =>
    rw [List.range_succ, List.foldl_append, ih (by omega)]
    simp only [List.foldl_cons, List.foldl_nil, List.map_append, List.map_cons, List.map_nil]
    have hlen : ((List.range n).map f).length = n := by simp
    rw [List.set_append_right _ _ (by omega), hlen, Nat.sub_self]
    have hd : l.drop n = l[n] :: l.drop (n + 1) := by
      rw [List.drop_eq_getElem_cons (by omega)]
    rw [hd, List.set_cons_zero, List.append_assoc]
    rfl

theorem new_eq (E : Engine K) (InConfig : FInsectBoidsConfig K) (ParticleCenter : FVector K)
    (h : 0 ≤ InConfig.NumParticles) :
    new E InConfig ParticleCenter = .ok
      { SimulationTasks := []
        Config := InConfig
        Particles0 := Seeded E ParticleCenter InConfig.NumParticles.toNat
        Particles1 := List.replicate InConfig.NumParticles.toNat FInsectBoidsParticle.Defaulted
        CurrentContext := 0
        SpatialHashGrid := [] } := by
  unfold new
  rw [if_neg (not_lt.mpr h)]
  have hfold : ∀ (l : List Nat) (t : FInsectBoidsSimulator K), t.CurrentContext = 0 →
      l.foldl (fun st i => SetWriteParticle st i
        ⟨E.RandPointInBox i (FVector.sub ParticleCenter (FVector.splat 32))
            (FVector.add ParticleCenter (FVector.splat 32)), FVector.splat 0⟩) t =
      { t with Particles0 := l.foldl (fun acc i => acc.set i
        ⟨E.RandPointInBox i (FVector.sub ParticleCenter (FVector.splat 32))
            (FVector.add ParticleCenter (FVector.splat 32)), FVector.splat 0⟩) t.Particles0 } := by
    intro l
    induction l with
    | nil => intro t _; rfl
    | cons a tl ih =>
      intro t ht
      rw [List.foldl_cons, ih _ (by unfold SetWriteParticle; rw [if_pos ht]; exact ht)]
      simp [SetWriteParticle, ht]
  dsimp only
  rw [hfold _ _ rfl]
  simp only [GetWriteParticles, ParticlesAt, if_true, List.length_replicate]
  rw [foldl_set_range _ _ _ (by simp)]
  simp [Seeded]

theorem foldlM_ok_invariant_mem {α σ : Type} (P : σ → Prop) (f : σ → α → Except Fault σ)
    (l : List α) (hf : ∀ s a s', a ∈ l → P s → f s a = .ok s' → P s') (s s' : σ) (hs : P s)
    (h : l.foldlM f s = .ok s') : P s' := by
  induction l generalizing s with
  | nil =>
    simp only [List.foldlM_nil, pure, Except.pure] at h
    cases h; exact hs
  | cons a t ih =>
    rw [List.foldlM_cons, Except_bind_eq_ok] at h
    obtain ⟨s1, h1, h2⟩ := h
    exact ih (fun s a s' ha => hf s a s' (List.mem_cons_of_mem _ ha)) s1
      (hf s a s1 (List.mem_cons_self _ _) hs h1) h2

theorem new_eq_Constructed (E : Engine K) (InConfig : FInsectBoidsConfig K)
    (ParticleCenter : FVector K) (h : 0 ≤ InConfig.NumParticles) :
    new E InConfig ParticleCenter = .ok (Constructed E InConfig ParticleCenter) :=
  new_eq E InConfig ParticleCenter h

theorem Constructed_lengths (E : Engine K) (InConfig : FInsectBoidsConfig K)
    (ParticleCenter : FVector K) :
    (GetReadParticles (Constructed E InConfig ParticleCenter)).length =
        InConfig.NumParticles.toNat ∧
      (GetWriteParticles (Constructed E InConfig ParticleCenter)).length =
        InConfig.NumParticles.toNat := by
  constructor
  · show (List.replicate _ _).length = _
    simp
  · show (Seeded E ParticleCenter _).length = _
    simp [Seeded]

theorem new_ok (E : Engine K) (InConfig : FInsectBoidsConfig K) (ParticleCenter : FVector K)
    (s0 : FInsectBoidsSimulator K) (h : new E InConfig ParticleCenter = .ok s0) :
    0 ≤ InConfig.NumParticles ∧ s0 = Constructed E InConfig ParticleCenter := by
  by_cases hn : InConfig.NumParticles < 0
  · unfold new at h
    rw [if_pos hn] at h
    cases h
  · rw [new_eq_Constructed E InConfig ParticleCenter (not_lt.mp hn)] at h
    exact ⟨not_lt.mp hn, (Except.ok.inj h).symm⟩

theorem Simulate_lengths (E : Engine K) (fuel : Nat) (s s' : FInsectBoidsSimulator K)
    (DeltaTime : K) (UpdatedConfig : FInsectBoidsConfig K)
    (h : Simulate E fuel s DeltaTime UpdatedConfig = .ok s') :
    (GetReadParticles s').length = (GetWriteParticles s).length ∧
      (GetWriteParticles s').length = (GetReadParticles s).length ∧
      s'.Config = UpdatedConfig := by
  obtain ⟨sw, hw, rfl⟩ := Simulate_ok E fuel s s' DeltaTime UpdatedConfig h
  obtain ⟨_, _, _, hr, hwl⟩ := SameFrame_Wait E fuel s sw hw
  rw [GetReadParticles_flip, GetWriteParticles_flip, hr, hwl]
  exact ⟨rfl, rfl, rfl⟩

theorem Run_ok (E : Engine K) (fuel : Nat) (InConfig : FInsectBoidsConfig K)
    (ParticleCenter : FVector K) (calls : List (K × FInsectBoidsConfig K))
    (hN : 0 ≤ InConfig.NumParticles) (hcalls : ∀ c ∈ calls, CallEnds fuel c.1 c.2) :
    ∃ s, Run E fuel InConfig ParticleCenter calls = .ok s := by
  unfold Run
  rw [new_eq_Constructed E InConfig ParticleCenter hN]
  have hready : Ready fuel (Constructed E InConfig ParticleCenter) := by
    refine ⟨?_, Or.inl rfl⟩
    rw [(Constructed_lengths E InConfig ParticleCenter).1,
      (Constructed_lengths E InConfig ParticleCenter).2]
  obtain ⟨s, hs, _⟩ := SimulateAll_ok E fuel calls hcalls _ hready
  exact ⟨s, hs⟩

/-- C7 (amended): the two buffers keep the length fixed at construction, the particle
count of the constructor's configuration, through every sequence of `Simulate` calls; the
length of the read buffer therefore equals the particle count of the configuration the
engine holds whenever every call passes the particle count of construction. The calls
return whenever the jitter loops can end and the fuel covers them. -/
theorem Run_read_length (E : Engine K) (fuel : Nat) (InConfig : FInsectBoidsConfig K)
    (ParticleCenter : FVector K) (calls : List (K × FInsectBoidsConfig K)) :
    (∀ s, Run E fuel InConfig ParticleCenter calls = .ok s →
      ((GetReadParticles s).length : Int) = InConfig.NumParticles ∧
      ((GetWriteParticles s).length : Int) = InConfig.NumParticles ∧
      ((∀ c ∈ calls, c.2.NumParticles = InConfig.NumParticles) →
        ((GetReadParticles s).length : Int) = s.Config.NumParticles)) ∧
    (0 ≤ InConfig.NumParticles → (∀ c ∈ calls, CallEnds fuel c.1 c.2) →
      ∃ s, Run E fuel InConfig ParticleCenter calls = .ok s) := by
  refine ⟨?_, Run_ok E fuel InConfig ParticleCenter calls⟩
  intro s hs
  unfold Run at hs
  rw [Except_bind_eq_ok] at hs
  obtain ⟨s0, h0, hrun⟩ := hs
  obtain ⟨hN, rfl⟩ := new_ok E InConfig ParticleCenter s0 h0
  unfold SimulateAll at hrun
  have hinit : ((GetReadParticles (Constructed E InConfig ParticleCenter)).length : Int) =
        InConfig.NumParticles ∧
      ((GetWriteParticles (Constructed E InConfig ParticleCenter)).length : Int) =
        InConfig.NumParticles := by
    rw [(Constructed_lengths E InConfig ParticleCenter).1,
      (Constructed_lengths E InConfig ParticleCenter).2, Int.toNat_of_nonneg hN]
    exact ⟨rfl, rfl⟩
  have hlen := foldlM_ok_invariant
    (fun t : FInsectBoidsSimulator K =>
      ((GetReadParticles t).length : Int) = InConfig.NumParticles ∧
      ((GetWriteParticles t).length : Int) = InConfig.NumParticles)
    (fun st (c : K × FInsectBoidsConfig K) => Simulate E fuel st c.1 c.2)
    (fun t c t' ht hstep => by
      obtain ⟨h1, h2, _⟩ := Simulate_lengths E fuel t t' c.1 c.2 hstep
      rw [h1, h2]
      exact ⟨ht.2, ht.1⟩)
    calls (Constructed E InConfig ParticleCenter) s hinit hrun
  refine ⟨hlen.1, hlen.2, ?_⟩
  intro hsame
  have hcfg := foldlM_ok_invariant_mem
    (fun t : FInsectBoidsSimulator K => t.Config.NumParticles = InConfig.NumParticles)
    (fun st (c : K × FInsectBoidsConfig K) => Simulate E fuel st c.1 c.2) calls
    (fun t c t' hc _ hstep => by
      obtain ⟨_, _, h3⟩ := Simulate_lengths E fuel t t' c.1 c.2 hstep
      rw [h3]
      exact hsame c hc)
    (Constructed E InConfig ParticleCenter) s rfl hrun
  rw [hlen.1, hcfg]

/-- Witness of the amended C7: construction with two particles followed by two calls that
keep the particle count; the run returns and the read buffer has the length of the count the
engine holds. -/
theorem Run_read_length_witness :
    ∃ s, Run (Examples.RatEngine 0) 1 (Examples.DefaultConfig 2) ⟨0, 0, 0⟩
        [(1 / 300, Examples.DefaultConfig 2), (1 / 300, Examples.DefaultConfig 2)] = .ok s ∧
      ((GetReadParticles s).length : Int) = 2 ∧
      ((GetReadParticles s).length : Int) = s.Config.NumParticles := by
  have h := Run_read_length (Examples.RatEngine 0) 1 (Examples.DefaultConfig 2) ⟨0, 0, 0⟩
    [(1 / 300, Examples.DefaultConfig 2), (1 / 300, Examples.DefaultConfig 2)]
  obtain ⟨s, hs⟩ := h.2 (by decide) (by
    intro c hc
    simp only [List.mem_cons, List.mem_singleton, List.not_mem_nil, or_false, or_self] at hc
    subst hc
    exact ⟨Or.inl (by decide!), by decide!⟩)
  obtain ⟨h1, _, h3⟩ := h.1 s hs
  refine ⟨s, hs, h1, h3 ?_⟩
  intro c hc
  simp only [List.mem_cons, List.mem_singleton, List.not_mem_nil, or_false, or_self] at hc
  subst hc
  rfl

/-- Counterexample to C7 as stated: a simulator constructed with two particles and then
advanced with a configuration whose particle count is five keeps a read buffer of length
two while the configuration it holds says five. -/
theorem Run_read_length_differs :
    ((Run (Examples.RatEngine 0) 1 (Examples.DefaultConfig 2) ⟨0, 0, 0⟩
        [(1 / 300, Examples.DefaultConfig 5)]).toOption.map fun s =>
          (((GetReadParticles s).length : Int), s.Config.NumParticles)) = some (2, 5) ∧
    (2 : Int) ≠ 5 := by
  decide!

/-! ## The one-frame lag (C6) and the batches of a call (C5) -/

theorem Wait_Constructed (E : Engine K) (fuel : Nat) (InConfig : FInsectBoidsConfig K)
    (ParticleCenter : FVector K) :
    Wait E fuel (Constructed E InConfig ParticleCenter) =
      .ok (Constructed E InConfig ParticleCenter) := rfl

/-- C6: with the units a call launches completing at the wait of the next call, let
`sPrev` be the state after construction and the calls `pre`, and `sK` the state after one
more call. Then the read buffer of `sK` is the write buffer as it stands once the units
outstanding in `sPrev` (those of the previous call) have completed, and for the first call
it is the list of particles the constructor seeded; completing the units launched by the
new call leaves that read buffer unchanged; and what they compute is the read buffer after
the following call. The calls return whenever the jitter loops can end and the fuel covers
them. -/
theorem Simulate_one_frame_lag (E : Engine K) (fuel : Nat) (InConfig : FInsectBoidsConfig K)
    (ParticleCenter : FVector K) (pre : List (K × FInsectBoidsConfig K))
    (c : K × FInsectBoidsConfig K) :
    (∀ sPrev sK, Run E fuel InConfig ParticleCenter pre = .ok sPrev →
      Simulate E fuel sPrev c.1 c.2 = .ok sK →
      (∃ sw, Wait E fuel sPrev = .ok sw ∧ GetReadParticles sK = GetWriteParticles sw) ∧
      (pre = [] → GetReadParticles sK = Seeded E ParticleCenter InConfig.NumParticles.toNat) ∧
      (∀ sw', Wait E fuel sK = .ok sw' → GetReadParticles sw' = GetReadParticles sK) ∧
      (∀ sw' (c' : K × FInsectBoidsConfig K) sNext, Wait E fuel sK = .ok sw' →
        Simulate E fuel sK c'.1 c'.2 = .ok sNext →
        GetReadParticles sNext = GetWriteParticles sw')) ∧
    (0 ≤ InConfig.NumParticles → (∀ d ∈ pre ++ [c], CallEnds fuel d.1 d.2) →
      ∃ sPrev sK, Run E fuel InConfig ParticleCenter pre = .ok sPrev ∧
        Simulate E fuel sPrev c.1 c.2 = .ok sK) := by
  constructor
  · intro sPrev sK hprev hK
    obtain ⟨sw, hw, rfl⟩ := Simulate_ok E fuel sPrev sK c.1 c.2 hK
    refine ⟨⟨sw, hw, GetReadParticles_flip sw c.1 c.2⟩, ?_, ?_, ?_⟩
    · intro hpre
      subst hpre
      unfold Run SimulateAll at hprev
      rw [Except_bind_eq_ok] at hprev
      obtain ⟨s0, h0, h1⟩ := hprev
      obtain ⟨_, rfl⟩ := new_ok E InConfig ParticleCenter s0 h0
      simp only [List.foldlM_nil, pure, Except.pure] at h1
      cases h1
      rw [Wait_Constructed] at hw
      cases hw
      rw [GetReadParticles_flip]
      rfl
    · intro sw' hw'
      exact (SameFrame_Wait E fuel _ sw' hw').2.2.2.1
    · intro sw' c' sNext hw' hNext
      rw [Simulate_of_Wait E fuel _ sw' c'.1 c'.2 hw'] at hNext
      cases hNext
      exact GetReadParticles_flip sw' c'.1 c'.2
  · intro hN hcalls
    obtain ⟨s, hs⟩ := Run_ok E fuel InConfig ParticleCenter (pre ++ [c]) hN hcalls
    unfold Run SimulateAll at hs
    rw [Except_bind_eq_ok] at hs
    obtain ⟨s0, h0, h1⟩ := hs
    rw [List.foldlM_append, Except_bind_eq_ok] at h1
    obtain ⟨sPrev, h2, h3⟩ := h1
    refine ⟨sPrev, s, ?_, ?_⟩
    · unfold Run SimulateAll
      rw [h0]
      exact h2
    · simp only [List.foldlM_cons, List.foldlM_nil, bind_pure] at h3
      exact h3

/-- Witness of C6: construction with two particles and one call; the run returns and the
read buffer after the call holds the two seeded particles. -/
theorem Simulate_one_frame_lag_witness :
    ∃ sPrev sK, Run (Examples.RatEngine 0) 1 (Examples.DefaultConfig 2) ⟨0, 0, 0⟩ [] = .ok sPrev ∧
      Simulate (Examples.RatEngine 0) 1 sPrev (1 / 300) (Examples.DefaultConfig 2) = .ok sK ∧
      GetReadParticles sK = [Examples.AtRest 0 0 0, Examples.AtRest 0 0 0] := by
  have h := Simulate_one_frame_lag (Examples.RatEngine 0) 1 (Examples.DefaultConfig 2) ⟨0, 0, 0⟩
    [] (1 / 300, Examples.DefaultConfig 2)
  obtain ⟨sPrev, sK, h1, h2⟩ := h.2 (by decide) (by
    intro d hd
    simp only [List.nil_append, List.mem_singleton] at hd
    subst hd
    exact ⟨Or.inl (by decide!), by decide!⟩)
  refine ⟨sPrev, sK, h1, h2, ?_⟩
  rw [(h.1 sPrev sK h1 h2).2.1 rfl]
  decide!

theorem batch_end_fits (N : Nat) (hN : N ≤ 2147483616) (i : Nat) (hi : i < (N + 31) / 32) :
    ToInt32 (Int.ofNat (i * 32) + NumParticlesPerTask) =
      Int.ofNat (i * 32) + NumParticlesPerTask := by
  apply ToInt32_of_fits <;> simp only [NumParticlesPerTask, Int.ofNat_eq_coe] <;> omega

/-- C5 (amended): for a population of `N ≤ 2 ^ 31 - 32` particles, `Simulate` (once the wait
has returned) launches the grid task followed by one particle task per start index
`0, 32, 64, ...`, their number being the least `n` with `N ≤ 32 * n`; a unit is the loop of
`SimulateParticle` over its index range, from its start to the `int32` sum of its start
and `NumParticlesPerTask`, each iteration assigning the write slot of its own index only;
the range of unit `i` is exactly `i * 32, ..., min (i * 32 + 32) N - 1`, non-empty and
without repetition; the ranges of two distinct units are disjoint; and an index lies in
`[0, N)` exactly when it lies in the range of some unit. -/
theorem Simulate_batches (N : Nat) (hN : N ≤ 2147483616) :
    (∀ (E : Engine K) (fuel : Nat) (s sw : FInsectBoidsSimulator K) (DeltaTime : K)
        (UpdatedConfig : FInsectBoidsConfig K),
      Wait E fuel s = .ok sw → (GetWriteParticles sw).length = N →
      ∃ s', Simulate E fuel s DeltaTime UpdatedConfig = .ok s' ∧
        (GetReadParticles s').length = N ∧
        s'.SimulationTasks = FTask.SetupNeighborGrid ::
          (ParticleTaskStarts (N : Int)).map (fun st => FTask.SimulateParticles st DeltaTime) ∧
        (∀ (st : Int) (t : FInsectBoidsSimulator K),
          RunTask E fuel t (FTask.SimulateParticles st DeltaTime) =
            (SimulateParticlesIndices (GetReadParticles t).length st
              (ToInt32 (st + NumParticlesPerTask))).foldlM
              (fun u i => SimulateParticle E fuel u i DeltaTime) t) ∧
        ∀ (u u' : FInsectBoidsSimulator K) (k : Int),
          SimulateParticle E fuel u k DeltaTime = .ok u' →
          0 ≤ k ∧ ∃ p, u' = SetWriteParticle u k.toNat p) ∧
    ((ParticleTaskStarts (N : Int)).length = (N + 31) / 32 ∧
      N ≤ 32 * ((N + 31) / 32) ∧ 32 * ((N + 31) / 32) < N + 32) ∧
    (∀ i, i < (N + 31) / 32 →
      (ParticleTaskStarts (N : Int))[i]? = some (Int.ofNat (i * 32)) ∧
      SimulateParticlesIndices N (Int.ofNat (i * 32))
          (ToInt32 (Int.ofNat (i * 32) + NumParticlesPerTask)) =
        (List.range' (i * 32) (min (i * 32 + 32) N - i * 32)).map Int.ofNat ∧
      SimulateParticlesIndices N (Int.ofNat (i * 32))
        (ToInt32 (Int.ofNat (i * 32) + NumParticlesPerTask)) ≠ [] ∧
      (SimulateParticlesIndices N (Int.ofNat (i * 32))
        (ToInt32 (Int.ofNat (i * 32) + NumParticlesPerTask))).Nodup) ∧
    (∀ i j, i < (N + 31) / 32 → j < (N + 31) / 32 → i ≠ j → ∀ k,
      k ∈ SimulateParticlesIndices N (Int.ofNat (i * 32))
        (ToInt32 (Int.ofNat (i * 32) + NumParticlesPerTask)) →
      k ∉ SimulateParticlesIndices N (Int.ofNat (j * 32))
        (ToInt32 (Int.ofNat (j * 32) + NumParticlesPerTask))) ∧
    (∀ k : Int, (0 ≤ k ∧ k < N) ↔ ∃ i, i < (N + 31) / 32 ∧
      k ∈ SimulateParticlesIndices N (Int.ofNat (i * 32))
        (ToInt32 (Int.ofNat (i * 32) + NumParticlesPerTask))) := by
  obtain ⟨h1, h2, h3, h4, h5⟩ := batches_partition N
  have hend := batch_end_fits N hN
  refine ⟨?_, ⟨h1, by omega, by omega⟩, ?_, ?_, ?_⟩
  · intro E fuel s sw DeltaTime UpdatedConfig hw hN
    refine ⟨_, Simulate_of_Wait E fuel s sw DeltaTime UpdatedConfig hw, ?_, ?_, ?_, ?_⟩
    · rw [GetReadParticles_flip, hN]
    · unfold Launched
      rw [hN]
    · intro st t
      rfl
    · intro u u' k hk
      obtain ⟨h0, _, _, hp⟩ := SimulateParticle_ok E fuel u u' k DeltaTime hk
      exact ⟨h0, hp⟩
  · intro i hi
    rw [hend i hi]
    obtain ⟨a, b, c⟩ := h2 i hi
    exact ⟨a, b, c, h5 i hi⟩
  · intro i j hi hj hij k
    rw [hend i hi, hend j hj]
    exact h3 i j hi hj hij k
  · intro k
    constructor
    · intro hk
      obtain ⟨i, hi, hm⟩ := (h4 k).mp hk
      exact ⟨i, hi, by rw [hend i hi]; exact hm⟩
    · rintro ⟨i, hi, hm⟩
      rw [hend i hi] at hm
      exact (h4 k).mpr ⟨i, hi, hm⟩

/-- Witness of C5 on the two-particle scenario: the call returns with the grid task and one
particle task starting at index 0. -/
theorem Simulate_batches_witness :
    ∃ s', Simulate (Examples.RatEngine 0) 1 (Examples.ScenarioExample) (1 / 300)
        Examples.ScenarioConfig = .ok s' ∧
      (GetReadParticles s').length = 2 ∧
      s'.SimulationTasks = [FTask.SetupNeighborGrid, FTask.SimulateParticles 0 (1 / 300)] := by
  obtain ⟨s', h1, h2, h3, _, _⟩ := (Simulate_batches (K := ℚ) 2 (by decide)).1
    (Examples.RatEngine 0) 1
    Examples.ScenarioExample Examples.ScenarioExample (1 / 300) Examples.ScenarioConfig rfl rfl
  exact ⟨s', h1, h2, h3⟩

/-- Counterexample to C5 as stated: for `N = 2 ^ 31 - 1` particles the last of the
`2 ^ 26` units starts at `2 ^ 31 - 32`; the `int32` sum of this start and
`NumParticlesPerTask` is `-2 ^ 31`, so the index range of the unit is empty and the unit
returns the state unchanged: the particles from `2 ^ 31 - 32` on are not updated. -/
theorem Simulate_last_batch_overflows :
    (ParticleTaskStarts ((2147483647 : Nat) : Int)).length = 67108864 ∧
    (ParticleTaskStarts ((2147483647 : Nat) : Int))[67108863]? = some 2147483616 ∧
    ToInt32 (2147483616 + NumParticlesPerTask) = -2147483648 ∧
    SimulateParticlesIndices 2147483647 2147483616
      (ToInt32 (2147483616 + NumParticlesPerTask)) = [] ∧
    ∀ (E : Engine ℚ) (fuel : Nat) (t : FInsectBoidsSimulator ℚ) (DeltaTime : ℚ),
      (GetReadParticles t).length = 2147483647 →
      RunTask E fuel t (FTask.SimulateParticles 2147483616 DeltaTime) = .ok t := by
  obtain ⟨h1, h2, _⟩ := batches_partition 2147483647
  have hend : ToInt32 (2147483616 + NumParticlesPerTask) = -2147483648 := by
    unfold ToInt32 NumParticlesPerTask
    norm_num
  have hidx : SimulateParticlesIndices 2147483647 2147483616
      (ToInt32 (2147483616 + NumParticlesPerTask)) = [] := by
    rw [hend]
    unfold SimulateParticlesIndices
    norm_num
  refine ⟨by rw [h1], ?_, hend, hidx, ?_⟩
  · have h := (h2 67108863 (by norm_num)).1
    rw [h]
    norm_num
  · intro E fuel t DeltaTime hlen
    show SimulateParticles E fuel t 2147483616 (ToInt32 (2147483616 + NumParticlesPerTask))
      DeltaTime = .ok t
    unfold SimulateParticles
    rw [hlen, hidx]
    rfl

/-! ## The number of iterations of the jitter loop (C17) -/

theorem ApplyParticleJitterLoop_short (E : Engine K) (Config : FInsectBoidsConfig K)
    (DeltaSeconds : K) (hS : 0 < Config.JitterSubstepSize) (fuel : Nat) :
    ∀ (JitTime SubstepDelta : K) (p : FInsectBoidsParticle K),
      JitTime + fuel * Config.JitterSubstepSize < DeltaSeconds →
      ApplyParticleJitterLoop E Config DeltaSeconds fuel JitTime SubstepDelta p =
        .error .OutOfFuel := by
  induction fuel with
  | zero =>
    intro JitTime SubstepDelta p h
    simp only [Nat.cast_zero, zero_mul, add_zero] at h
    simp [ApplyParticleJitterLoop, h]
  | succ fuel ih =>
    intro JitTime SubstepDelta p h
    push_cast at h
    have hfs : 0 ≤ (fuel : K) * Config.JitterSubstepSize :=
      mul_nonneg (Nat.cast_nonneg _) (le_of_lt hS)
    have hlt : JitTime < DeltaSeconds := by nlinarith
    unfold ApplyParticleJitterLoop
    rw [if_pos hlt]
    apply ih
    have hm : Config.JitterSubstepSize ≤ DeltaSeconds - JitTime := by nlinarith
    rw [min_eq_left hm]
    nlinarith

theorem JitterFuel_le_iff (DeltaSeconds JitterSubstepSize : K) (hS : 0 < JitterSubstepSize)
    (fuel : Nat) :
    JitterFuel DeltaSeconds JitterSubstepSize ≤ fuel ↔ DeltaSeconds ≤ fuel * JitterSubstepSize := by
  unfold JitterFuel
  rw [Nat.ceil_le, div_le_iff₀ hS]

/-- C17: the fuel of `ApplyParticleJitterLoop` is the number of times the loop body may
run, and the fault `OutOfFuel` says that the loop condition still holds after that many
iterations. For `DeltaSeconds ≤ 0` the loop ends without running its body; for a positive
sub-step size and `DeltaSeconds ≥ 0` it ends within `fuel` iterations exactly when
`⌈DeltaSeconds / JitterSubstepSize⌉ ≤ fuel`, so it runs exactly that many iterations; for
`DeltaSeconds > 0` and a sub-step size `≤ 0` the condition still holds after any number of
iterations. Hence the loop ends if and only if `DeltaSeconds ≤ 0` or the sub-step size is
positive. -/
theorem ApplyParticleJitter_iterations (E : Engine K) (Config : FInsectBoidsConfig K)
    (DeltaSeconds : K) (p : FInsectBoidsParticle K) :
    (DeltaSeconds ≤ 0 → ∀ fuel, ApplyParticleJitter E Config fuel p DeltaSeconds = .ok p) ∧
    (0 < Config.JitterSubstepSize → 0 ≤ DeltaSeconds → ∀ fuel,
      ((∃ p', ApplyParticleJitter E Config fuel p DeltaSeconds = .ok p') ↔
        ⌈DeltaSeconds / Config.JitterSubstepSize⌉₊ ≤ fuel) ∧
      (fuel < ⌈DeltaSeconds / Config.JitterSubstepSize⌉₊ →
        ApplyParticleJitter E Config fuel p DeltaSeconds = .error .OutOfFuel)) ∧
    (0 < DeltaSeconds → Config.JitterSubstepSize ≤ 0 → ∀ fuel,
      ApplyParticleJitter E Config fuel p DeltaSeconds = .error .OutOfFuel) ∧
    ((∃ fuel p', ApplyParticleJitter E Config fuel p DeltaSeconds = .ok p') ↔
      (DeltaSeconds ≤ 0 ∨ 0 < Config.JitterSubstepSize)) := by
  have hzero : DeltaSeconds ≤ 0 → ∀ fuel,
      ApplyParticleJitter E Config fuel p DeltaSeconds = .ok p := by
    intro hd fuel
    have hnot : ¬ (0 : K) < DeltaSeconds := not_lt.mpr hd
    unfold ApplyParticleJitter
    cases fuel <;> simp [ApplyParticleJitterLoop, hnot]
  have hshort : 0 < Config.JitterSubstepSize → ∀ fuel,
      fuel < ⌈DeltaSeconds / Config.JitterSubstepSize⌉₊ →
      ApplyParticleJitter E Config fuel p DeltaSeconds = .error .OutOfFuel := by
    intro hS fuel hlt
    unfold ApplyParticleJitter
    apply ApplyParticleJitterLoop_short E Config DeltaSeconds hS
    rw [zero_add]
    have h := (JitterFuel_le_iff DeltaSeconds Config.JitterSubstepSize hS fuel).not
    unfold JitterFuel at h
    exact not_le.mp (h.mp (not_le.mpr hlt))
  have hdiv : 0 < DeltaSeconds → Config.JitterSubstepSize ≤ 0 → ∀ fuel,
      ApplyParticleJitter E Config fuel p DeltaSeconds = .error .OutOfFuel := by
    intro hd hS fuel
    unfold ApplyParticleJitter
    exact ApplyParticleJitterLoop_diverges E Config DeltaSeconds hS fuel 0 0 p hd
  refine ⟨hzero, ?_, hdiv, ?_⟩
  · intro hS _ fuel
    refine ⟨⟨?_, ?_⟩, hshort hS fuel⟩
    · rintro ⟨p', hp'⟩
      by_contra hlt
      rw [hshort hS fuel (not_le.mp hlt)] at hp'
      cases hp'
    · intro hle
      obtain ⟨p', hp', _⟩ := ApplyParticleJitter_ok E Config DeltaSeconds (Or.inl hS) fuel hle p
      exact ⟨p', hp'⟩
  · constructor
    · rintro ⟨fuel, p', hp'⟩
      by_contra hcon
      rw [not_or, not_le, not_lt] at hcon
      rw [hdiv hcon.1 hcon.2 fuel] at hp'
      cases hp'
    · intro h
      rcases h with hd | hS
      · exact ⟨0, p, hzero hd 0⟩
      · obtain ⟨p', hp', _⟩ := ApplyParticleJitter_ok E Config DeltaSeconds (Or.inl hS)
          (JitterFuel DeltaSeconds Config.JitterSubstepSize) le_rfl p
        exact ⟨_, p', hp'⟩

/-- Witness of C17 on the default sub-step size `1/300` and `DeltaSeconds = 1/100`: three
iterations, so fuel 3 suffices and fuel 2 does not. -/
theorem ApplyParticleJitter_iterations_witness :
    (∃ p', ApplyParticleJitter (Examples.RatEngine 1) (Examples.DefaultConfig 1) 3
      (Examples.AtRest 0 0 0) (1 / 100) = .ok p') ∧
    ApplyParticleJitter (Examples.RatEngine 1) (Examples.DefaultConfig 1) 2
      (Examples.AtRest 0 0 0) (1 / 100) = .error .OutOfFuel := by
  have h := (ApplyParticleJitter_iterations (Examples.RatEngine 1) (Examples.DefaultConfig 1)
    (1 / 100) (Examples.AtRest 0 0 0)).2.1 (by decide!) (by decide!)
  exact ⟨(h 3).1.mpr (by decide!), (h 2).2 (by decide!)⟩

/-! ## The buffer flip (C12) -/

theorem Fin2_xor_ne (c : Fin 2) : c ^^^ 1 ≠ c := by
  fin_cases c <;> decide

theorem Simulate_error (E : Engine K) (fuel : Nat) (s : FInsectBoidsSimulator K)
    (DeltaTime : K) (UpdatedConfig : FInsectBoidsConfig K) (e : Fault)
    (h : Simulate E fuel s DeltaTime UpdatedConfig = .error e) : Wait E fuel s = .error e := by
  cases hw : Wait E fuel s with
  | error e' =>
    unfold Simulate at h
    rw [hw] at h
    simp only [bind, Except.bind] at h
    exact h
  | ok sw =>
    rw [Simulate_of_Wait E fuel s sw DeltaTime UpdatedConfig hw] at h
    cases h

/-- C12: `FlipParticleContext` fails its assertion exactly when tasks are outstanding;
otherwise it changes nothing but the write index, which it toggles: both arrays, the
configuration, the grid and the task list are unchanged, the former write array is the
new read array and conversely, read and write index always differ, and a second flip
restores the state. `Simulate` reaches the flip with the task list emptied, so it fails
only if its wait fails, never by the assertion of the flip. -/
theorem FlipParticleContext_toggles (s : FInsectBoidsSimulator K) :
    (s.SimulationTasks ≠ [] → FlipParticleContext s = .error .CheckFailed) ∧
    (s.SimulationTasks = [] →
      ∃ s', FlipParticleContext s = .ok s' ∧
        s'.Particles0 = s.Particles0 ∧ s'.Particles1 = s.Particles1 ∧
        s'.Config = s.Config ∧ s'.SpatialHashGrid = s.SpatialHashGrid ∧
        s'.SimulationTasks = s.SimulationTasks ∧
        s'.CurrentContext = s.CurrentContext ^^^ 1 ∧ s'.CurrentContext ≠ s.CurrentContext ∧
        GetReadParticles s' = GetWriteParticles s ∧ GetWriteParticles s' = GetReadParticles s ∧
        FlipParticleContext s' = .ok s) ∧
    s.CurrentContext ^^^ 1 ≠ s.CurrentContext ∧
    (∀ sw : FInsectBoidsSimulator K, ∃ sf,
      FlipParticleContext { sw with SimulationTasks := [] } = .ok sf) ∧
    (∀ (E : Engine K) (fuel : Nat) (DeltaTime : K) (UpdatedConfig : FInsectBoidsConfig K),
      (∀ sw, Wait E fuel s = .ok sw →
        Simulate E fuel s DeltaTime UpdatedConfig = .ok (Launched sw DeltaTime UpdatedConfig)) ∧
      (∀ e, Simulate E fuel s DeltaTime UpdatedConfig = .error e → Wait E fuel s = .error e)) := by
  refine ⟨?_, ?_, Fin2_xor_ne _, ?_, ?_⟩
  · intro h
    unfold FlipParticleContext
    cases ht : s.SimulationTasks with
    | nil => exact absurd ht h
    | cons a t => rfl
  · intro h
    refine ⟨{ s with CurrentContext := s.CurrentContext ^^^ 1 }, ?_, rfl, rfl, rfl, rfl, rfl, rfl,
      Fin2_xor_ne _, ?_, rfl, ?_⟩
    · unfold FlipParticleContext
      rw [h]
      rfl
    · unfold GetReadParticles GetWriteParticles ParticlesAt
      simp only [Fin2_xor_xor]
    · unfold FlipParticleContext
      simp only [h, List.isEmpty_nil, if_true, Fin2_xor_xor]
      cases s
      simp only at h
      subst h
      rfl
  · intro sw
    exact ⟨_, rfl⟩
  · intro E fuel DeltaTime UpdatedConfig
    exact ⟨fun sw hw => Simulate_of_Wait E fuel s sw DeltaTime UpdatedConfig hw,
      fun e he => Simulate_error E fuel s DeltaTime UpdatedConfig e he⟩

/-- Witness of C12: the two-particle scenario has no outstanding task, so the flip
succeeds and exchanges the buffers; after a `Simulate` call tasks are outstanding and the
flip fails. -/
theorem FlipParticleContext_toggles_witness :
    (∃ s', FlipParticleContext (Examples.ScenarioExample : FInsectBoidsSimulator ℚ) = .ok s' ∧
      GetReadParticles s' = List.replicate 2 FInsectBoidsParticle.Defaulted ∧
      GetWriteParticles s' = [Examples.AtRest 0 0 0, Examples.AtRest 10 0 0]) ∧
    FlipParticleContext
      (Launched (Examples.ScenarioExample : FInsectBoidsSimulator ℚ) 1 Examples.ScenarioConfig) =
        .error .CheckFailed := by
  obtain ⟨s', h1, _, _, _, _, _, _, _, h2, h3, _⟩ :=
    (FlipParticleContext_toggles (Examples.ScenarioExample : FInsectBoidsSimulator ℚ)).2.1 rfl
  refine ⟨⟨s', h1, ?_, ?_⟩, ?_⟩
  · rw [h2]; rfl
  · rw [h3]; rfl
  · exact (FlipParticleContext_toggles
      (Launched (Examples.ScenarioExample : FInsectBoidsSimulator ℚ) 1
        Examples.ScenarioConfig)).1 (by simp [Launched])

/-! ## The particles after construction (C11) -/

theorem mem_Seeded (E : Engine K) (hE : RandInBox E) (ParticleCenter : FVector K) (n : Nat)
    (p : FInsectBoidsParticle K) (hp : p ∈ Seeded E ParticleCenter n) :
    InSeedCube ParticleCenter p.Position ∧ p.Velocity = FVector.splat 0 := by
  unfold Seeded at hp
  simp only [List.mem_map, List.mem_range] at hp
  obtain ⟨i, _, rfl⟩ := hp
  refine ⟨?_, rfl⟩
  apply hE <;> simp only [FVector.sub, FVector.add, FVector.splat] <;> linarith

/-- C11 (amended): for a particle count `N ≥ 0` and an engine whose random box points lie
in their box, construction returns a state whose two buffers have length `N`; every
particle of the write buffer has its position in the cube of half-extent 32 around the
centre and zero velocity; the read buffer holds `N` default particles (position zero,
velocity `(1, 0, 0)`); and the first `Simulate` call makes the seeded buffer the read
buffer. -/
theorem new_seeds_write_buffer (E : Engine K) (hE : RandInBox E)
    (InConfig : FInsectBoidsConfig K) (ParticleCenter : FVector K)
    (hN : 0 ≤ InConfig.NumParticles) :
    ∃ s0, new E InConfig ParticleCenter = .ok s0 ∧
      ((GetReadParticles s0).length : Int) = InConfig.NumParticles ∧
      ((GetWriteParticles s0).length : Int) = InConfig.NumParticles ∧
      (∀ p ∈ GetWriteParticles s0,
        InSeedCube ParticleCenter p.Position ∧ p.Velocity = FVector.splat 0) ∧
      GetReadParticles s0 =
        List.replicate InConfig.NumParticles.toNat FInsectBoidsParticle.Defaulted ∧
      ∀ (fuel : Nat) (DeltaTime : K) (UpdatedConfig : FInsectBoidsConfig K),
        ∃ s1, Simulate E fuel s0 DeltaTime UpdatedConfig = .ok s1 ∧
          GetReadParticles s1 = GetWriteParticles s0 := by
  refine ⟨Constructed E InConfig ParticleCenter,
    new_eq_Constructed E InConfig ParticleCenter hN, ?_, ?_, ?_, rfl, ?_⟩
  · rw [(Constructed_lengths E InConfig ParticleCenter).1, Int.toNat_of_nonneg hN]
  · rw [(Constructed_lengths E InConfig ParticleCenter).2, Int.toNat_of_nonneg hN]
  · intro p hp
    exact mem_Seeded E hE ParticleCenter _ p hp
  · intro fuel DeltaTime UpdatedConfig
    exact ⟨_, Simulate_of_Wait E fuel _ _ DeltaTime UpdatedConfig
      (Wait_Constructed E fuel InConfig ParticleCenter), GetReadParticles_flip _ _ _⟩

theorem RandInBox_EngineWith (Sqrt : K → K) (Noise : K) :
    RandInBox (Examples.EngineWith Sqrt Noise) := by
  intro n Min Max hx hy hz
  simp only [Examples.EngineWith, InBox, FVector.scale, FVector.add]
  refine ⟨⟨?_, ?_⟩, ⟨?_, ?_⟩, ⟨?_, ?_⟩⟩ <;> linarith

/-- Witness of the amended C11: two particles around the centre `(100, 0, 0)`. -/
theorem new_seeds_write_buffer_witness :
    ∃ s0, new (Examples.RatEngine 0) (Examples.DefaultConfig 2) ⟨100, 0, 0⟩ = .ok s0 ∧
      (∀ p ∈ GetWriteParticles s0,
        InSeedCube ⟨100, 0, 0⟩ p.Position ∧ p.Velocity = FVector.splat 0) ∧
      GetReadParticles s0 = List.replicate 2 FInsectBoidsParticle.Defaulted := by
  obtain ⟨s0, h0, _, _, h3, h4, _⟩ := new_seeds_write_buffer (Examples.RatEngine 0)
    (RandInBox_EngineWith _ _) (Examples.DefaultConfig 2) ⟨100, 0, 0⟩ (by decide)
  exact ⟨s0, h0, h3, h4⟩

/-- Counterexample to C11 as stated: after construction with two particles around the
centre `(100, 0, 0)`, the particles `GetReadParticles` returns before the first `Simulate`
call are at the origin, outside the cube around the centre, and have velocity `(1, 0, 0)`. -/
theorem new_read_buffer_defaulted :
    ((new (Examples.RatEngine 0) (Examples.DefaultConfig 2) ⟨100, 0, 0⟩).toOption.map
        fun s0 => GetReadParticles s0) =
      some [⟨⟨0, 0, 0⟩, ⟨1, 0, 0⟩⟩, ⟨⟨0, 0, 0⟩, ⟨1, 0, 0⟩⟩] ∧
    ¬ InSeedCube (⟨100, 0, 0⟩ : FVector ℚ) ⟨0, 0, 0⟩ ∧
    (⟨1, 0, 0⟩ : FVector ℚ) ≠ FVector.splat 0 := by
  refine ⟨by decide!, ?_, by decide!⟩
  unfold InSeedCube InBox
  decide!

/-! ## Particles within one cell size of each other (C18) and beyond it (C19) -/

theorem WithinCellSize_of_Dist (E : Engine K) (hE : SqrtExact E) (p q : FVector K)
    (h : FVector.Dist E p q ≤ 128) : WithinCellSize p q := by
  have h0 := Dist_nonneg E hE p q
  have hsq := Dist_mul_self E hE p q
  simp only [FVector.SizeSquared, FVector.sub] at hsq
  have hbound : ∀ a : K, a * a ≤ FVector.Dist E p q * FVector.Dist E p q → |a| ≤ 128 := by
    intro a ha
    have : |a| ≤ FVector.Dist E p q := by
      rw [abs_le]
      constructor
      · by_contra hc
        rw [not_le] at hc
        nlinarith
      · by_contra hc
        rw [not_le] at hc
        nlinarith
    linarith
  refine ⟨hbound _ ?_, hbound _ ?_, hbound _ ?_⟩
  · nlinarith [mul_self_nonneg (p.Y - q.Y), mul_self_nonneg (p.Z - q.Z)]
  · nlinarith [mul_self_nonneg (p.X - q.X), mul_self_nonneg (p.Z - q.Z)]
  · nlinarith [mul_self_nonneg (p.X - q.X), mul_self_nonneg (p.Y - q.Y)]

theorem mem_BlockOffsets (d : FIntVector) (h : Adjacent d ⟨0, 0, 0⟩) : d ∈ BlockOffsets := by
  have hc := BlockOffsets_count d
  rw [if_pos h] at hc
  exact List.count_pos_iff.mp (by omega)

theorem mem_VisitList_GridOf (Cap : Nat) (ps : List (FInsectBoidsParticle K)) (i j : Nat)
    (pj : FInsectBoidsParticle K) (hj : ps[j]? = some pj) (hij : j ≠ i) (c : FIntVector)
    (hadj : Reaches (GridIndex pj.Position) c)
    (hcap : (IndicesInCell ps (GridIndex pj.Position)).length ≤ Cap) :
    j ∈ VisitList (GridOf Cap ps) i c := by
  unfold VisitList
  rw [List.mem_flatMap]
  have ho : (⟨ToInt32 ((GridIndex pj.Position).X - c.X), ToInt32 ((GridIndex pj.Position).Y - c.Y),
      ToInt32 ((GridIndex pj.Position).Z - c.Z)⟩ : FIntVector) ∈ BlockOffsets := by
    apply mem_BlockOffsets
    simpa [Adjacent, Reaches] using hadj
  refine ⟨_, ho, ?_⟩
  rw [← (GridIndex_eq_add_iff pj.Position c _ ho).mpr rfl]
  unfold CellVisits
  rw [List.mem_filter, Bucket_GridOf, List.take_of_length_le hcap]
  exact ⟨(mem_IndicesInCell ps _ j).mpr ⟨pj, hj, rfl⟩, by simpa using hij⟩

/-- C18: for two distinct particles `i` and `j` of the read buffer, positions that differ
by at most 128 on every axis have cell coordinates `floor(position / 128)` that differ by at
most one on every axis, and with an exact square root a distance of at most 128 gives such
positions; the `int32` cells of the grid then differ by -1, 0 or 1 on every axis as `int32`
values, and by at most one when the cell coordinates are of absolute value below `2 ^ 31`.
Then, if the `int32` cell of `j` holds at most `NeighborGridSize` particles, the neighbour
query of `i` after `SetupNeighborGrid` passes `j` to its visitor, so the particle `j` is
among those whose repulsion contributions are summed for `i`; in particular this holds for
every `j` within `ParticleRepelDistance` of `i` when that distance is at most 128. -/
theorem IterateOverNeighbors_reaches_near (E : Engine K) (hE : SqrtExact E)
    (s : FInsectBoidsSimulator K) (i j : Nat) (pi pj : FInsectBoidsParticle K)
    (hi : (GetReadParticles s)[i]? = some pi) (hj : (GetReadParticles s)[j]? = some pj)
    (hij : j ≠ i) :
    (FVector.Dist E pi.Position pj.Position ≤ 128 → WithinCellSize pj.Position pi.Position) ∧
    (WithinCellSize pj.Position pi.Position →
      Adjacent (FloorIndex pj.Position) (FloorIndex pi.Position) ∧
      Reaches (GridIndex pj.Position) (GridIndex pi.Position) ∧
      (CellFits pi.Position → CellFits pj.Position →
        Adjacent (GridIndex pj.Position) (GridIndex pi.Position))) ∧
    (WithinCellSize pj.Position pi.Position →
      (IndicesInCell (GetReadParticles s) (GridIndex pj.Position)).length ≤ NeighborGridSize →
      (∃ L, IterateOverNeighbors (SetupNeighborGrid s) i
          (fun n a => (Except.ok (a ++ [n]) : Except Fault (List Nat))) [] = .ok L ∧ j ∈ L) ∧
      pj ∈ VisitedParticles (SetupNeighborGrid s) i pi) ∧
    (s.Config.ParticleRepelDistance ≤ 128 →
      FVector.Dist E pi.Position pj.Position ≤ s.Config.ParticleRepelDistance →
      (IndicesInCell (GetReadParticles s) (GridIndex pj.Position)).length ≤ NeighborGridSize →
      pj ∈ VisitedParticles (SetupNeighborGrid s) i pi) := by
  have hnear : FVector.Dist E pi.Position pj.Position ≤ 128 →
      WithinCellSize pj.Position pi.Position := by
    intro h
    rw [Dist_comm] at h
    exact WithinCellSize_of_Dist E hE _ _ h
  have hvisit : WithinCellSize pj.Position pi.Position →
      (IndicesInCell (GetReadParticles s) (GridIndex pj.Position)).length ≤ NeighborGridSize →
      j ∈ VisitList (SetupNeighborGrid s).SpatialHashGrid i (GridIndex pi.Position) := by
    intro hw hcap
    exact mem_VisitList_GridOf NeighborGridSize (GetReadParticles s) i j pj hj hij _
      (Reaches_of_Adjacent _ _ (Adjacent_of_WithinCellSize _ _ hw)) hcap
  have hpart : WithinCellSize pj.Position pi.Position →
      (IndicesInCell (GetReadParticles s) (GridIndex pj.Position)).length ≤ NeighborGridSize →
      pj ∈ VisitedParticles (SetupNeighborGrid s) i pi := by
    intro hw hcap
    unfold VisitedParticles
    rw [List.mem_filterMap]
    exact ⟨j, hvisit hw hcap, hj⟩
  refine ⟨hnear, ?_, ?_, ?_⟩
  · intro hw
    refine ⟨Adjacent_of_WithinCellSize _ _ hw,
      Reaches_of_Adjacent _ _ (Adjacent_of_WithinCellSize _ _ hw), ?_⟩
    intro hfi hfj
    rw [GridIndex_of_CellFits _ hfi, GridIndex_of_CellFits _ hfj]
    exact Adjacent_of_WithinCellSize _ _ hw
  · intro hw hcap
    exact ⟨⟨_, IterateOverNeighbors_trace (SetupNeighborGrid s) i pi hi, hvisit hw hcap⟩,
      hpart hw hcap⟩
  · intro hR hd hcap
    exact hpart (hnear (le_trans hd hR)) hcap

/-- Witness of C18 over `ℝ` with `Real.sqrt`, on the two-particle scenario: particle 1 is
at distance 10 of particle 0, within the repel distance 64, and is among the particles
visited for particle 0. -/
theorem IterateOverNeighbors_reaches_near_witness :
    SqrtExact (Examples.EngineWith Real.sqrt 0) ∧
    (Examples.AtRest 10 0 0 : FInsectBoidsParticle ℝ) ∈
      VisitedParticles (SetupNeighborGrid Examples.ScenarioExample) 0 (Examples.AtRest 0 0 0) := by
  refine ⟨SqrtExact_real 0, ?_⟩
  refine (IterateOverNeighbors_reaches_near (Examples.EngineWith Real.sqrt 0) (SqrtExact_real 0)
    (Examples.ScenarioExample : FInsectBoidsSimulator ℝ) 0 1 (Examples.AtRest 0 0 0)
    (Examples.AtRest 10 0 0) rfl rfl (by decide)).2.2.2 ?_ ?_ ?_
  · show (64 : ℝ) ≤ 128
    norm_num
  · show Real.sqrt _ ≤ (64 : ℝ)
    rw [Real.sqrt_le_iff]
    simp only [FVector.SizeSquared, FVector.sub, Examples.AtRest]
    norm_num
  · exact le_trans (IndicesInCell_length_le _ _) (by decide)

/-- C19: under the default configuration, the two particles at `(0,0,0)` and `(256,0,0)`
(cells 0 and 2 on the x axis) are at distance 256, which is within `AttractDistance`, yet
after `SetupNeighborGrid` the neighbour query of either visits nobody, so no particle
enters the cohesion centroid of either. -/
theorem FarPair_not_visited :
    (GetReadParticles Examples.FarPairExample).length < 32 ∧
    FVector.Dist (Examples.RatEngine 0) (Examples.AtRest 0 0 0 : FInsectBoidsParticle ℚ).Position
        (Examples.AtRest 256 0 0 : FInsectBoidsParticle ℚ).Position ≤
      Examples.FarPairExample.Config.AttractDistance ∧
    GridIndex (Examples.AtRest 0 0 0 : FInsectBoidsParticle ℚ).Position = ⟨0, 0, 0⟩ ∧
    GridIndex (Examples.AtRest 256 0 0 : FInsectBoidsParticle ℚ).Position = ⟨2, 0, 0⟩ ∧
    (IterateOverNeighbors (SetupNeighborGrid Examples.FarPairExample) 0
        (fun n a => (Except.ok (a ++ [n]) : Except Fault (List Nat))) []).toOption = some [] ∧
    (IterateOverNeighbors (SetupNeighborGrid Examples.FarPairExample) 1
        (fun n a => (Except.ok (a ++ [n]) : Except Fault (List Nat))) []).toOption = some [] ∧
    AttractNeighbors (Examples.RatEngine 0) Examples.FarPairExample.Config
        (Examples.AtRest 0 0 0)
        (VisitedParticles (SetupNeighborGrid Examples.FarPairExample) 0
          (Examples.AtRest 0 0 0)) = [] ∧
    AttractNeighbors (Examples.RatEngine 0) Examples.FarPairExample.Config
        (Examples.AtRest 256 0 0)
        (VisitedParticles (SetupNeighborGrid Examples.FarPairExample) 1
          (Examples.AtRest 256 0 0)) = [] := by
  refine ⟨by decide, by decide!, by decide!, by decide!, by decide!, by decide!, ?_, ?_⟩
  · have h : VisitedParticles (SetupNeighborGrid Examples.FarPairExample) 0
        (Examples.AtRest 0 0 0) = [] := by decide!
    rw [h]; rfl
  · have h : VisitedParticles (SetupNeighborGrid Examples.FarPairExample) 1
        (Examples.AtRest 256 0 0) = [] := by decide!
    rw [h]; rfl

/-! ## The value a particle update writes -/

theorem SimulateParticle_eq_UpdatedParticle (E : Engine K) (fuel : Nat)
    (s : FInsectBoidsSimulator K) (i : Int) (DeltaTime : K) :
    SimulateParticle E fuel s i DeltaTime =
      (UpdatedParticle E fuel s i DeltaTime).map (SetWriteParticle s i.toNat) := by
  unfold SimulateParticle UpdatedParticle
  by_cases hi : i < 0
  · rw [if_pos hi, if_pos hi]; rfl
  · rw [if_neg hi, if_neg hi]
    by_cases hw : (GetWriteParticles s).length ≤ i.toNat
    · rw [if_pos hw]
      have : (GetWriteParticles s)[i.toNat]? = none := List.getElem?_eq_none hw
      simp only [TArray.get, this, bind, Except.bind]
      rfl
    · rw [if_neg hw]
      have : (GetWriteParticles s)[i.toNat]? = some (GetWriteParticles s)[i.toNat] :=
        List.getElem?_eq_getElem (not_le.mp hw)
      simp only [TArray.get, this, bind, Except.bind]
      cases (GetReadParticles s)[i.toNat]? with
      | none => rfl
      | some cur =>
        simp only
        cases AccumulateNeighbors E s i.toNat cur with
        | error e => rfl
        | ok acc =>
          simp only
          cases ApplyParticleJitter E s.Config fuel _ DeltaTime <;> rfl

theorem IterateOverNeighbors_congr {σ : Type} (s t : FInsectBoidsSimulator K)
    (hr : GetReadParticles t = GetReadParticles s)
    (hg : t.SpatialHashGrid = s.SpatialHashGrid) (i : Nat)
    (Function : Nat → σ → Except Fault σ) (acc : σ) :
    IterateOverNeighbors t i Function acc = IterateOverNeighbors s i Function acc := by
  rw [IterateOverNeighbors_eq, IterateOverNeighbors_eq, hr, hg]

theorem UpdatedParticle_congr (E : Engine K) (fuel : Nat) (s t : FInsectBoidsSimulator K)
    (hc : t.Config = s.Config) (hr : GetReadParticles t = GetReadParticles s)
    (hg : t.SpatialHashGrid = s.SpatialHashGrid)
    (hw : (GetWriteParticles t).length = (GetWriteParticles s).length) (i : Int)
    (DeltaTime : K) :
    UpdatedParticle E fuel t i DeltaTime = UpdatedParticle E fuel s i DeltaTime := by
  unfold UpdatedParticle AccumulateNeighbors
  rw [hw, hr, hc]
  simp only [IterateOverNeighbors_congr s t hr hg]

theorem UpdatedParticle_ok (E : Engine K) (fuel : Nat) (s : FInsectBoidsSimulator K) (i : Int)
    (DeltaTime : K) (p : FInsectBoidsParticle K)
    (h : UpdatedParticle E fuel s i DeltaTime = .ok p) :
    0 ≤ i ∧ i.toNat < (GetWriteParticles s).length := by
  unfold UpdatedParticle at h
  by_cases hi : i < 0
  · rw [if_pos hi] at h; cases h
  · rw [if_neg hi] at h
    by_cases hw : (GetWriteParticles s).length ≤ i.toNat
    · rw [if_pos hw] at h; cases h
    · exact ⟨not_lt.mp hi, not_le.mp hw⟩

theorem Except_map_eq_ok {ε α β : Type} (x : Except ε α) (f : α → β) (b : β)
    (h : x.map f = .ok b) : ∃ a, x = .ok a ∧ f a = b := by
  cases x with
  | error e => cases h
  | ok a => exact ⟨a, rfl, Except.ok.inj h⟩

theorem Steps_append (E : Engine K) (fuel : Nat) (L1 L2 : List (Int × K))
    (s : FInsectBoidsSimulator K) :
    Steps E fuel (L1 ++ L2) s = Steps E fuel L1 s >>= Steps E fuel L2 := by
  unfold Steps
  rw [List.foldlM_append]

theorem Steps_described (E : Engine K) (fuel : Nat) (s : FInsectBoidsSimulator K)
    (L : List (Int × K)) (hL : SingleDelta L) :
    ∀ t, Steps E fuel L s = .ok t → Described E fuel s L t := by
  induction L using List.reverseRecOn with
  | nil =>
    intro t h
    simp only [Steps, List.foldlM_nil, pure, Except.pure] at h
    cases h
    exact ⟨SameFrame_refl s, rfl, fun x hx => absurd hx (List.not_mem_nil _), fun n _ => rfl⟩
  | append_singleton L0 x ih =>
    intro t h
    rw [Steps_append, Except_bind_eq_ok] at h
    obtain ⟨s1, h1, h2⟩ := h
    have hL0 : SingleDelta L0 := fun a ha b hb =>
      hL a (List.mem_append_left _ ha) b (List.mem_append_left _ hb)
    obtain ⟨hf, hg, hin, hout⟩ := ih hL0 s1 h1
    simp only [Steps, List.foldlM_cons, List.foldlM_nil, bind_pure] at h2
    rw [SimulateParticle_eq_UpdatedParticle] at h2
    obtain ⟨p, hp, rfl⟩ := Except_map_eq_ok _ _ _ h2
    rw [UpdatedParticle_congr E fuel s s1 hf.1 hf.2.2.2.1 hg hf.2.2.2.2] at hp
    obtain ⟨hx0, hxw⟩ := UpdatedParticle_ok E fuel s x.1 x.2 p hp
    have hxw1 : x.1.toNat < (GetWriteParticles s1).length := by rw [hf.2.2.2.2]; exact hxw
    refine ⟨SameFrame_trans hf (SameFrame_SetWriteParticle s1 _ p), ?_, ?_, ?_⟩
    · rw [SpatialHashGrid_SetWriteParticle]; exact hg
    · intro y hy
      rw [List.mem_append, List.mem_singleton] at hy
      rcases hy with hy | rfl
      · obtain ⟨q, hq, hqw⟩ := hin y hy
        refine ⟨q, hq, ?_⟩
        rw [GetWriteParticles_SetWriteParticle]
        by_cases hn : x.1.toNat = y.1.toNat
        · obtain ⟨hy0, _⟩ := UpdatedParticle_ok E fuel s y.1 y.2 q hq
          have h1eq : y.1 = x.1 := by omega
          have h2eq : y.2 = x.2 := hL y (List.mem_append_left _ hy) x
            (List.mem_append_right _ (List.mem_singleton_self _)) h1eq
          rw [h1eq, h2eq, hp] at hq
          cases hq
          rw [← hn]
          simp [List.getElem?_set, hxw1]
        · rw [List.getElem?_set_ne hn]
          exact hqw
      · exact ⟨p, hp, GetWriteParticles_SetWriteParticle_get s1 _ p hxw1⟩
    · intro n hn
      have hnx : x.1.toNat ≠ n := hn x (List.mem_append_right _ (List.mem_singleton_self _))
      rw [GetWriteParticles_SetWriteParticle, List.getElem?_set_ne hnx]
      exact hout n (fun y hy => hn y (List.mem_append_left _ hy))

theorem Steps_ok_of_all (E : Engine K) (fuel : Nat) (s : FInsectBoidsSimulator K)
    (L : List (Int × K)) (h : ∀ x ∈ L, ∃ p, UpdatedParticle E fuel s x.1 x.2 = .ok p) :
    ∃ t, Steps E fuel L s = .ok t := by
  have hinv := foldlM_ok_of_invariant
    (fun u : FInsectBoidsSimulator K => SameFrame s u ∧ u.SpatialHashGrid = s.SpatialHashGrid)
    (fun u (x : Int × K) => SimulateParticle E fuel u x.1 x.2) L ?_ s ⟨SameFrame_refl s, rfl⟩
  · obtain ⟨t, ht, _⟩ := hinv
    exact ⟨t, ht⟩
  · intro u x hx hu
    obtain ⟨p, hp⟩ := h x hx
    rw [← UpdatedParticle_congr E fuel s u hu.1.1 hu.1.2.2.2.1 hu.2 hu.1.2.2.2.2] at hp
    refine ⟨SetWriteParticle u x.1.toNat p, ?_, SameFrame_trans hu.1
      (SameFrame_SetWriteParticle u _ p), ?_⟩
    · show SimulateParticle E fuel u x.1 x.2 = _
      rw [SimulateParticle_eq_UpdatedParticle, hp]; rfl
    · rw [SpatialHashGrid_SetWriteParticle]; exact hu.2

theorem state_ext (s t : FInsectBoidsSimulator K) (hc : t.Config = s.Config)
    (hx : t.CurrentContext = s.CurrentContext) (ht : t.SimulationTasks = s.SimulationTasks)
    (hg : t.SpatialHashGrid = s.SpatialHashGrid) (hr : GetReadParticles t = GetReadParticles s)
    (hw : GetWriteParticles t = GetWriteParticles s) : t = s := by
  cases s with
  | mk sT sC s0 s1 sX sG =>
    cases t with
    | mk tT tC t0 t1 tX tG =>
      simp only at hc hx ht hg
      subst hc hx ht hg
      simp only [GetReadParticles, GetWriteParticles, ParticlesAt] at hr hw
      rcases Fin2_cases tX with h | h
      · subst h
        have h1 : ((0 : Fin 2) ^^^ 1) ≠ 0 := by decide
        simp only [h1, if_false, if_true] at hr hw
        subst hr hw
        rfl
      · subst h
        have h1 : ((1 : Fin 2) ^^^ 1) = 0 := by decide
        have h2 : (1 : Fin 2) ≠ 0 := by decide
        simp only [h1, h2, if_false, if_true] at hr hw
        subst hr hw
        rfl

theorem Described_unique (E : Engine K) (fuel : Nat) (s t1 t2 : FInsectBoidsSimulator K)
    (L1 L2 : List (Int × K)) (h1 : Described E fuel s L1 t1) (h2 : Described E fuel s L2 t2)
    (hmem : ∀ x, x ∈ L1 ↔ x ∈ L2) : t1 = t2 := by
  obtain ⟨f1, g1, in1, out1⟩ := h1
  obtain ⟨f2, g2, in2, out2⟩ := h2
  apply state_ext t2 t1 (f1.1.trans f2.1.symm) (f1.2.1.trans f2.2.1.symm)
    (f1.2.2.1.trans f2.2.2.1.symm) (g1.trans g2.symm) (f1.2.2.2.1.trans f2.2.2.2.1.symm)
  apply List.ext_getElem?
  intro n
  by_cases hn : ∃ x ∈ L1, x.1.toNat = n
  · obtain ⟨x, hx, rfl⟩ := hn
    obtain ⟨p, hp, hpw⟩ := in1 x hx
    obtain ⟨q, hq, hqw⟩ := in2 x ((hmem x).mp hx)
    rw [hp] at hq
    cases hq
    rw [hpw, hqw]
  · have hn1 : ∀ x ∈ L1, x.1.toNat ≠ n := fun x hx e => hn ⟨x, hx, e⟩
    have hn2 : ∀ x ∈ L2, x.1.toNat ≠ n := fun x hx e => hn ⟨x, (hmem x).mpr hx, e⟩
    rw [out1 n hn1, out2 n hn2]

theorem Steps_order (E : Engine K) (fuel : Nat) (s t : FInsectBoidsSimulator K)
    (L1 L2 : List (Int × K)) (hL : SingleDelta L1) (hmem : ∀ x, x ∈ L1 ↔ x ∈ L2)
    (h : Steps E fuel L1 s = .ok t) : Steps E fuel L2 s = .ok t := by
  have hd1 := Steps_described E fuel s L1 hL t h
  have hL2 : SingleDelta L2 := fun x hx y hy =>
    hL x ((hmem x).mpr hx) y ((hmem y).mpr hy)
  obtain ⟨t2, ht2⟩ := Steps_ok_of_all E fuel s L2 (fun x hx => by
    obtain ⟨p, hp, _⟩ := hd1.2.2.1 x ((hmem x).mpr hx)
    exact ⟨p, hp⟩)
  have hd2 := Steps_described E fuel s L2 hL2 t2 ht2
  rw [ht2, Described_unique E fuel s t t2 L1 L2 hd1 hd2 hmem]

theorem foldlM_map_pair {σ : Type} (f : σ → Int × K → Except Fault σ) (l : List Int) (d : K)
    (s : σ) :
    (l.map fun k => (k, d)).foldlM f s = l.foldlM (fun u k => f u (k, d)) s := by
  induction l generalizing s with
  | nil => rfl
  | cons a t ih =>
    simp only [List.map_cons, List.foldlM_cons]
    congr 1
    funext u
    exact ih u

theorem SimulateParticles_eq_Steps (E : Engine K) (fuel : Nat) (s : FInsectBoidsSimulator K)
    (Start End : Int) (DeltaTime : K) :
    SimulateParticles E fuel s Start End DeltaTime =
      Steps E fuel (BatchSteps (GetReadParticles s).length Start End DeltaTime) s := by
  unfold SimulateParticles Steps BatchSteps
  rw [foldlM_map_pair]

theorem Steps_SameFrame (E : Engine K) (fuel : Nat) (s t : FInsectBoidsSimulator K)
    (L : List (Int × K)) (h : Steps E fuel L s = .ok t) : SameFrame s t := by
  unfold Steps at h
  refine foldlM_ok_invariant (fun u => SameFrame s u) _ ?_ _ s t (SameFrame_refl s) h
  intro u x u' hu hstep
  exact SameFrame_trans hu (SameFrame_SimulateParticle E fuel u u' x.1 x.2 hstep).1

theorem mem_BatchSteps (Num : Nat) (Start End : Int) (DeltaTime : K) (x : Int × K) :
    x ∈ BatchSteps Num Start End DeltaTime ↔
      x.2 = DeltaTime ∧ Start ≤ x.1 ∧ x.1 < End ∧ x.1 < Num := by
  unfold BatchSteps
  rw [List.mem_map]
  constructor
  · rintro ⟨k, hk, rfl⟩
    exact ⟨rfl, (mem_SimulateParticlesIndices Num Start End k).mp hk⟩
  · rintro ⟨h1, h2⟩
    exact ⟨x.1, (mem_SimulateParticlesIndices Num Start End x.1).mpr h2, by rw [← h1]⟩

theorem SingleDelta_BatchSteps (Num : Nat) (Start End : Int) (DeltaTime : K) :
    SingleDelta (BatchSteps Num Start End DeltaTime) := by
  intro x hx y hy _
  rw [((mem_BatchSteps Num Start End DeltaTime x).mp hx).1,
    ((mem_BatchSteps Num Start End DeltaTime y).mp hy).1]

theorem two_batches_eq_Steps (E : Engine K) (fuel : Nat) (s : FInsectBoidsSimulator K)
    (Start1 End1 : Int) (Delta1 : K) (Start2 End2 : Int) (Delta2 : K) :
    (SimulateParticles E fuel s Start1 End1 Delta1 >>= fun u =>
        SimulateParticles E fuel u Start2 End2 Delta2) =
      Steps E fuel (BatchSteps (GetReadParticles s).length Start1 End1 Delta1 ++
        BatchSteps (GetReadParticles s).length Start2 End2 Delta2) s := by
  rw [Steps_append, SimulateParticles_eq_Steps]
  cases h : Steps E fuel (BatchSteps (GetReadParticles s).length Start1 End1 Delta1) s with
  | error e => rfl
  | ok u =>
    show SimulateParticles E fuel u Start2 End2 Delta2 = Steps E fuel _ u
    rw [SimulateParticles_eq_Steps, (Steps_SameFrame E fuel s u _ h).2.2.2.1]

theorem tasks_eq_Steps (E : Engine K) (fuel : Nat) (DeltaTime : K) (starts : List Int) :
    ∀ s : FInsectBoidsSimulator K,
      (starts.map fun st => FTask.SimulateParticles st DeltaTime).foldlM (RunTask E fuel) s =
        Steps E fuel (starts.flatMap fun st =>
          BatchSteps (GetReadParticles s).length st (ToInt32 (st + NumParticlesPerTask)) DeltaTime) s := by
  induction starts with
  | nil => intro s; rfl
  | cons a rest ih =>
    intro s
    rw [List.map_cons, List.foldlM_cons, List.flatMap_cons, Steps_append]
    show (SimulateParticles E fuel s a (ToInt32 (a + NumParticlesPerTask)) DeltaTime >>= _) = _
    rw [SimulateParticles_eq_Steps]
    cases h : Steps E fuel
        (BatchSteps (GetReadParticles s).length a (ToInt32 (a + NumParticlesPerTask)) DeltaTime) s with
    | error e => rfl
    | ok u =>
      show List.foldlM (RunTask E fuel) u _ = Steps E fuel _ u
      rw [ih u, (Steps_SameFrame E fuel s u _ h).2.2.2.1]

/-! ## What a batch changes (C14) and the order of the batches (C15) -/

/-- C14: a call `SimulateParticles(Start, End, DeltaTime)` that returns leaves the
configuration, the grid, the read buffer, the task list, the context and the length of the
write buffer as they were, and every write slot whose index is not in
`[Start, min End N)`, `N` being the length of the read buffer, keeps its content. The call
returns when `0 ≤ Start`, the grid stores indices of the read buffer, the two buffers have
the same length, and the jitter loop can end within the fuel. -/
theorem SimulateParticles_frame (E : Engine K) (fuel : Nat) (s : FInsectBoidsSimulator K)
    (Start End : Int) (DeltaTime : K) :
    (∀ s', SimulateParticles E fuel s Start End DeltaTime = .ok s' →
      s'.Config = s.Config ∧ s'.SpatialHashGrid = s.SpatialHashGrid ∧
      GetReadParticles s' = GetReadParticles s ∧ s'.SimulationTasks = s.SimulationTasks ∧
      s'.CurrentContext = s.CurrentContext ∧
      (GetWriteParticles s').length = (GetWriteParticles s).length ∧
      ∀ n : Nat, ¬ (Start ≤ (n : Int) ∧ (n : Int) < min End ((GetReadParticles s).length : Int)) →
        (GetWriteParticles s')[n]? = (GetWriteParticles s)[n]?) ∧
    (0 ≤ Start → GridValid s →
      (GetReadParticles s).length = (GetWriteParticles s).length →
      CallEnds fuel DeltaTime s.Config →
      ∃ s', SimulateParticles E fuel s Start End DeltaTime = .ok s') := by
  constructor
  · intro s' h
    rw [SimulateParticles_eq_Steps] at h
    obtain ⟨hf, hg, hin, hout⟩ := Steps_described E fuel s _
      (SingleDelta_BatchSteps _ Start End DeltaTime) s' h
    refine ⟨hf.1, hg, hf.2.2.2.1, hf.2.2.1, hf.2.1, hf.2.2.2.2, ?_⟩
    intro n hn
    apply hout
    intro x hx hxn
    obtain ⟨p, hp, _⟩ := hin x hx
    obtain ⟨h0, _⟩ := UpdatedParticle_ok E fuel s x.1 x.2 p hp
    obtain ⟨_, h1, h2, h3⟩ := (mem_BatchSteps _ Start End DeltaTime x).mp hx
    apply hn
    have hxe : x.1 = (n : Int) := by omega
    rw [← hxe]
    exact ⟨h1, lt_min h2 h3⟩
  · intro hS hgrid hlen hends
    obtain ⟨t, ht, _⟩ := SimulateParticles_ok E fuel s s hgrid hlen DeltaTime hends
      ⟨SameFrame_refl s, rfl⟩ Start End hS
    exact ⟨t, ht⟩

/-- Witness of C14 on the two-particle scenario: the batch `[0, 1)` returns and leaves
slot 1 of the write buffer as it was. -/
theorem SimulateParticles_frame_witness :
    ∃ s', SimulateParticles (Examples.RatEngine 0) 1 (SetupNeighborGrid Examples.ScenarioExample)
        0 1 (1 / 300) = .ok s' ∧
      GetReadParticles s' = [Examples.AtRest 0 0 0, Examples.AtRest 10 0 0] ∧
      (GetWriteParticles s')[1]? = some FInsectBoidsParticle.Defaulted := by
  have h := SimulateParticles_frame (Examples.RatEngine 0) 1
    (SetupNeighborGrid Examples.ScenarioExample) 0 1 (1 / 300)
  obtain ⟨s', hs'⟩ := h.2 (by decide) (GridValid_SetupNeighborGridWith _ _) rfl
    ⟨Or.inl (by decide!), by decide!⟩
  obtain ⟨_, _, hr, _, _, _, hw⟩ := h.1 s' hs'
  refine ⟨s', hs', hr, ?_⟩
  rw [hw 1 (by decide)]
  rfl

theorem SingleDelta_append_disjoint (Num : Nat) (Start1 End1 : Int) (Delta1 : K)
    (Start2 End2 : Int) (Delta2 : K)
    (hdis : ∀ k, k ∈ SimulateParticlesIndices Num Start1 End1 →
      k ∉ SimulateParticlesIndices Num Start2 End2) :
    SingleDelta (BatchSteps Num Start1 End1 Delta1 ++ BatchSteps Num Start2 End2 Delta2) := by
  intro x hx y hy hxy
  rw [List.mem_append] at hx hy
  have key : ∀ a b : Int × K, a ∈ BatchSteps Num Start1 End1 Delta1 →
      b ∈ BatchSteps Num Start2 End2 Delta2 → a.1 = b.1 → False := by
    intro a b ha hb hab
    have h1 := (mem_BatchSteps Num Start1 End1 Delta1 a).mp ha
    have h2 := (mem_BatchSteps Num Start2 End2 Delta2 b).mp hb
    apply hdis a.1 ((mem_SimulateParticlesIndices Num Start1 End1 a.1).mpr h1.2)
    rw [hab]
    exact (mem_SimulateParticlesIndices Num Start2 End2 b.1).mpr h2.2
  rcases hx with hx | hx <;> rcases hy with hy | hy
  · exact SingleDelta_BatchSteps Num Start1 End1 Delta1 x hx y hy hxy
  · exact absurd hxy (fun e => key x y hx hy e)
  · exact absurd hxy (fun e => key y x hy hx e.symm)
  · exact SingleDelta_BatchSteps Num Start2 End2 Delta2 x hx y hy hxy

/-- C15: the update of particle `i` stores `UpdatedParticle`, which is the same for all
states that agree on the configuration, the read buffer, the grid and the length of the
write buffer, whatever the write buffer holds; two batches with disjoint index ranges
return the same state in either order; and the particle tasks of a frame return the same
state in whatever order they are run. -/
theorem SimulateParticles_order_independent (E : Engine K) (fuel : Nat)
    (s : FInsectBoidsSimulator K) :
    (∀ (t : FInsectBoidsSimulator K) (i : Int) (DeltaTime : K), t.Config = s.Config →
      GetReadParticles t = GetReadParticles s → t.SpatialHashGrid = s.SpatialHashGrid →
      (GetWriteParticles t).length = (GetWriteParticles s).length →
      SimulateParticle E fuel t i DeltaTime =
        (UpdatedParticle E fuel s i DeltaTime).map (SetWriteParticle t i.toNat)) ∧
    (∀ (Start1 End1 : Int) (Delta1 : K) (Start2 End2 : Int) (Delta2 : K),
      (∀ k, k ∈ SimulateParticlesIndices (GetReadParticles s).length Start1 End1 →
        k ∉ SimulateParticlesIndices (GetReadParticles s).length Start2 End2) →
      ∀ s', (SimulateParticles E fuel s Start1 End1 Delta1 >>= fun u =>
          SimulateParticles E fuel u Start2 End2 Delta2) = .ok s' ↔
        (SimulateParticles E fuel s Start2 End2 Delta2 >>= fun u =>
          SimulateParticles E fuel u Start1 End1 Delta1) = .ok s') ∧
    (∀ (DeltaTime : K) (starts1 starts2 : List Int), starts1.Perm starts2 →
      ∀ s', (starts1.map fun st => FTask.SimulateParticles st DeltaTime).foldlM
          (RunTask E fuel) s = .ok s' ↔
        (starts2.map fun st => FTask.SimulateParticles st DeltaTime).foldlM
          (RunTask E fuel) s = .ok s') := by
  refine ⟨?_, ?_, ?_⟩
  · intro t i DeltaTime hc hr hg hw
    rw [SimulateParticle_eq_UpdatedParticle, UpdatedParticle_congr E fuel s t hc hr hg hw]
  · intro Start1 End1 Delta1 Start2 End2 Delta2 hdis s'
    rw [two_batches_eq_Steps, two_batches_eq_Steps]
    have hmem : ∀ x, x ∈ BatchSteps (GetReadParticles s).length Start1 End1 Delta1 ++
        BatchSteps (GetReadParticles s).length Start2 End2 Delta2 ↔
        x ∈ BatchSteps (GetReadParticles s).length Start2 End2 Delta2 ++
          BatchSteps (GetReadParticles s).length Start1 End1 Delta1 := by
      intro x
      rw [List.mem_append, List.mem_append, or_comm]
    constructor
    · exact Steps_order E fuel s s' _ _
        (SingleDelta_append_disjoint _ Start1 End1 Delta1 Start2 End2 Delta2 hdis) hmem
    · exact Steps_order E fuel s s' _ _
        (SingleDelta_append_disjoint _ Start2 End2 Delta2 Start1 End1 Delta1
          (fun k h2 h1 => hdis k h1 h2)) (fun x => (hmem x).symm)
  · intro DeltaTime starts1 starts2 hperm s'
    rw [tasks_eq_Steps, tasks_eq_Steps]
    have hsd : ∀ l : List Int, SingleDelta (l.flatMap fun st =>
        BatchSteps (GetReadParticles s).length st (ToInt32 (st + NumParticlesPerTask)) DeltaTime) := by
      intro l x hx y hy _
      rw [List.mem_flatMap] at hx hy
      obtain ⟨a, _, ha⟩ := hx
      obtain ⟨b, _, hb⟩ := hy
      rw [((mem_BatchSteps _ _ _ DeltaTime x).mp ha).1, ((mem_BatchSteps _ _ _ DeltaTime y).mp hb).1]
    have hmem : ∀ x, x ∈ (starts1.flatMap fun st =>
        BatchSteps (GetReadParticles s).length st (ToInt32 (st + NumParticlesPerTask)) DeltaTime) ↔
        x ∈ (starts2.flatMap fun st =>
          BatchSteps (GetReadParticles s).length st (ToInt32 (st + NumParticlesPerTask)) DeltaTime) := by
      intro x
      simp only [List.mem_flatMap]
      constructor
      · rintro ⟨a, ha, hx⟩
        exact ⟨a, hperm.mem_iff.mp ha, hx⟩
      · rintro ⟨a, ha, hx⟩
        exact ⟨a, hperm.mem_iff.mpr ha, hx⟩
    exact ⟨Steps_order E fuel s s' _ _ (hsd starts1) hmem,
      Steps_order E fuel s s' _ _ (hsd starts2) (fun x => (hmem x).symm)⟩

/-- Witness of C15 on the two-particle scenario: the batches `[0, 1)` and `[1, 2)` return
the same state in either order. -/
theorem SimulateParticles_order_independent_witness :
    ∃ s', (SimulateParticles (Examples.RatEngine 0) 1
          (SetupNeighborGrid Examples.ScenarioExample) 0 1 (1 / 300) >>= fun u =>
        SimulateParticles (Examples.RatEngine 0) 1 u 1 2 (1 / 300)) = .ok s' ∧
      (SimulateParticles (Examples.RatEngine 0) 1
          (SetupNeighborGrid Examples.ScenarioExample) 1 2 (1 / 300) >>= fun u =>
        SimulateParticles (Examples.RatEngine 0) 1 u 0 1 (1 / 300)) = .ok s' := by
  have hsome : ((SimulateParticles (Examples.RatEngine 0) 1
      (SetupNeighborGrid Examples.ScenarioExample) 0 1 (1 / 300) >>= fun u =>
      SimulateParticles (Examples.RatEngine 0) 1 u 1 2 (1 / 300)).toOption.isSome) = true := by
    decide!
  cases h : (SimulateParticles (Examples.RatEngine 0) 1
      (SetupNeighborGrid Examples.ScenarioExample) 0 1 (1 / 300) >>= fun u =>
      SimulateParticles (Examples.RatEngine 0) 1 u 1 2 (1 / 300)) with
  | error e =>
    rw [h] at hsome
    cases hsome
  | ok s' =>
    refine ⟨s', rfl, ?_⟩
    exact ((SimulateParticles_order_independent (Examples.RatEngine 0) 1
      (SetupNeighborGrid Examples.ScenarioExample)).2.1 0 1 (1 / 300) 1 2 (1 / 300)
      (by decide) s').mp h

/-! ## Every array access is in bounds (C16) -/

theorem foldlM_NoCheckFailed {α σ : Type} (P : σ → Prop) (f : σ → α → Except Fault σ)
    (l : List α) (hf : ∀ s a, a ∈ l → P s → NoCheckFailed P (f s a)) (s : σ) (hs : P s) :
    NoCheckFailed P (l.foldlM f s) := by
  induction l generalizing s with
  | nil => exact Or.inl ⟨s, rfl, hs⟩
  | cons a t ih =>
    rw [List.foldlM_cons]
    rcases hf s a (List.mem_cons_self _ _) hs with ⟨s1, h1, hp1⟩ | h1
    · rw [h1]
      exact ih (fun s a ha hp => hf s a (List.mem_cons_of_mem _ ha) hp) s1 hp1
    · rw [h1]
      exact Or.inr rfl

theorem ApplyParticleJitterLoop_fault (E : Engine K) (Config : FInsectBoidsConfig K)
    (DeltaSeconds : K) (fuel : Nat) :
    ∀ (JitTime SubstepDelta : K) (p : FInsectBoidsParticle K),
      NoCheckFailed (fun _ => True)
        (ApplyParticleJitterLoop E Config DeltaSeconds fuel JitTime SubstepDelta p) := by
  induction fuel with
  | zero =>
    intro JitTime SubstepDelta p
    unfold ApplyParticleJitterLoop
    split
    · exact Or.inr rfl
    · exact Or.inl ⟨p, rfl, trivial⟩
  | succ fuel ih =>
    intro JitTime SubstepDelta p
    unfold ApplyParticleJitterLoop
    split
    · exact ih _ _ _
    · exact Or.inl ⟨p, rfl, trivial⟩

theorem SimulateParticles_NoCheckFailed (E : Engine K) (fuel : Nat)
    (s1 t : FInsectBoidsSimulator K) (hgrid : GridValid s1)
    (hlen : (GetReadParticles s1).length = (GetWriteParticles s1).length) (DeltaTime : K)
    (ht : SameFrame s1 t ∧ t.SpatialHashGrid = s1.SpatialHashGrid)
    (Start End : Int) (hStart : 0 ≤ Start) :
    NoCheckFailed (fun u => SameFrame s1 u ∧ u.SpatialHashGrid = s1.SpatialHashGrid)
      (SimulateParticles E fuel t Start End DeltaTime) := by
  unfold SimulateParticles
  apply foldlM_NoCheckFailed _ _ _ _ t ht
  intro u k hk hu
  obtain ⟨⟨hc, hx, hts, hr, hwl⟩, hg⟩ := hu
  rw [mem_SimulateParticlesIndices, ht.1.2.2.2.1] at hk
  obtain ⟨hk0, _, hkN⟩ := hk
  have hk0' : 0 ≤ k := le_trans hStart hk0
  have hkn : k.toNat < (GetReadParticles s1).length := by omega
  have hgu : GridValid u := by
    intro c n hn
    rw [hg] at hn
    rw [hr]
    exact hgrid c n hn
  have hcur : (GetReadParticles u)[k.toNat]? = some (GetReadParticles s1)[k.toNat] := by
    rw [hr]; exact List.getElem?_eq_getElem hkn
  have hw : k.toNat < (GetWriteParticles u).length := by rw [hwl, ← hlen]; exact hkn
  have hkk : ((k.toNat : Nat) : Int) = k := Int.toNat_of_nonneg hk0'
  have heq := SimulateParticle_eq E fuel u hgu k.toNat _ hcur hw DeltaTime
  rw [hkk] at heq
  rw [heq]
  unfold ApplyParticleJitter
  rcases ApplyParticleJitterLoop_fault E u.Config DeltaTime fuel 0 0
    (MoveStep u.Config (SteeredParticle E u k.toNat (GetReadParticles s1)[k.toNat]) DeltaTime)
    with ⟨pj, hpj, _⟩ | hpj
  · rw [hpj]
    refine Or.inl ⟨_, rfl, ?_, ?_⟩
    · exact SameFrame_trans ⟨hc, hx, hts, hr, hwl⟩ (SameFrame_SetWriteParticle u _ _)
    · rw [SpatialHashGrid_SetWriteParticle]; exact hg
  · rw [hpj]
    exact Or.inr rfl

theorem Wait_NoCheckFailed (E : Engine K) (fuel : Nat) (s : FInsectBoidsSimulator K)
    (hs : TasksWellFormed s) : NoCheckFailed (fun sw => SameFrame s sw) (Wait E fuel s) := by
  obtain ⟨hlen, htasks⟩ := hs
  rcases htasks with h | ⟨DeltaTime, starts, h, hstarts⟩
  · exact Or.inl ⟨s, by unfold Wait; rw [h]; rfl, SameFrame_refl _⟩
  · unfold Wait
    rw [h, List.foldlM_cons]
    show NoCheckFailed _ (List.foldlM (RunTask E fuel) (SetupNeighborGrid s) _)
    have hinv := foldlM_NoCheckFailed
      (fun u => SameFrame (SetupNeighborGrid s) u ∧
        u.SpatialHashGrid = (SetupNeighborGrid s).SpatialHashGrid)
      (RunTask E fuel) (starts.map (fun st => FTask.SimulateParticles st DeltaTime)) ?_
      (SetupNeighborGrid s) ⟨SameFrame_refl _, rfl⟩
    · rcases hinv with ⟨sw, hsw, hf, _⟩ | hinv
      · exact Or.inl ⟨sw, hsw, SameFrame_trans (SameFrame_SetupNeighborGridWith _ s) hf⟩
      · exact Or.inr hinv
    · intro u a ha hu
      simp only [List.mem_map] at ha
      obtain ⟨st, hst, rfl⟩ := ha
      exact SimulateParticles_NoCheckFailed E fuel (SetupNeighborGrid s) u
        (GridValid_SetupNeighborGridWith _ s) hlen DeltaTime hu st _ (hstarts st hst)

theorem TasksWellFormed_Launched (s sw : FInsectBoidsSimulator K) (hsw : SameFrame s sw)
    (hlen : (GetReadParticles s).length = (GetWriteParticles s).length)
    (DeltaTime : K) (UpdatedConfig : FInsectBoidsConfig K) :
    TasksWellFormed (Launched sw DeltaTime UpdatedConfig) ∧
      (GetReadParticles (Launched sw DeltaTime UpdatedConfig)).length =
        (GetReadParticles s).length := by
  obtain ⟨_, _, _, hr, hwl⟩ := hsw
  refine ⟨⟨?_, Or.inr ⟨DeltaTime, _, rfl, ParticleTaskStarts_nonneg _⟩⟩, ?_⟩
  · rw [GetReadParticles_flip, GetWriteParticles_flip, hr, hwl, hlen]
  · rw [GetReadParticles_flip, hwl, hlen]

theorem Simulate_NoCheckFailed (E : Engine K) (fuel : Nat) (s : FInsectBoidsSimulator K)
    (hs : TasksWellFormed s) (DeltaTime : K) (UpdatedConfig : FInsectBoidsConfig K) :
    NoCheckFailed (fun t => TasksWellFormed t ∧
        (GetReadParticles t).length = (GetReadParticles s).length)
      (Simulate E fuel s DeltaTime UpdatedConfig) := by
  rcases Wait_NoCheckFailed E fuel s hs with ⟨sw, hsw, hf⟩ | hw
  · exact Or.inl ⟨_, Simulate_of_Wait E fuel s sw DeltaTime UpdatedConfig hsw,
      TasksWellFormed_Launched s sw hf hs.1 DeltaTime UpdatedConfig⟩
  · refine Or.inr ?_
    unfold Simulate
    rw [hw]
    rfl

theorem SimulateAll_NoCheckFailed (E : Engine K) (fuel : Nat)
    (calls : List (K × FInsectBoidsConfig K)) (N : Nat) (s : FInsectBoidsSimulator K)
    (hs : TasksWellFormed s ∧ (GetReadParticles s).length = N) :
    NoCheckFailed (fun t => TasksWellFormed t ∧ (GetReadParticles t).length = N)
      (SimulateAll E fuel s calls) := by
  unfold SimulateAll
  apply foldlM_NoCheckFailed _ _ calls _ s hs
  intro t c _ ht
  rcases Simulate_NoCheckFailed E fuel t ht.1 c.1 c.2 with ⟨t', ht', hw, hl⟩ | h
  · exact Or.inl ⟨t', ht', hw, by rw [hl]; exact ht.2⟩
  · exact Or.inr h

theorem Run_NoCheckFailed (E : Engine K) (fuel : Nat) (InConfig : FInsectBoidsConfig K)
    (ParticleCenter : FVector K) (calls : List (K × FInsectBoidsConfig K))
    (hN : 0 ≤ InConfig.NumParticles) :
    NoCheckFailed (fun t => TasksWellFormed t ∧
        (GetReadParticles t).length = InConfig.NumParticles.toNat)
      (Run E fuel InConfig ParticleCenter calls) := by
  unfold Run
  rw [new_eq_Constructed E InConfig ParticleCenter hN]
  apply SimulateAll_NoCheckFailed E fuel calls _ (Constructed E InConfig ParticleCenter)
  refine ⟨⟨?_, Or.inl rfl⟩, (Constructed_lengths E InConfig ParticleCenter).1⟩
  rw [(Constructed_lengths E InConfig ParticleCenter).1,
    (Constructed_lengths E InConfig ParticleCenter).2]

theorem NoCheckFailed_ne {α : Type} (P : α → Prop) (x : Except Fault α)
    (h : NoCheckFailed P x) : x ≠ .error .CheckFailed := by
  rcases h with ⟨a, ha, _⟩ | h
  · rw [ha]; intro hc; cases hc
  · rw [h]; intro hc; cases hc

/-- C16: in every state reached from construction by `Simulate` calls, both buffers have
the length `N` fixed at construction and no array access of the update pass is out of
bounds: the run never fails a range check (it returns, or the jitter loop exhausts its
fuel), nor does the pass waiting in the reached state; every index `SetupNeighborGrid`
stores and every index `IterateOverNeighbors` hands to its visitor is below `N`; and every
index a launched batch uses to read and write lies in `[0, N)`, whatever its end index (in
the source the `int32` sum of its start and `NumParticlesPerTask`, clamped to `N`). -/
theorem Run_in_bounds (E : Engine K) (fuel : Nat) (InConfig : FInsectBoidsConfig K)
    (ParticleCenter : FVector K) (calls : List (K × FInsectBoidsConfig K))
    (hN : 0 ≤ InConfig.NumParticles) :
    Run E fuel InConfig ParticleCenter calls ≠ .error .CheckFailed ∧
      ∀ s, Run E fuel InConfig ParticleCenter calls = .ok s →
        ((GetReadParticles s).length : Int) = InConfig.NumParticles ∧
        ((GetWriteParticles s).length : Int) = InConfig.NumParticles ∧
        Wait E fuel s ≠ .error .CheckFailed ∧
        (∀ c, ∀ n ∈ Bucket (SetupNeighborGrid s).SpatialHashGrid c,
          (n : Int) < InConfig.NumParticles) ∧
        (∀ (i : Nat) (L : List Nat), IterateOverNeighbors (SetupNeighborGrid s) i
            (fun n a => (Except.ok (a ++ [n]) : Except Fault (List Nat))) [] = .ok L →
          ∀ n ∈ L, (n : Int) < InConfig.NumParticles) ∧
        ∀ (Start End : Int) (DeltaTime : K),
          FTask.SimulateParticles Start DeltaTime ∈ s.SimulationTasks →
          ∀ k ∈ SimulateParticlesIndices (GetReadParticles s).length Start End,
            0 ≤ k ∧ k < InConfig.NumParticles := by
  have hrun := Run_NoCheckFailed E fuel InConfig ParticleCenter calls hN
  refine ⟨NoCheckFailed_ne _ _ hrun, ?_⟩
  intro s hs
  rcases hrun with ⟨t, ht, hwf, hlen⟩ | herr
  swap
  · rw [herr] at hs; cases hs
  rw [ht] at hs
  cases hs
  have hNat : ((InConfig.NumParticles.toNat : Nat) : Int) = InConfig.NumParticles :=
    Int.toNat_of_nonneg hN
  have hvalid : GridValid (SetupNeighborGrid s) := GridValid_SetupNeighborGridWith _ s
  have hread : GetReadParticles (SetupNeighborGrid s) = GetReadParticles s := rfl
  refine ⟨by rw [hlen, hNat], by rw [← hwf.1, hlen, hNat],
    NoCheckFailed_ne _ _ (Wait_NoCheckFailed E fuel s hwf), ?_, ?_, ?_⟩
  · intro c n hn
    have := hvalid c n hn
    rw [hread, hlen] at this
    omega
  · intro i L hL n hn
    obtain ⟨p, _, rfl⟩ := IterateOverNeighbors_trace_mem _ i L hL
    have := GridValid_VisitList _ hvalid i _ n hn
    rw [hread, hlen] at this
    omega
  · intro Start End DeltaTime hmem k hk
    rw [mem_SimulateParticlesIndices] at hk
    obtain ⟨hk0, _, hkN⟩ := hk
    rw [hlen, hNat] at hkN
    refine ⟨?_, hkN⟩
    rcases hwf.2 with h | ⟨dt, starts, h, hstarts⟩
    · rw [h] at hmem; cases hmem
    · rw [h] at hmem
      simp only [List.mem_cons, List.mem_map, reduceCtorEq, false_or] at hmem
      obtain ⟨st, hst, heq⟩ := hmem
      cases heq
      exact le_trans (hstarts _ hst) hk0

theorem Run_in_bounds_witness :
    ∃ s, Run (Examples.RatEngine 0) 1 Examples.ScenarioConfig ⟨0, 0, 0⟩
        [(1 / 300, Examples.ScenarioConfig), (1 / 300, Examples.ScenarioConfig)] = .ok s ∧
      ((GetReadParticles s).length : Int) = 2 ∧
      Wait (Examples.RatEngine 0) 1 s ≠ .error .CheckFailed ∧
      ∀ c, ∀ n ∈ Bucket (SetupNeighborGrid s).SpatialHashGrid c, (n : Int) < 2 := by
  have hcalls : ∀ c ∈ [((1 / 300 : ℚ), (Examples.ScenarioConfig : FInsectBoidsConfig ℚ)),
      (1 / 300, Examples.ScenarioConfig)], CallEnds 1 c.1 c.2 := by
    intro c hc
    simp only [List.mem_cons, List.mem_nil_iff, or_false, or_self] at hc
    subst hc
    exact ⟨Or.inl (by decide!), by decide!⟩
  obtain ⟨s, hs⟩ := Run_ok (Examples.RatEngine 0) 1 Examples.ScenarioConfig ⟨0, 0, 0⟩ _
    (by decide) hcalls
  have h := (Run_in_bounds (Examples.RatEngine 0) 1 Examples.ScenarioConfig ⟨0, 0, 0⟩
    [(1 / 300, Examples.ScenarioConfig), (1 / 300, Examples.ScenarioConfig)] (by decide)).2 s hs
  exact ⟨s, hs, h.1, h.2.2.1, h.2.2.2.1⟩

/-! ## The speed of a particle is not bounded by 1 (C20) -/

/-- C20 (code evaluated at two inputs with both strengths in `[0, 1]`): with the default
strengths, a particle at `(0,0,0)` of unit velocity `(-1,0,0)` and neighbours at rest at
`(1,0,0)` and `(2,0,0)`, `SimulateParticles` writes the velocity `(-82431/80000, 0, 0)`,
of squared length above 1; and with repulsion strength 1 and attraction strength 0, three
particles the constructor seeds at `(0,0,0)`, `(1,0,0)`, `(2,0,0)` with zero velocity have
after the first frame the velocities `(∓125/64, 0, 0)` at the two ends, of length `125/64`.
In both the repulsion sum `(-125/64, 0, 0)` enters the blend without being normalised. -/
theorem SimulateParticles_speed_exceeds_one :
    ((SimulateParticles (Examples.RatEngine 0) 1 (SetupNeighborGrid Examples.MovingExample)
        0 1 (1 / 300)).toOption.bind fun s =>
      (GetWriteParticles s)[0]?.map fun p => p.Velocity) = some ⟨-82431 / 80000, 0, 0⟩ ∧
    FVector.Length (Examples.RatEngine 0) ⟨-1, 0, 0⟩ = 1 ∧
    1 < FVector.SizeSquared (⟨-82431 / 80000, 0, 0⟩ : FVector ℚ) ∧
    SteerSum (Examples.RatEngine 0) Examples.MovingExample.Config ⟨⟨0, 0, 0⟩, ⟨-1, 0, 0⟩⟩
      [Examples.AtRest 1 0 0, Examples.AtRest 2 0 0] = ⟨-125 / 64, 0, 0⟩ ∧
    ((Run Examples.LineEngine 1 Examples.StrongRepelConfig ⟨0, 0, 0⟩
        [(1 / 300, Examples.StrongRepelConfig)]).toOption.map fun s =>
      GetReadParticles s) =
        some [Examples.AtRest 0 0 0, Examples.AtRest 1 0 0, Examples.AtRest 2 0 0] ∧
    ((Run Examples.LineEngine 1 Examples.StrongRepelConfig ⟨0, 0, 0⟩
        [(1 / 300, Examples.StrongRepelConfig),
          (1 / 300, Examples.StrongRepelConfig)]).toOption.map fun s =>
      (GetReadParticles s).map fun p => p.Velocity) =
        some [⟨-125 / 64, 0, 0⟩, ⟨0, 0, 0⟩, ⟨125 / 64, 0, 0⟩] ∧
    FVector.Length (Examples.RatEngine 0) ⟨125 / 64, 0, 0⟩ = 125 / 64 ∧
    (0 : ℚ) ≤ Examples.StrongRepelConfig.RepelStrength ∧
    Examples.StrongRepelConfig.RepelStrength ≤ 1 ∧
    (0 : ℚ) ≤ Examples.StrongRepelConfig.AttractionStrength ∧
    Examples.StrongRepelConfig.AttractionStrength ≤ 1 := by
  decide!

end FInsectBoidsSimulator

end InsectBoids
